import Mathlib

/-! # Oberthur AWP personalisation (`src/pkcs15init/pkcs15-oberthur.c`)

A shallow embedding of the card-specific PKCS#15 initialisation operations of
the Oberthur driver, followed by theorems about them. Every operation of the
file is embedded except `cosm_store_key`.

Conventions of the embedding:

* A C return value `rv` is an `Rv`: `Rv.ok n` is the non-negative value `n`
  (`SC_SUCCESS` is `Rv.ok 0`), `Rv.err e` is the negative code `SC_ERROR_e`.
  `SC_TEST_RET(ctx, rv, msg)` returns `rv` from the function when `rv < 0`.
* Byte buffers, C strings and `sc_path` values are `List Nat`; a path is the
  list of its first `len` bytes.
* Numeric constants of headers that are not part of this source file are the
  fields of `Consts` and are parameters of every operation that uses them.
* The card and the generic pkcs15init layer (`sc_select_file`,
  `sc_pkcs15init_authenticate`, `sc_pkcs15init_create_file`, `sc_delete_file`,
  `sc_pkcs15init_update_file`, `sc_card_ctl`) are a record of transition
  functions `CardPrims σ` over an arbitrary card state `σ`; every call is
  appended to the ghost field `State.trace`.
* Allocation (`calloc`, `malloc`, `sc_file_new`) always succeeds, logging
  (`sc_debug`) is dropped, and pointers that the callers never pass as `NULL`
  (`p15card`, `profile`, `pubkey_file`, `prvkey_file`) are not optional.
-/

namespace Oberthur

/-! ## Return codes -/

/-- The error kinds of `opensc/errors.h` that this file names, and every other
negative code (`CARD n`) that the card or the generic layer may report. -/
inductive ScError where
  | FILE_NOT_FOUND
  | FILE_ALREADY_EXISTS
  | INVALID_ARGUMENTS
  | OUT_OF_MEMORY
  | NOT_SUPPORTED
  | INCONSISTENT_PROFILE
  | INVALID_PIN_REFERENCE
  | CARD (code : Nat)
  deriving DecidableEq

/-- A C `int` result: `ok n` is `n ≥ 0`, `err e` is the negative `SC_ERROR_e`. -/
inductive Rv where
  | ok (n : Nat)
  | err (e : ScError)
  deriving DecidableEq

/-- The test `rv < 0`. -/
def Rv.isErr : Rv → Bool
  | .ok _ => false
  | .err _ => true

/-- The test `rv > 0`. -/
def Rv.isPos : Rv → Bool
  | .ok n => decide (0 < n)
  | .err _ => false

def SC_SUCCESS : Rv := .ok 0

/-! ## Constants -/

/-- Constants of `opensc/pkcs15.h` and `opensc/cardctl.h` that the source uses
in bit operations or stores in files. Their values are not in this file. -/
structure Consts where
  SC_PKCS15_CARD_FLAG_PRN_GENERATION : Nat
  SC_PKCS15_CARD_FLAG_LOGIN_REQUIRED : Nat
  SC_PKCS15_CARD_FLAG_USER_PIN_INITIALIZED : Nat
  SC_PKCS15_CARD_FLAG_TOKEN_INITIALIZED : Nat
  SC_PKCS15_PIN_FLAG_LOCAL : Nat
  SC_PKCS15_PIN_FLAG_UNBLOCKING_PIN : Nat
  SC_PKCS15_PIN_FLAG_SO_PIN : Nat
  SC_PKCS15_TYPE_CLASS_MASK : Nat
  SC_PKCS15_TYPE_PRKEY_RSA : Nat
  SC_PKCS15_TYPE_PUBKEY_RSA : Nat
  SC_PKCS15_TYPE_PUBKEY_DSA : Nat
  SC_PKCS15_TYPE_CERT : Nat
  SC_PKCS15_TYPE_DATA_OBJECT : Nat
  SC_CARDCTL_OBERTHUR_KEY_RSA_CRT : Nat
  SC_CARDCTL_OBERTHUR_KEY_RSA_PUBLIC : Nat

def SC_DEVICE_SPECIFIC_TYPE : Nat := 0x1000

def COSM_TYPE_PRKEY_RSA (c : Consts) : Nat :=
  SC_DEVICE_SPECIFIC_TYPE ||| c.SC_PKCS15_TYPE_PRKEY_RSA

def COSM_TYPE_PUBKEY_RSA (c : Consts) : Nat :=
  SC_DEVICE_SPECIFIC_TYPE ||| c.SC_PKCS15_TYPE_PUBKEY_RSA

def COSM_TOKEN_FLAG_PRN_GENERATION : Nat := 0x01
def COSM_TOKEN_FLAG_LOGIN_REQUIRED : Nat := 0x04
def COSM_TOKEN_FLAG_USER_PIN_INITIALIZED : Nat := 0x08
def COSM_TOKEN_FLAG_TOKEN_INITIALIZED : Nat := 0x0400

/-- The operator `~m` on a 32-bit `unsigned`. -/
def bnot32 (m : Nat) : Nat := 0xFFFFFFFF - m % 4294967296

/-! ## Files, profile, card -/

/-- The `SC_AC_OP_*` operations used by the source. -/
inductive AcOp where
  | DELETE
  | UPDATE
  | CRYPTO
  | CREATE
  | PSO_ENCRYPT
  | PSO_VERIFY_SIGNATURE
  | EXTERNAL_AUTHENTICATE
  | OTHER (n : Nat)
  deriving DecidableEq

/-- The `SC_AC_*` access methods: `SC_AC_NONE`, `SC_AC_CHV`, any other. -/
inductive AcMethod where
  | NONE
  | CHV
  | OTHER (n : Nat)
  deriving DecidableEq

/-- The `SC_FILE_TYPE_*` values. -/
inductive ScFileType where
  | DF
  | INTERNAL_EF
  | WORKING_EF
  | OTHER (n : Nat)
  deriving DecidableEq

/-- The `SC_FILE_STATUS_*` values. -/
inductive ScFileStatus where
  | ACTIVATED
  | OTHER (n : Nat)
  deriving DecidableEq

structure AclEntry where
  op : AcOp
  method : AcMethod
  key_ref : Nat
  deriving DecidableEq

/-- The fields of `struct sc_file` that the source reads or writes. -/
structure ScFile where
  path : List Nat
  id : Nat
  size : Nat
  type : ScFileType
  ef_structure : Nat
  status : ScFileStatus
  acl : List AclEntry
  deriving DecidableEq

/-- The fields of `struct sc_pkcs15_pin_info` that the source reads or writes. -/
structure PinInfo where
  reference : Int
  flags : Nat
  path : List Nat
  tries_left : Int
  deriving DecidableEq

/-- The roles `SC_PKCS15INIT_*` of `sc_profile_get_pin_info`. -/
inductive PinRole where
  | SO_PIN
  | SO_PUK
  | USER_PIN
  | USER_PUK
  deriving DecidableEq

/-- The struct `sc_cardctl_oberthur_createpin_info`; `pin_len` and `puk_len`
are stored as given, `puk = none` is the `NULL` left by `memset`. -/
structure CreatePinInfo where
  type : AcMethod
  ref : Int
  pin : List Nat
  pin_len : Nat
  pin_tries : Int
  puk : Option (List Nat)
  puk_len : Nat
  puk_tries : Nat
  deriving DecidableEq

/-- The input fields of `struct sc_cardctl_oberthur_genkey_info`. -/
structure GenkeyInfo where
  id_prv : Nat
  id_pub : Nat
  exponent : Nat
  key_bits : Nat
  pubkey_len : Nat
  deriving DecidableEq

/-- A call that crossed the boundary to the card or to the generic layer. -/
inductive CardCmd where
  | select (path : List Nat)
  | authenticate (file : ScFile) (op : AcOp)
  | create (file : ScFile)
  | delete (path : List Nat)
  | update (file : ScFile) (data : List Nat)
  | ctl_create_pin (args : CreatePinInfo)
  | ctl_generate_key (args : GenkeyInfo)
  | free_apps
  deriving DecidableEq

/-- The card and the generic pkcs15init layer as transition functions on a
card state `σ`. The file returned by `select_file` is meaningful only when
the result is not an error. -/
structure CardPrims (σ : Type) where
  select_file : σ → List Nat → Rv × ScFile × σ
  authenticate : σ → ScFile → AcOp → Rv × σ
  create_file : σ → ScFile → Rv × σ
  delete_file : σ → List Nat → Rv × σ
  update_file : σ → ScFile → List Nat → Rv × σ
  ctl_create_pin : σ → CreatePinInfo → Rv × σ
  ctl_generate_key : σ → GenkeyInfo → Rv × List Nat × σ
  free_apps : σ → σ

/-- The struct `sc_pkcs15_card` that `profile->p15_spec` points to. -/
structure P15Spec where
  label : Option (List Nat)
  flags : Nat
  deriving DecidableEq

/-- The parts of `struct sc_profile` that the source only reads:
`sc_profile_get_file` (0 and a file, or a negative code), `df_info->file`
and `sc_profile_get_pin_info`. -/
structure Profile where
  get_file : String → Except ScError ScFile
  df_info_file : ScFile
  get_pin_info : PinRole → PinInfo

/-- What the operations change: the card behind `p15card->card`, the label
and flags of `p15card`, the card description `profile->p15_spec`, and the
ghost trace of issued commands. -/
structure State (σ : Type) where
  card : σ
  trace : List CardCmd
  label : Option (List Nat)
  flags : Nat
  p15_spec : Option P15Spec

/-! ## Logged primitives -/

def sc_select_file {σ : Type} (P : CardPrims σ) (s : State σ) (path : List Nat) :
    Rv × ScFile × State σ :=
  let r := P.select_file s.card path
  (r.1, r.2.1, { s with card := r.2.2, trace := s.trace ++ [CardCmd.select path] })

def sc_pkcs15init_authenticate {σ : Type} (P : CardPrims σ) (s : State σ) (file : ScFile)
    (op : AcOp) : Rv × State σ :=
  let r := P.authenticate s.card file op
  (r.1, { s with card := r.2, trace := s.trace ++ [CardCmd.authenticate file op] })

def sc_pkcs15init_create_file {σ : Type} (P : CardPrims σ) (s : State σ) (file : ScFile) :
    Rv × State σ :=
  let r := P.create_file s.card file
  (r.1, { s with card := r.2, trace := s.trace ++ [CardCmd.create file] })

def sc_delete_file {σ : Type} (P : CardPrims σ) (s : State σ) (path : List Nat) :
    Rv × State σ :=
  let r := P.delete_file s.card path
  (r.1, { s with card := r.2, trace := s.trace ++ [CardCmd.delete path] })

def sc_pkcs15init_update_file {σ : Type} (P : CardPrims σ) (s : State σ) (file : ScFile)
    (data : List Nat) : Rv × State σ :=
  let r := P.update_file s.card file data
  (r.1, { s with card := r.2, trace := s.trace ++ [CardCmd.update file data] })

def sc_card_ctl_create_pin {σ : Type} (P : CardPrims σ) (s : State σ) (args : CreatePinInfo) :
    Rv × State σ :=
  let r := P.ctl_create_pin s.card args
  (r.1, { s with card := r.2, trace := s.trace ++ [CardCmd.ctl_create_pin args] })

def sc_card_ctl_generate_key {σ : Type} (P : CardPrims σ) (s : State σ) (args : GenkeyInfo) :
    Rv × List Nat × State σ :=
  let r := P.ctl_generate_key s.card args
  (r.1, r.2.1, { s with card := r.2.2, trace := s.trace ++ [CardCmd.ctl_generate_key args] })

def sc_free_apps {σ : Type} (P : CardPrims σ) (s : State σ) : State σ :=
  { s with card := P.free_apps s.card, trace := s.trace ++ [CardCmd.free_apps] }

/-! ## C string and memory helpers -/

/-- The characters of the C string stored in `src`: the bytes before the
first NUL. -/
def cstr (src : List Nat) : List Nat := src.takeWhile (fun b => b != 0)

/-- The call `strlen(buf)`. -/
def strlen (buf : List Nat) : Nat := (cstr buf).length

/-- The call `strncpy(dst, src, n)`: exactly `n` bytes of `dst` are written,
the characters of `src` and then NULs. -/
def strncpy (dst src : List Nat) (n : Nat) : List Nat :=
  (cstr src).take n ++ List.replicate (n - (cstr src).length) 0 ++ dst.drop n

/-- The call `snprintf(dst, n, fmt)` without further arguments, for a format
that holds no conversion specification: at most `n - 1` characters and a NUL
are written. A format with a `%` is copied as it stands; the C call would read
arguments that were never passed, which this embedding does not describe. -/
def snprintf (dst : List Nat) (n : Nat) (fmt : List Nat) : List Nat :=
  if n = 0 then dst
  else (cstr fmt).take (n - 1) ++ [0] ++ dst.drop (min (cstr fmt).length (n - 1) + 1)

/-- The call `memset(buf + off, v, n)`. -/
def memset (buf : List Nat) (off v n : Nat) : List Nat :=
  buf.take off ++ List.replicate n v ++ buf.drop (off + n)

/-- The bytes of the literal `"OpenSC-Token"`. -/
def OPENSC_TOKEN : List Nat := [79, 112, 101, 110, 83, 67, 45, 84, 111, 107, 101, 110]

/-! ## `cosm_write_tokeninfo` -/

/-- Lines 113-123: the device flags built from `p15_flags`. -/
def cosm_tokeninfo_flags (c : Consts) (p15_flags : Nat) : Nat :=
  let flags := 0
  let flags := if p15_flags &&& c.SC_PKCS15_CARD_FLAG_PRN_GENERATION ≠ 0
    then flags ||| COSM_TOKEN_FLAG_PRN_GENERATION else flags
  let flags := if p15_flags &&& c.SC_PKCS15_CARD_FLAG_LOGIN_REQUIRED ≠ 0
    then flags ||| COSM_TOKEN_FLAG_LOGIN_REQUIRED else flags
  let flags := if p15_flags &&& c.SC_PKCS15_CARD_FLAG_USER_PIN_INITIALIZED ≠ 0
    then flags ||| COSM_TOKEN_FLAG_USER_PIN_INITIALIZED else flags
  let flags := if p15_flags &&& c.SC_PKCS15_CARD_FLAG_TOKEN_INITIALIZED ≠ 0
    then flags ||| COSM_TOKEN_FLAG_TOKEN_INITIALIZED else flags
  flags

/-- Lines 96-129: the buffer of `size` bytes that is handed to the update.
`label` is the argument, `p15label` is `p15card->label`, `spec` is
`profile->p15_spec`. -/
def cosm_tokeninfo_buffer (c : Consts) (size : Nat) (label p15label : Option (List Nat))
    (spec : Option P15Spec) (p15_flags : Nat) : List Nat :=
  let buffer := List.replicate size 0
  let buffer :=
    match label with
    | some l => strncpy buffer l (size - 4)
    | none =>
      match p15label with
      | some l => snprintf buffer (size - 4) l
      | none =>
        match spec.bind (fun sp => sp.label) with
        | some l => snprintf buffer (size - 4) l
        | none => snprintf buffer (size - 4) OPENSC_TOKEN
  let sz := strlen buffer
  let buffer := if sz < size - 4 then memset buffer sz 0x20 (size - sz) else buffer
  let flags := cosm_tokeninfo_flags c p15_flags
  let buffer := memset buffer (size - 4) 0 4
  let buffer := buffer.set (size - 1) (flags &&& 0xFF)
  let buffer := buffer.set (size - 2) ((flags >>> 8) &&& 0xFF)
  buffer

/-- The function `cosm_write_tokeninfo` (lines 72-142). -/
def cosm_write_tokeninfo {σ : Type} (c : Consts) (P : CardPrims σ) (profile : Profile)
    (s : State σ) (label : Option (List Nat)) (p15_flags : Nat) : Rv × State σ :=
  let mask := c.SC_PKCS15_CARD_FLAG_PRN_GENERATION
    ||| c.SC_PKCS15_CARD_FLAG_LOGIN_REQUIRED
    ||| c.SC_PKCS15_CARD_FLAG_USER_PIN_INITIALIZED
    ||| c.SC_PKCS15_CARD_FLAG_TOKEN_INITIALIZED
  match profile.get_file "OberthurAWP-token-info" with
  | .error _ => (Rv.err ScError.INCONSISTENT_PROFILE, s)
  | .ok file =>
    if file.size < 16 then (Rv.err ScError.INCONSISTENT_PROFILE, s)
    else
      let buffer := cosm_tokeninfo_buffer c file.size label s.label s.p15_spec p15_flags
      let r := sc_pkcs15init_update_file P s file buffer
      let rv := if r.1.isPos then Rv.ok 0 else r.1
      let s1 := r.2
      let s2 : State σ :=
        { s1 with
          flags := (s1.flags &&& bnot32 mask) ||| p15_flags
          p15_spec := s1.p15_spec.map (fun sp =>
            { sp with flags := (sp.flags &&& bnot32 mask) ||| p15_flags }) }
      (rv, s2)

/-! ## `cosm_delete_file` and `cosm_erase_card` -/

/-- Lines 161-180 of `cosm_delete_file`, for a path of at least two bytes:
select the parent, authenticate `DELETE` on it, delete by file id. The parent
path is the path of `df` without its last two bytes; the two bytes of the
file-id path are `df->id >> 8` (stored in an `u8`) and `df->id & 0xFF`. -/
def cosm_delete_file_in_parent {σ : Type} (P : CardPrims σ) (s : State σ) (df : ScFile) :
    Rv × State σ :=
  let path := df.path.take (df.path.length - 2)
  let r1 := sc_select_file P s path
  if r1.1.isErr then (r1.1, r1.2.2)
  else
    let r2 := sc_pkcs15init_authenticate P r1.2.2 r1.2.1 AcOp.DELETE
    if r2.1.isErr then r2
    else sc_delete_file P r2.2 [(df.id >>> 8) % 256, df.id &&& 0xFF]

/-- The function `cosm_delete_file` (lines 145-181). -/
def cosm_delete_file {σ : Type} (P : CardPrims σ) (s : State σ) (df : ScFile) : Rv × State σ :=
  if df.type = ScFileType.DF then
    let r0 := sc_pkcs15init_authenticate P s df AcOp.DELETE
    if r0.1.isErr then r0
    else cosm_delete_file_in_parent P r0.2 df
  else cosm_delete_file_in_parent P s df

/-- The test `rv < 0 && rv != SC_ERROR_FILE_NOT_FOUND` before `goto done`. -/
def cosm_erase_abort (rv : Rv) : Bool :=
  rv.isErr && rv != Rv.err ScError.FILE_NOT_FOUND

/-- Lines 236-240, the label `done`: `FILE_NOT_FOUND` becomes success. -/
def cosm_erase_done {σ : Type} (r : Rv × State σ) : Rv × State σ :=
  (if r.1 = Rv.err ScError.FILE_NOT_FOUND then Rv.ok 0 else r.1, r.2)

/-- Lines 228-240 of `cosm_erase_card`: the AppDF step, `sc_free_apps`, `done`. -/
def cosm_erase_card_appdf {σ : Type} (P : CardPrims σ) (profile : Profile) (s : State σ) :
    Rv × State σ :=
  let r : Rv × State σ :=
    match profile.get_file "OberthurAWP-AppDF" with
    | .ok dir => cosm_delete_file P s dir
    | .error e => (Rv.err e, s)
  cosm_erase_done (r.1, sc_free_apps P r.2)

/-- Lines 220-240 of `cosm_erase_card`: the public-DF step and what follows. -/
def cosm_erase_card_public {σ : Type} (P : CardPrims σ) (profile : Profile) (s : State σ) :
    Rv × State σ :=
  match profile.get_file "public-DF" with
  | .ok dir =>
    let r := cosm_delete_file P s dir
    if cosm_erase_abort r.1 then cosm_erase_done r
    else cosm_erase_card_appdf P profile r.2
  | .error _ => cosm_erase_card_appdf P profile s

/-- Lines 212-240 of `cosm_erase_card`: the private-DF step and what follows. -/
def cosm_erase_card_private {σ : Type} (P : CardPrims σ) (profile : Profile) (s : State σ) :
    Rv × State σ :=
  match profile.get_file "private-DF" with
  | .ok dir =>
    let r := cosm_delete_file P s dir
    if cosm_erase_abort r.1 then cosm_erase_done r
    else cosm_erase_card_public P profile r.2
  | .error _ => cosm_erase_card_public P profile s

/-- Lines 209-240 of `cosm_erase_card`: the delete of `df_info->file`, whose
result is overwritten before it is read, and what follows. -/
def cosm_erase_card_ddf {σ : Type} (P : CardPrims σ) (profile : Profile) (s : State σ) :
    Rv × State σ :=
  let r := cosm_delete_file P s profile.df_info_file
  cosm_erase_card_private P profile r.2

/-- The function `cosm_erase_card` (lines 187-241). -/
def cosm_erase_card {σ : Type} (P : CardPrims σ) (profile : Profile) (s : State σ) :
    Rv × State σ :=
  match profile.get_file "DIR" with
  | .ok dir =>
    let r := cosm_delete_file P s dir
    if cosm_erase_abort r.1 then cosm_erase_done r
    else cosm_erase_card_ddf P profile r.2
  | .error _ => cosm_erase_card_ddf P profile s

/-! ## `cosm_create_dir` -/

/-- The array `create_dfs` (lines 252-271). -/
def create_dfs : List String :=
  [ "OberthurAWP-AppDF",
    "private-DF",
    "public-DF",
    "OberthurAWP-token-info",
    "OberthurAWP-puk-file",
    "OberthurAWP-container-list",
    "OberthurAWP-public-list",
    "OberthurAWP-private-list" ]

/-- The loop of lines 280-290 over the remaining names: an error result ends
`cosm_create_dir` with that result, `ok` lets it go on. -/
def cosm_create_dir_loop {σ : Type} (P : CardPrims σ) (profile : Profile) :
    List String → State σ → Rv × State σ
  | [], s => (Rv.ok 0, s)
  | name :: rest, s =>
    match profile.get_file name with
    | .error _ => (Rv.err ScError.INCONSISTENT_PROFILE, s)
    | .ok file =>
      let r := sc_pkcs15init_create_file P s file
      if r.1 ≠ Rv.err ScError.FILE_ALREADY_EXISTS ∧ r.1.isErr then r
      else cosm_create_dir_loop P profile rest r.2

/-- The function `cosm_create_dir` (lines 244-296). -/
def cosm_create_dir {σ : Type} (c : Consts) (P : CardPrims σ) (profile : Profile)
    (s : State σ) (df : ScFile) : Rv × State σ :=
  let r := sc_pkcs15init_create_file P s df
  if r.1.isErr then r
  else
    let r := cosm_create_dir_loop P profile create_dfs r.2
    if r.1.isErr then r
    else
      cosm_write_tokeninfo c P profile r.2 none
        (c.SC_PKCS15_CARD_FLAG_TOKEN_INITIALIZED ||| c.SC_PKCS15_CARD_FLAG_PRN_GENERATION)

/-! ## PIN provisioning -/

/-- The array `oberthur_puk` (lines 312-315). -/
def oberthur_puk : List Nat :=
  [0x6F, 0x47, 0xD9, 0x88, 0x4B, 0x6F, 0x9D, 0xC5,
   0x78, 0x33, 0x79, 0x8F, 0x5B, 0x7D, 0xE1, 0xA5]

/-- Lines 330-346: the request built for `SC_CARDCTL_OBERTHUR_CREATE_PIN`. -/
def cosm_createpin_args (c : Consts) (profile : Profile) (pinfo : PinInfo) (pin : List Nat) :
    CreatePinInfo :=
  let profile_pin := profile.get_pin_info PinRole.USER_PIN
  let profile_puk := profile.get_pin_info PinRole.USER_PUK
  let args : CreatePinInfo :=
    { type := AcMethod.CHV, ref := pinfo.reference, pin := pin, pin_len := pin.length,
      pin_tries := 0, puk := none, puk_len := 0, puk_tries := 0 }
  if ¬ (pinfo.flags &&& c.SC_PKCS15_PIN_FLAG_UNBLOCKING_PIN ≠ 0) then
    let args := { args with pin_tries := profile_pin.tries_left }
    if profile_puk.tries_left > 0 then
      { args with puk := some oberthur_puk, puk_len := oberthur_puk.length, puk_tries := 5 }
    else args
  else
    { args with pin_tries := profile_puk.tries_left }

/-- The function `cosm_create_reference_data` (lines 299-368). A buffer and
its length are one `Option (List Nat)`: `none` is the `NULL` pointer. -/
def cosm_create_reference_data {σ : Type} (c : Consts) (P : CardPrims σ) (profile : Profile)
    (s : State σ) (pinfo : PinInfo) (pin puk : Option (List Nat)) : Rv × State σ :=
  match pin with
  | none => (Rv.err ScError.INVALID_ARGUMENTS, s)
  | some pinv =>
    if pinv.length > 0x40 then (Rv.err ScError.INVALID_ARGUMENTS, s)
    else if puk.map List.length = some 0 then (Rv.err ScError.INVALID_ARGUMENTS, s)
    else
      let r := sc_select_file P s pinfo.path
      if r.1.isErr then (r.1, r.2.2)
      else
        let profile_puk := profile.get_pin_info PinRole.USER_PUK
        let args := cosm_createpin_args c profile pinfo pinv
        let r := sc_card_ctl_create_pin P r.2.2 args
        if r.1.isErr then r
        else if ¬ (pinfo.flags &&& c.SC_PKCS15_PIN_FLAG_UNBLOCKING_PIN ≠ 0)
            ∧ profile_puk.tries_left > 0 then
          match profile.get_file "OberthurAWP-puk-file" with
          | .error _ => (Rv.err ScError.INCONSISTENT_PROFILE, r.2)
          | .ok file => sc_pkcs15init_update_file P r.2 file oberthur_puk
        else r

/-- The function `cosm_update_pin` (lines 374-405). -/
def cosm_update_pin {σ : Type} (c : Consts) (P : CardPrims σ) (profile : Profile)
    (s : State σ) (pinfo : PinInfo) (pin puk : Option (List Nat)) : Rv × State σ :=
  if pinfo.flags &&& c.SC_PKCS15_PIN_FLAG_SO_PIN ≠ 0 then
    if pinfo.reference ≠ 4 then (Rv.err ScError.INVALID_PIN_REFERENCE, s)
    else (SC_SUCCESS, s)
  else
    let r := cosm_create_reference_data c P profile s pinfo pin puk
    if r.1.isErr then r
    else
      cosm_write_tokeninfo c P profile r.2 none
        (c.SC_PKCS15_CARD_FLAG_TOKEN_INITIALIZED
          ||| c.SC_PKCS15_CARD_FLAG_PRN_GENERATION
          ||| c.SC_PKCS15_CARD_FLAG_LOGIN_REQUIRED
          ||| c.SC_PKCS15_CARD_FLAG_USER_PIN_INITIALIZED)

/-- The function `cosm_select_pin_reference` (lines 408-440); the result holds
the updated `*pin_info`. -/
def cosm_select_pin_reference (c : Consts) (profile : Profile) (pin_info : PinInfo) :
    Rv × PinInfo :=
  match profile.get_file "OberthurAWP-AppDF" with
  | .error _ => (Rv.err ScError.INCONSISTENT_PROFILE, pin_info)
  | .ok pinfile =>
    let pin_info :=
      if pin_info.flags &&& c.SC_PKCS15_PIN_FLAG_LOCAL ≠ 0 then
        { pin_info with path := pinfile.path }
      else pin_info
    let pin_info :=
      if pin_info.reference ≤ 0 then
        let reference : Nat :=
          if pin_info.flags &&& c.SC_PKCS15_PIN_FLAG_SO_PIN ≠ 0 then 4
          else if pin_info.flags &&& c.SC_PKCS15_PIN_FLAG_UNBLOCKING_PIN ≠ 0 then 4
          else 1
        let reference : Nat :=
          if pin_info.flags &&& c.SC_PKCS15_PIN_FLAG_LOCAL ≠ 0 then reference ||| 0x80
          else reference
        { pin_info with reference := (reference : Int) }
      else pin_info
    (SC_SUCCESS, pin_info)

/-- Lines 467-488 of `cosm_create_pin`: the error of the role and reference
check, `none` when the check passes. -/
def cosm_create_pin_check (c : Consts) (pin_info : PinInfo) : Option ScError :=
  if pin_info.flags &&& c.SC_PKCS15_PIN_FLAG_SO_PIN ≠ 0 then
    if pin_info.flags &&& c.SC_PKCS15_PIN_FLAG_UNBLOCKING_PIN ≠ 0 then
      some ScError.NOT_SUPPORTED
    else if pin_info.reference ≠ 4 then some ScError.INVALID_PIN_REFERENCE
    else none
  else
    if pin_info.flags &&& c.SC_PKCS15_PIN_FLAG_UNBLOCKING_PIN ≠ 0 then
      if pin_info.reference ≠ 0x84 then some ScError.INVALID_PIN_REFERENCE else none
    else
      if pin_info.reference ≠ 0x81 then some ScError.INVALID_PIN_REFERENCE else none

/-- The function `cosm_create_pin` (lines 446-496); `pin_info` is
`pin_obj->data`, the result holds the updated `*pin_info`. -/
def cosm_create_pin {σ : Type} (c : Consts) (P : CardPrims σ) (profile : Profile)
    (s : State σ) (pin_info : PinInfo) (pin puk : Option (List Nat)) :
    Rv × PinInfo × State σ :=
  match profile.get_file "OberthurAWP-AppDF" with
  | .error _ => (Rv.err ScError.INCONSISTENT_PROFILE, pin_info, s)
  | .ok pin_file =>
    let pin_info :=
      if pin_info.flags &&& c.SC_PKCS15_PIN_FLAG_LOCAL ≠ 0 then
        { pin_info with path := pin_file.path }
      else pin_info
    match cosm_create_pin_check c pin_info with
    | some e => (Rv.err e, pin_info, s)
    | none =>
      match pin with
      | some pinv =>
        if pinv.length ≠ 0 then
          let r := cosm_update_pin c P profile s pin_info (some pinv) puk
          (r.1, pin_info, r.2)
        else (Rv.ok 0, pin_info, s)
      | none => (Rv.ok 0, pin_info, s)

/-! ## Key files -/

/-- The switch of lines 513-538: the template name and the EF structure of a
type, `none` when no case matches. The variable `structure` keeps its initial
`0xFFFFFFFF` in the cases that do not assign it. -/
def cosm_new_file_switch (c : Consts) (type : Nat) : Option (String × Nat) :=
  if type = c.SC_PKCS15_TYPE_PRKEY_RSA ∨ type = COSM_TYPE_PRKEY_RSA c then
    some ("template-private-key", c.SC_CARDCTL_OBERTHUR_KEY_RSA_CRT)
  else if type = c.SC_PKCS15_TYPE_PUBKEY_RSA ∨ type = COSM_TYPE_PUBKEY_RSA c then
    some ("template-public-key", c.SC_CARDCTL_OBERTHUR_KEY_RSA_PUBLIC)
  else if type = c.SC_PKCS15_TYPE_PUBKEY_DSA then
    some ("template-public-key", 0xFFFFFFFF)
  else if type = c.SC_PKCS15_TYPE_CERT then
    some ("template-certificate", 0xFFFFFFFF)
  else if type = c.SC_PKCS15_TYPE_DATA_OBJECT then
    some ("template-public-data", 0xFFFFFFFF)
  else none

/-- The loop `while (1)` of lines 512-551, with `fuel` passes allowed:
`none` when the passes are used up, otherwise the template found or the
error returned from inside the loop. -/
def cosm_new_file_resolve (c : Consts) : Nat → Nat → Option (Except ScError (String × Nat))
  | 0, _ => none
  | fuel + 1, type =>
    match cosm_new_file_switch c type with
    | some t => some (.ok t)
    | none =>
      if type &&& bnot32 c.SC_PKCS15_TYPE_CLASS_MASK = 0 then
        some (.error ScError.INVALID_ARGUMENTS)
      else cosm_new_file_resolve c fuel (type &&& c.SC_PKCS15_TYPE_CLASS_MASK)

/-- The statement `path.value[i] = f(path.value[i])` for an index inside the path. -/
def path_update (path : List Nat) (i : Nat) (f : Nat → Nat) : List Nat :=
  match path[i]? with
  | some v => path.set i (f v)
  | none => path

/-- The function `cosm_new_file` (lines 502-571); the second component is `*out`. -/
def cosm_new_file (c : Consts) (profile : Profile) (fuel : Nat) (type num : Nat) :
    Option (Rv × Option ScFile) :=
  match cosm_new_file_resolve c fuel type with
  | none => none
  | some (.error e) => some (Rv.err e, none)
  | some (.ok (template, ef_struct)) =>
    match profile.get_file template with
    | .error _ => some (Rv.err ScError.NOT_SUPPORTED, none)
    | .ok file =>
      let file := { file with id := file.id ||| (num &&& 0xFF) }
      let file :=
        { file with
          path := path_update file.path (file.path.length - 1) (fun b => b ||| (num &&& 0xFF)) }
      let file :=
        if file.type = ScFileType.INTERNAL_EF then { file with ef_structure := ef_struct }
        else file
      some (SC_SUCCESS, some file)

/-- Modelled from the spec: `sc_file_new` of libopensc is not in this source
file; it returns a file without ACL entries, and every other field is
assigned by the caller. -/
def sc_file_new : ScFile :=
  { path := [], id := 0, size := 0, type := ScFileType.OTHER 0, ef_structure := 0,
    status := ScFileStatus.ACTIVATED, acl := [] }

/-- Modelled from the spec: `sc_file_get_acl_entry` of libopensc is not in this
source file; it returns the ACL entry of `file` for `op`, and an entry without
method when the file has none. -/
def sc_file_get_acl_entry (file : ScFile) (op : AcOp) : AclEntry :=
  (file.acl.find? (fun e => e.op = op)).getD { op := op, method := AcMethod.OTHER 0, key_ref := 0 }

/-- Modelled from the spec: `sc_file_add_acl_entry` of libopensc is not in this
source file; it sets the ACL entry of `file` for `op` and returns 0. -/
def sc_file_add_acl_entry (file : ScFile) (op : AcOp) (method : AcMethod) (key_ref : Nat) :
    Rv × ScFile :=
  (Rv.ok 0,
    { file with
      acl := file.acl.filter (fun e => e.op ≠ op)
        ++ [{ op := op, method := method, key_ref := key_ref }] })

/-- The function `cosm_get_temporary_public_key_file` (lines 574-613) for the
path length at least 2 that its two index expressions need. -/
def cosm_get_temporary_public_key_file (c : Consts) (prvkey_file : ScFile) : Rv × ScFile :=
  let file := sc_file_new
  let file := { file with status := ScFileStatus.ACTIVATED }
  let file := { file with type := ScFileType.INTERNAL_EF }
  let file := { file with ef_structure := c.SC_CARDCTL_OBERTHUR_KEY_RSA_PUBLIC }
  let file := { file with id := 0x1012 }
  let file := { file with path := prvkey_file.path }
  let file := { file with path := file.path.set (file.path.length - 2) 0x10 }
  let file := { file with path := file.path.set (file.path.length - 1) 0x12 }
  let file := { file with size := prvkey_file.size }
  let entry := sc_file_get_acl_entry prvkey_file AcOp.UPDATE
  let r := sc_file_add_acl_entry file AcOp.UPDATE entry.method entry.key_ref
  let r := if r.1 = Rv.ok 0 then sc_file_add_acl_entry r.2 AcOp.PSO_ENCRYPT AcMethod.NONE 0 else r
  let r :=
    if r.1 = Rv.ok 0 then sc_file_add_acl_entry r.2 AcOp.PSO_VERIFY_SIGNATURE AcMethod.NONE 0
    else r
  let r :=
    if r.1 = Rv.ok 0 then sc_file_add_acl_entry r.2 AcOp.EXTERNAL_AUTHENTICATE AcMethod.NONE 0
    else r
  r

/-- The fields of `struct sc_pkcs15_prkey_info` that the source reads or writes. -/
structure PrkeyInfo where
  path : List Nat
  modulus_length : Nat
  key_reference : Nat
  deriving DecidableEq

/-- The RSA case of `struct sc_pkcs15_pubkey`, with algorithm `SC_ALGORITHM_RSA`. -/
structure RsaPubkey where
  modulus : List Nat
  exponent : List Nat
  deriving DecidableEq

/-- Lines 657-694 of `cosm_generate_key`: the generate-key request, the public
key, the key reference and the delete of the temporary file. `prkf` is the
private key file as selected, `tmpf` the temporary file as created. -/
def cosm_generate_key_run {σ : Type} (P : CardPrims σ) (s : State σ)
    (key_info : PrkeyInfo) (prkf tmpf : ScFile) :
    Rv × PrkeyInfo × Option RsaPubkey × State σ :=
  let args : GenkeyInfo :=
    { id_prv := prkf.id, id_pub := tmpf.id, exponent := 0x10001,
      key_bits := key_info.modulus_length,
      pubkey_len := key_info.modulus_length / 8 }
  let r7 := sc_card_ctl_generate_key P s args
  if r7.1.isErr then (r7.1, key_info, none, r7.2.2)
  else
    let pubkey : RsaPubkey :=
      { modulus := r7.2.1.take args.pubkey_len, exponent := [0x01, 0x00, 0x01] }
    let key_info :=
      { key_info with
        key_reference := (prkf.path.getD (prkf.path.length - 1) 0) &&& 0xFF }
    let key_info := { key_info with path := prkf.path }
    let r8 := cosm_delete_file P r7.2.2 tmpf
    (r8.1, key_info, some pubkey, r8.2)

/-- The function `cosm_generate_key` (lines 616-695), for a key path of at
least two bytes. The result holds `*key_info` and `*pubkey` as the call
leaves them; `pubkey` is `none` as long as the call has not written to it. -/
def cosm_generate_key {σ : Type} (c : Consts) (P : CardPrims σ) (s : State σ)
    (object_type : Nat) (key_info : PrkeyInfo) :
    Rv × PrkeyInfo × Option RsaPubkey × State σ :=
  if object_type ≠ c.SC_PKCS15_TYPE_PRKEY_RSA then
    (Rv.err ScError.NOT_SUPPORTED, key_info, none, s)
  else
    let path := key_info.path.take (key_info.path.length - 2)
    let r1 := sc_select_file P s path
    if r1.1.isErr then (r1.1, key_info, none, r1.2.2)
    else
      let r2 := sc_pkcs15init_authenticate P r1.2.2 r1.2.1 AcOp.CRYPTO
      if r2.1.isErr then (r2.1, key_info, none, r2.2)
      else
        let r3 := sc_pkcs15init_authenticate P r2.2 r1.2.1 AcOp.CREATE
        if r3.1.isErr then (r3.1, key_info, none, r3.2)
        else
          let r4 := sc_select_file P r3.2 key_info.path
          if r4.1.isErr then (r4.1, key_info, none, r4.2.2)
          else
            let prkf := r4.2.1
            let r5 := cosm_get_temporary_public_key_file c prkf
            if r5.1.isErr then (r5.1, key_info, none, r4.2.2)
            else
              let tmpf := r5.2
              let r6 := sc_pkcs15init_create_file P r4.2.2 tmpf
              if r6.1.isErr then (r6.1, key_info, none, r6.2)
              else cosm_generate_key_run P r6.2 key_info prkf tmpf

/-- Lines 736-743 of `cosm_create_key`: the create and the new key reference. -/
def cosm_create_key_tail {σ : Type} (P : CardPrims σ) (s : State σ) (file : ScFile)
    (key_info : PrkeyInfo) : Rv × PrkeyInfo × State σ :=
  let r := sc_pkcs15init_create_file P s file
  if r.1.isErr then (r.1, key_info, r.2)
  else
    (r.1, { key_info with key_reference := file.path.getD (file.path.length - 1) 0 }, r.2)

/-- The function `cosm_create_key` (lines 701-744), for a key path of at least
two bytes; `fuel` bounds the loop of `cosm_new_file`. -/
def cosm_create_key {σ : Type} (c : Consts) (P : CardPrims σ) (profile : Profile)
    (fuel : Nat) (s : State σ) (object_type : Nat) (key_info : PrkeyInfo) :
    Option (Rv × PrkeyInfo × State σ) :=
  if object_type ≠ c.SC_PKCS15_TYPE_PRKEY_RSA then
    some (Rv.err ScError.NOT_SUPPORTED, key_info, s)
  else
    match cosm_new_file c profile fuel c.SC_PKCS15_TYPE_PRKEY_RSA key_info.key_reference with
    | none => none
    | some (rv, none) => some (rv, key_info, s)
    | some (rv, some file) =>
      if rv.isErr then some (rv, key_info, s)
      else
        let file := { file with size := key_info.modulus_length }
        let file := { file with path := key_info.path }
        let file :=
          { file with
            id := file.path.getD (file.path.length - 2) 0 * 0x100
              + file.path.getD (file.path.length - 1) 0 }
        let r1 := sc_select_file P s file.path
        if r1.1 = Rv.ok 0 then
          let r2 := cosm_delete_file P r1.2.2 file
          if r2.1.isErr then some (r2.1, key_info, r2.2)
          else some (cosm_create_key_tail P r2.2 file key_info)
        else if r1.1 ≠ Rv.err ScError.FILE_NOT_FOUND ∧ r1.1.isErr then
          some (r1.1, key_info, r1.2.2)
        else some (cosm_create_key_tail P r1.2.2 file key_info)

/-! ## A card with an explicit set of files -/

/-- Modelled from the spec: the card behind the file-system primitives is not
in this source file. The card holds a set of files, each under its full path,
and one currently selected file. -/
structure FileCard where
  files : List ScFile
  cur : List Nat
  deriving DecidableEq

/-- The results that the file set does not determine: authentication, the two
control requests and the update of file contents. -/
structure CardOracle where
  authenticate : ScFile → AcOp → Rv
  create_pin : CreatePinInfo → Rv
  generate_key : GenkeyInfo → Rv × List Nat
  update : ScFile → List Nat → Rv

/-- A file with this full path is on the card. -/
def FileCard.present (fc : FileCard) (path : List Nat) : Bool :=
  fc.files.any (fun f => f.path == path)

/-- Modelled from the spec: the primitives over a `FileCard`. Selecting or
deleting an absent file reports `FILE_NOT_FOUND`; a select makes the file the
current one; a create adds the file unless its path is taken
(`FILE_ALREADY_EXISTS`); a delete by file id removes the file of that id under
the current file, together with everything below it. -/
def fileCardPrims (o : CardOracle) : CardPrims FileCard where
  select_file fc path :=
    match fc.files.find? (fun f => f.path == path) with
    | some f => (Rv.ok 0, f, { fc with cur := path })
    | none => (Rv.err ScError.FILE_NOT_FOUND, sc_file_new, fc)
  authenticate fc file op := (o.authenticate file op, fc)
  create_file fc file :=
    if fc.present file.path then (Rv.err ScError.FILE_ALREADY_EXISTS, fc)
    else (Rv.ok 0, { fc with files := fc.files ++ [file] })
  delete_file fc idpath :=
    if fc.present (fc.cur ++ idpath) then
      (Rv.ok 0,
        { fc with files := fc.files.filter (fun f => !(fc.cur ++ idpath).isPrefixOf f.path) })
    else (Rv.err ScError.FILE_NOT_FOUND, fc)
  update_file fc file data := (o.update file data, fc)
  ctl_create_pin fc args := (o.create_pin args, fc)
  ctl_generate_key fc args := ((o.generate_key args).1, (o.generate_key args).2, fc)
  free_apps fc := fc

/-! ## Reading a TokenInfo record back -/

/-- The four status bits of a token. -/
structure StatusBits where
  prn_generation : Bool
  login_required : Bool
  user_pin_initialized : Bool
  token_initialized : Bool
  deriving DecidableEq

/-- The flag word `p15_flags` that holds exactly the status bits of `b`. -/
def StatusBits.p15_flags (c : Consts) (b : StatusBits) : Nat :=
  (if b.prn_generation then c.SC_PKCS15_CARD_FLAG_PRN_GENERATION else 0)
  ||| (if b.login_required then c.SC_PKCS15_CARD_FLAG_LOGIN_REQUIRED else 0)
  ||| (if b.user_pin_initialized then c.SC_PKCS15_CARD_FLAG_USER_PIN_INITIALIZED else 0)
  ||| (if b.token_initialized then c.SC_PKCS15_CARD_FLAG_TOKEN_INITIALIZED else 0)

/-- The four `SC_PKCS15_CARD_FLAG_*` constants of the status bits are non-zero
and share no bit. -/
def Consts.card_flags_disjoint (c : Consts) : Prop :=
  c.SC_PKCS15_CARD_FLAG_PRN_GENERATION ≠ 0
  ∧ c.SC_PKCS15_CARD_FLAG_LOGIN_REQUIRED ≠ 0
  ∧ c.SC_PKCS15_CARD_FLAG_USER_PIN_INITIALIZED ≠ 0
  ∧ c.SC_PKCS15_CARD_FLAG_TOKEN_INITIALIZED ≠ 0
  ∧ c.SC_PKCS15_CARD_FLAG_PRN_GENERATION &&& c.SC_PKCS15_CARD_FLAG_LOGIN_REQUIRED = 0
  ∧ c.SC_PKCS15_CARD_FLAG_PRN_GENERATION &&& c.SC_PKCS15_CARD_FLAG_USER_PIN_INITIALIZED = 0
  ∧ c.SC_PKCS15_CARD_FLAG_PRN_GENERATION &&& c.SC_PKCS15_CARD_FLAG_TOKEN_INITIALIZED = 0
  ∧ c.SC_PKCS15_CARD_FLAG_LOGIN_REQUIRED &&& c.SC_PKCS15_CARD_FLAG_USER_PIN_INITIALIZED = 0
  ∧ c.SC_PKCS15_CARD_FLAG_LOGIN_REQUIRED &&& c.SC_PKCS15_CARD_FLAG_TOKEN_INITIALIZED = 0
  ∧ c.SC_PKCS15_CARD_FLAG_USER_PIN_INITIALIZED &&& c.SC_PKCS15_CARD_FLAG_TOKEN_INITIALIZED = 0

/-- Modelled from the spec: the reader of a TokenInfo record is not in this
source file. The label of a record is its bytes `[0, size - 4)`. -/
def tokeninfo_decode_label (record : List Nat) : List Nat :=
  record.take (record.length - 4)

/-- Modelled from the spec: the reader of a TokenInfo record is not in this
source file. The device flags of a record are the 16-bit big-endian value of
its last two bytes. -/
def tokeninfo_decode_flags (record : List Nat) : Nat :=
  record.getD (record.length - 2) 0 * 256 + record.getD (record.length - 1) 0

/-- Modelled from the spec: the reader of a TokenInfo record is not in this
source file. The device flags are mapped back to the status bits through
`0x01`, `0x04`, `0x08` and `0x0400`. -/
def tokeninfo_decode_status (record : List Nat) : StatusBits :=
  let flags := tokeninfo_decode_flags record
  { prn_generation := flags &&& COSM_TOKEN_FLAG_PRN_GENERATION != 0
    login_required := flags &&& COSM_TOKEN_FLAG_LOGIN_REQUIRED != 0
    user_pin_initialized := flags &&& COSM_TOKEN_FLAG_USER_PIN_INITIALIZED != 0
    token_initialized := flags &&& COSM_TOKEN_FLAG_TOKEN_INITIALIZED != 0 }

/-- The label `L` truncated or space-padded to `n` bytes. -/
def label_fit (L : List Nat) (n : Nat) : List Nat :=
  L.take n ++ List.replicate (n - L.length) 0x20

/-! ## Notions used in the statements about `FileCard` -/

/-- The full path that `cosm_delete_file` addresses for `df`: the parent path
of `df` followed by the two bytes of its id. -/
def delete_target (df : ScFile) : List Nat :=
  df.path.take (df.path.length - 2) ++ [(df.id >>> 8) % 256, df.id &&& 0xFF]

/-- A sample assignment of the header constants: distinct single bits for the
flags, distinct codes for the object types. -/
def sample_consts : Consts where
  SC_PKCS15_CARD_FLAG_PRN_GENERATION := 0x04
  SC_PKCS15_CARD_FLAG_LOGIN_REQUIRED := 0x02
  SC_PKCS15_CARD_FLAG_USER_PIN_INITIALIZED := 0x40
  SC_PKCS15_CARD_FLAG_TOKEN_INITIALIZED := 0x80
  SC_PKCS15_PIN_FLAG_LOCAL := 0x02
  SC_PKCS15_PIN_FLAG_UNBLOCKING_PIN := 0x40
  SC_PKCS15_PIN_FLAG_SO_PIN := 0x80
  SC_PKCS15_TYPE_CLASS_MASK := 0xF00
  SC_PKCS15_TYPE_PRKEY_RSA := 0x101
  SC_PKCS15_TYPE_PUBKEY_RSA := 0x201
  SC_PKCS15_TYPE_PUBKEY_DSA := 0x202
  SC_PKCS15_TYPE_CERT := 0x400
  SC_PKCS15_TYPE_DATA_OBJECT := 0x500
  SC_CARDCTL_OBERTHUR_KEY_RSA_CRT := 0xA3
  SC_CARDCTL_OBERTHUR_KEY_RSA_PUBLIC := 0xA1

/-- A file of the sample profile. -/
def sample_file (path : List Nat) (id size : Nat) (type : ScFileType) : ScFile :=
  { path := path, id := id, size := size, type := type, ef_structure := 0,
    status := ScFileStatus.ACTIVATED,
    acl := [{ op := AcOp.UPDATE, method := AcMethod.CHV, key_ref := 1 }] }

/-- A sample profile with every template the source asks for; `size` is the
size of the TokenInfo file, `puk_tries` the retry count of the user PUK. -/
def sample_profile (size : Nat) (puk_tries : Int) : Profile where
  get_file name :=
    if name = "DIR" then .ok (sample_file [0x3F, 0x00, 0x2F, 0x00] 0x2F00 128 ScFileType.WORKING_EF)
    else if name = "OberthurAWP-AppDF" then
      .ok (sample_file [0x3F, 0x00, 0x50, 0x11] 0x5011 0 ScFileType.DF)
    else if name = "private-DF" then
      .ok (sample_file [0x3F, 0x00, 0x50, 0x11, 0x90, 0x02] 0x9002 0 ScFileType.DF)
    else if name = "public-DF" then
      .ok (sample_file [0x3F, 0x00, 0x50, 0x11, 0x90, 0x01] 0x9001 0 ScFileType.DF)
    else if name = "OberthurAWP-token-info" then
      .ok (sample_file [0x3F, 0x00, 0x50, 0x11, 0x10, 0x00] 0x1000 size ScFileType.WORKING_EF)
    else if name = "OberthurAWP-puk-file" then
      .ok (sample_file [0x3F, 0x00, 0x50, 0x11, 0x20, 0x00] 0x2000 16 ScFileType.WORKING_EF)
    else if name = "OberthurAWP-container-list" then
      .ok (sample_file [0x3F, 0x00, 0x50, 0x11, 0x30, 0x00] 0x3000 64 ScFileType.WORKING_EF)
    else if name = "OberthurAWP-public-list" then
      .ok (sample_file [0x3F, 0x00, 0x50, 0x11, 0x90, 0x01, 0x40, 0x00] 0x4000 64
        ScFileType.WORKING_EF)
    else if name = "OberthurAWP-private-list" then
      .ok (sample_file [0x3F, 0x00, 0x50, 0x11, 0x90, 0x02, 0x50, 0x00] 0x5000 64
        ScFileType.WORKING_EF)
    else if name = "template-private-key" then
      .ok (sample_file [0x3F, 0x00, 0x50, 0x11, 0x90, 0x02, 0x30, 0x00] 0x3000 128
        ScFileType.INTERNAL_EF)
    else if name = "template-public-key" then
      .ok (sample_file [0x3F, 0x00, 0x50, 0x11, 0x90, 0x01, 0x31, 0x00] 0x3100 128
        ScFileType.INTERNAL_EF)
    else .error ScError.FILE_NOT_FOUND
  df_info_file := sample_file [0x3F, 0x00, 0x50, 0x15] 0x5015 0 ScFileType.DF
  get_pin_info role :=
    match role with
    | PinRole.USER_PUK => { reference := 0, flags := 0, path := [], tries_left := puk_tries }
    | _ => { reference := 0, flags := 0, path := [], tries_left := 3 }

/-- An oracle under which every authentication, request and update succeeds;
a key generation returns `n / 8` bytes for `n` key bits. -/
def sample_oracle : CardOracle where
  authenticate _ _ := Rv.ok 0
  create_pin _ := Rv.ok 0
  generate_key args := (Rv.ok 0, List.replicate args.pubkey_len 0xAB)
  update _ data := Rv.ok data.length

/-- A card that holds only the master file `3F00`. -/
def sample_card : FileCard :=
  { files := [sample_file [0x3F, 0x00] 0x3F00 0 ScFileType.DF], cur := [] }

/-- A session on `card` that has issued no command, without labels. -/
def sample_state (card : FileCard) : State FileCard :=
  { card := card, trace := [], label := none, flags := 0, p15_spec := none }

/-- A credential with the SO-pin and the unblocking-pin flag (sample flag
values `0x80 | 0x40`) and reference 5. -/
def sample_so_unblocking_pin : PinInfo :=
  { reference := 5, flags := 0xC0, path := [], tries_left := 3 }

/-- A credential with the SO-pin flag only (sample flag value `0x80`) and
reference 5. -/
def sample_so_pin : PinInfo :=
  { reference := 5, flags := 0x80, path := [], tries_left := 3 }

/-- A local user pin (sample flag value `0x02`) without a reference. -/
def sample_local_user_pin : PinInfo :=
  { reference := 0, flags := 0x02, path := [], tries_left := 3 }

/-- The AppDF file of the sample profile. -/
def sample_appdf : ScFile :=
  sample_file [0x3F, 0x00, 0x50, 0x11] 0x5011 0 ScFileType.DF

/-- A local user pin with reference `0x81` whose path is the AppDF, which the
sample card `sample_card_appdf` holds. -/
def sample_user_pin : PinInfo :=
  { reference := 0x81, flags := 0x02, path := [0x3F, 0x00, 0x50, 0x11], tries_left := 3 }

/-- A card that holds the master file and the AppDF of the sample profile. -/
def sample_card_appdf : FileCard :=
  { files := [sample_file [0x3F, 0x00] 0x3F00 0 ScFileType.DF, sample_appdf], cur := [] }

/-- The private-key template of the sample profile. -/
def sample_prkey_template : ScFile :=
  sample_file [0x3F, 0x00, 0x50, 0x11, 0x90, 0x02, 0x30, 0x00] 0x3000 128 ScFileType.INTERNAL_EF

/-- A card that holds the master file, `DIR`, the DF of `df_info`, the AppDF
with its private and public DF, and the TokenInfo file of the sample profile. -/
def sample_card_full : FileCard :=
  { files :=
      [ sample_file [0x3F, 0x00] 0x3F00 0 ScFileType.DF,
        sample_file [0x3F, 0x00, 0x2F, 0x00] 0x2F00 128 ScFileType.WORKING_EF,
        sample_file [0x3F, 0x00, 0x50, 0x15] 0x5015 0 ScFileType.DF,
        sample_appdf,
        sample_file [0x3F, 0x00, 0x50, 0x11, 0x90, 0x02] 0x9002 0 ScFileType.DF,
        sample_file [0x3F, 0x00, 0x50, 0x11, 0x90, 0x01] 0x9001 0 ScFileType.DF,
        sample_file [0x3F, 0x00, 0x50, 0x11, 0x10, 0x00] 0x1000 16 ScFileType.WORKING_EF ],
    cur := [] }

/-- A private key of 1024 bits in the private DF of the sample profile. -/
def sample_key_info : PrkeyInfo :=
  { path := [0x3F, 0x00, 0x50, 0x11, 0x90, 0x02, 0x30, 0x01], modulus_length := 1024,
    key_reference := 1 }

/-- The card `sample_card_full` with the file of `sample_key_info` on it. -/
def sample_card_key : FileCard :=
  { sample_card_full with
    files := sample_card_full.files
      ++ [sample_file [0x3F, 0x00, 0x50, 0x11, 0x90, 0x02, 0x30, 0x01] 0x3001 1024
            ScFileType.INTERNAL_EF] }

/-- The TokenInfo file of the sample profile for a TokenInfo size of `size`. -/
def sample_token_info (size : Nat) : ScFile :=
  sample_file [0x3F, 0x00, 0x50, 0x11, 0x10, 0x00] 0x1000 size ScFileType.WORKING_EF

/-- The root descriptor handed to `cosm_create_dir` in the samples. -/
def sample_root_df : ScFile :=
  sample_file [0x3F, 0x00, 0x50, 0x15] 0x5015 0 ScFileType.DF

/-- A card on which every command succeeds; a select returns a fresh file, an
update returns the number of bytes written. -/
def accepting_prims : CardPrims Unit where
  select_file _ _ := (Rv.ok 0, sc_file_new, ())
  authenticate _ _ _ := (Rv.ok 0, ())
  create_file _ _ := (Rv.ok 0, ())
  delete_file _ _ := (Rv.ok 0, ())
  update_file _ _ data := (Rv.ok data.length, ())
  ctl_create_pin _ _ := (Rv.ok 0, ())
  ctl_generate_key _ args := (Rv.ok 0, List.replicate args.pubkey_len 0xAB, ())
  free_apps _ := ()

/-- A session on the accepting card that has issued no command, without labels. -/
def accepting_state : State Unit :=
  { card := (), trace := [], label := none, flags := 0, p15_spec := none }

/-- A card that refuses every update of file contents with the card error 7
and accepts every other command. -/
def update_refusing_prims : CardPrims Unit :=
  { accepting_prims with update_file := fun _ _ _ => (Rv.err (ScError.CARD 7), ()) }

/-- A session that has issued no command, without labels, where the card and
the card description `p15_spec` of the profile both hold the flag word `flags`. -/
def spec_state (flags : Nat) : State Unit :=
  { card := (), trace := [], label := none, flags := flags,
    p15_spec := some { label := none, flags := flags } }

/-! ## The type resolution as a reference procedure -/

/-- The ordered table in the spec's words: RSA private key, RSA public key, DSA
public key, certificate, data object, each with its generic type, its template
name and its EF structure (`0xFFFFFFFF` where the source assigns none). -/
def spec_type_table (c : Consts) : List (Nat × String × Nat) :=
  [ (c.SC_PKCS15_TYPE_PRKEY_RSA, "template-private-key", c.SC_CARDCTL_OBERTHUR_KEY_RSA_CRT),
    (c.SC_PKCS15_TYPE_PUBKEY_RSA, "template-public-key", c.SC_CARDCTL_OBERTHUR_KEY_RSA_PUBLIC),
    (c.SC_PKCS15_TYPE_PUBKEY_DSA, "template-public-key", 0xFFFFFFFF),
    (c.SC_PKCS15_TYPE_CERT, "template-certificate", 0xFFFFFFFF),
    (c.SC_PKCS15_TYPE_DATA_OBJECT, "template-public-data", 0xFFFFFFFF) ]

/-- The exact match of a type against an ordered table. -/
def table_exact_match (table : List (Nat × String × Nat)) (type : Nat) :
    Option (String × Nat) :=
  (table.find? (fun e => e.1 == type)).map (fun e => e.2)

/-- The three-step reference procedure in the spec's words: (1) exact match
against the table; (2) if the type has the device-specific bit, strip that bit
and retry the exact match; (3) strip to the generic type-class bits and retry
once; otherwise fail (`none`). -/
def spec_resolve_type (c : Consts) (type : Nat) : Option (String × Nat) :=
  match table_exact_match (spec_type_table c) type with
  | some t => some t
  | none =>
    match (if type &&& SC_DEVICE_SPECIFIC_TYPE ≠ 0 then
        table_exact_match (spec_type_table c) (type &&& bnot32 SC_DEVICE_SPECIFIC_TYPE)
      else none) with
    | some t => some t
    | none => table_exact_match (spec_type_table c) (type &&& c.SC_PKCS15_TYPE_CLASS_MASK)

/-- The spec's table with the two device-specific RSA types next to their
generic types, each with the template and EF structure of the generic type. -/
def device_type_table (c : Consts) : List (Nat × String × Nat) :=
  [ (c.SC_PKCS15_TYPE_PRKEY_RSA, "template-private-key", c.SC_CARDCTL_OBERTHUR_KEY_RSA_CRT),
    (COSM_TYPE_PRKEY_RSA c, "template-private-key", c.SC_CARDCTL_OBERTHUR_KEY_RSA_CRT),
    (c.SC_PKCS15_TYPE_PUBKEY_RSA, "template-public-key", c.SC_CARDCTL_OBERTHUR_KEY_RSA_PUBLIC),
    (COSM_TYPE_PUBKEY_RSA c, "template-public-key", c.SC_CARDCTL_OBERTHUR_KEY_RSA_PUBLIC),
    (c.SC_PKCS15_TYPE_PUBKEY_DSA, "template-public-key", 0xFFFFFFFF),
    (c.SC_PKCS15_TYPE_CERT, "template-certificate", 0xFFFFFFFF),
    (c.SC_PKCS15_TYPE_DATA_OBJECT, "template-public-data", 0xFFFFFFFF) ]

/-- The two-step reference procedure: (1) exact match against the table that
includes the two device-specific RSA types; (2) for a type with a bit outside
the type-class mask, strip to the type-class bits and retry the exact match
once; otherwise fail (`none`). -/
def two_step_resolve_type (c : Consts) (type : Nat) : Option (String × Nat) :=
  match table_exact_match (device_type_table c) type with
  | some t => some t
  | none =>
    if type &&& bnot32 c.SC_PKCS15_TYPE_CLASS_MASK = 0 then none
    else table_exact_match (device_type_table c) (type &&& c.SC_PKCS15_TYPE_CLASS_MASK)

/-- An oracle that refuses every authentication on the DF `3F00 5015`, the
file of `df_info` in the sample profile, with the card error 1, and accepts
everything else. -/
def ddf_refusing_oracle : CardOracle :=
  { sample_oracle with
    authenticate := fun f _ =>
      if f.path = [0x3F, 0x00, 0x50, 0x15] then Rv.err (ScError.CARD 1) else Rv.ok 0 }

/-! ## Notions used in the statements about `cosm_create_dir` and `cosm_create_key` -/

/-- The state after one create request for each file of `fs`, in order,
whatever the results are. -/
def create_all {σ : Type} (P : CardPrims σ) : List ScFile → State σ → State σ
  | [], s => s
  | f :: fs, s => create_all P fs (sc_pkcs15init_create_file P s f).2

/-- The file that `cosm_create_key` hands to the card for the key `key_info`
when the private-key template of the profile is `template`: the template with
the size, path and id of lines 720-723, and the EF structure that
`cosm_new_file` gives an internal EF. The slot number does not occur in it. -/
def create_key_file (c : Consts) (template : ScFile) (key_info : PrkeyInfo) : ScFile :=
  { template with
    path := key_info.path
    id := key_info.path.getD (key_info.path.length - 2) 0 * 0x100
      + key_info.path.getD (key_info.path.length - 1) 0
    size := key_info.modulus_length
    ef_structure :=
      if template.type = ScFileType.INTERNAL_EF then c.SC_CARDCTL_OBERTHUR_KEY_RSA_CRT
      else template.ef_structure }

/-- Lines 727-743 of `cosm_create_key` for the file `file`: the probe of the
path, the delete of an existing file, the create and the new key reference. -/
def cosm_create_key_probe {σ : Type} (P : CardPrims σ) (s : State σ) (file : ScFile)
    (key_info : PrkeyInfo) : Rv × PrkeyInfo × State σ :=
  let r1 := sc_select_file P s file.path
  if r1.1 = Rv.ok 0 then
    let r2 := cosm_delete_file P r1.2.2 file
    if r2.1.isErr then (r2.1, key_info, r2.2)
    else cosm_create_key_tail P r2.2 file key_info
  else if r1.1 ≠ Rv.err ScError.FILE_NOT_FOUND ∧ r1.1.isErr then
    (r1.1, key_info, r1.2.2)
  else cosm_create_key_tail P r1.2.2 file key_info

/-- The private key file of `sample_key_info`, as `sample_card_key` holds it. -/
def sample_key_file : ScFile :=
  sample_file [0x3F, 0x00, 0x50, 0x11, 0x90, 0x02, 0x30, 0x01] 0x3001 1024 ScFileType.INTERNAL_EF

/-- A default user pin: no flag, no reference. -/
def sample_default_user_pin : PinInfo :=
  { reference := 0, flags := 0, path := [], tries_left := 3 }

/-- A session on the accepting card that has issued no command, where the card
has the label `L` and the profile has no card description. -/
def card_label_state (L : List Nat) : State Unit :=
  { card := (), trace := [], label := some L, flags := 0, p15_spec := none }

/-- A card whose select fails with the error `e` and that accepts every other
command. -/
def select_refusing_prims (e : ScError) : CardPrims Unit :=
  { accepting_prims with select_file := fun _ _ => (Rv.err e, sc_file_new, ()) }

/-- A card whose create-pin request fails with the error `e` and that accepts
every other command. -/
def create_pin_refusing_prims (e : ScError) : CardPrims Unit :=
  { accepting_prims with ctl_create_pin := fun _ _ => (Rv.err e, ()) }

/-- The result of a create after which the loop of `cosm_create_dir` goes on:
`FILE_ALREADY_EXISTS`, or no error (the test of lines 287-288 does not return). -/
def create_tolerated (rv : Rv) : Bool :=
  decide (rv = Rv.err ScError.FILE_ALREADY_EXISTS) || !rv.isErr

/-- Every create of the files `fs`, issued in order from the state `s`, has a
result after which the loop goes on. -/
def creates_tolerated {σ : Type} (P : CardPrims σ) : List ScFile → State σ → Bool
  | [], _ => true
  | f :: fs, s =>
    create_tolerated (sc_pkcs15init_create_file P s f).1
      && creates_tolerated P fs (sc_pkcs15init_create_file P s f).2

/-- A card whose create of the file with the path `path` fails with the error
`e` and that accepts every other command. -/
def create_refusing_prims (path : List Nat) (e : ScError) : CardPrims Unit :=
  { accepting_prims with
    create_file := fun _ f => if f.path = path then (Rv.err e, ()) else (Rv.ok 0, ()) }

/-! # Theorems -/

/-! ## The TokenInfo record -/

/-- A NUL-free prefix followed by a NUL is the C string of the buffer. -/
theorem cstr_append_zero (A R : List Nat) (h : ∀ b ∈ A, b ≠ 0) : cstr (A ++ 0 :: R) = A := by
  induction A with
  | nil => simp [cstr]
  | cons a A ih =>
    have ha : a ≠ 0 := h a (by simp)
    have hA : ∀ b ∈ A, b ≠ 0 := fun b hb => h b (by simp [hb])
    have := ih hA
    simp only [cstr] at this ⊢
    simp [List.takeWhile_cons, ha, this]

/-- A NUL-free list is its own C string. -/
theorem cstr_eq_self (L : List Nat) (h : ∀ b ∈ L, b ≠ 0) : cstr L = L := by
  induction L with
  | nil => simp [cstr]
  | cons a A ih =>
    have ha : a ≠ 0 := h a (by simp)
    have hA : ∀ b ∈ A, b ≠ 0 := fun b hb => h b (by simp [hb])
    have := ih hA
    simp only [cstr] at this ⊢
    simp [List.takeWhile_cons, ha, this]

/-- Lines 127-129 on a buffer of `n + 4` bytes: the first `n` bytes stay, the last
four become `00 00 hi lo`. -/
theorem tokeninfo_tail (pre t : List Nat) (n hi lo : Nat) (hpre : pre.length = n)
    (ht : t.length = 4) :
    ((memset (pre ++ t) n 0 4).set (n + 3) lo).set (n + 2) hi = pre ++ [0, 0, hi, lo] := by
  subst hpre
  have hd : List.drop (pre.length + 4) (pre ++ t) = [] := by
    apply List.drop_eq_nil_of_le
    simp [ht]
  simp only [memset, List.take_left, hd, List.append_nil]
  rw [List.set_append_right _ _ (by omega), List.set_append_right _ _ (by omega)]
  simp [List.replicate]

/-- The buffer of `cosm_write_tokeninfo` in closed form, for a label passed as
argument. -/
theorem tokeninfo_buffer_label (c : Consts) (n : Nat) (L : List Nat) (p : Nat)
    (hL : ∀ b ∈ L, b ≠ 0) (pl : Option (List Nat)) (spec : Option P15Spec) :
    cosm_tokeninfo_buffer c (n + 4) (some L) pl spec p =
      L.take n ++ List.replicate (n - L.length) 0x20 ++
        [0, 0, (cosm_tokeninfo_flags c p >>> 8) &&& 0xFF, cosm_tokeninfo_flags c p &&& 0xFF] := by
  have hT : ∀ b ∈ L.take n, b ≠ 0 := fun b hb => hL b (List.mem_of_mem_take hb)
  have h1 : strncpy (List.replicate (n + 4) 0) L n
      = L.take n ++ 0 :: (List.replicate (n - L.length + 3) 0) := by
    simp only [strncpy, cstr_eq_self L hL, List.drop_replicate, Nat.add_sub_cancel_left,
      List.append_assoc, List.append_replicate_replicate]
    rfl
  have h2 : strlen (strncpy (List.replicate (n + 4) 0) L n) = min n L.length := by
    rw [h1, strlen, cstr_append_zero _ _ hT, List.length_take]
  simp only [cosm_tokeninfo_buffer, Nat.add_sub_cancel, h2]
  rw [h1, show n + 4 - 1 = n + 3 by omega, show n + 4 - 2 = n + 2 by omega]
  by_cases hlt : L.length < n
  · have hmin : min n L.length = L.length := by omega
    have htake : L.take n = L := List.take_of_length_le (by omega)
    have hlt2 : min n L.length < n := by omega
    have hm : memset (L ++ 0 :: List.replicate (n - L.length + 3) 0) L.length 0x20
        (n + 4 - L.length) = (L ++ List.replicate (n - L.length) 0x20) ++ List.replicate 4 0x20 := by
      have hd : List.drop (L.length + (n + 4 - L.length))
          (L ++ 0 :: List.replicate (n - L.length + 3) 0) = [] := by
        apply List.drop_eq_nil_of_le
        simp
        omega
      simp only [memset, List.take_left, hd, List.append_nil, List.append_assoc,
        List.append_replicate_replicate]
      congr 2
      omega
    simp only [hlt2, hlt, if_true, htake, hmin, hm]
    exact tokeninfo_tail _ _ n _ _ (by simp; omega) (by simp)
  · have hmin : min n L.length = n := by omega
    have hlt2 : ¬ (min n L.length < n) := by omega
    have h0 : n - L.length = 0 := by omega
    simp only [hmin, Nat.lt_irrefl, if_false, h0, List.replicate, List.append_nil]
    exact tokeninfo_tail (L.take n) [0, 0, 0, 0] n _ _ (by simp; omega) rfl
/-- The device flags are the OR of the four device bits whose status bit is set. -/
theorem cosm_tokeninfo_flags_eq (c : Consts) (p : Nat) :
    cosm_tokeninfo_flags c p =
      (if p &&& c.SC_PKCS15_CARD_FLAG_PRN_GENERATION ≠ 0 then 0x01 else 0)
      ||| (if p &&& c.SC_PKCS15_CARD_FLAG_LOGIN_REQUIRED ≠ 0 then 0x04 else 0)
      ||| (if p &&& c.SC_PKCS15_CARD_FLAG_USER_PIN_INITIALIZED ≠ 0 then 0x08 else 0)
      ||| (if p &&& c.SC_PKCS15_CARD_FLAG_TOKEN_INITIALIZED ≠ 0 then 0x0400 else 0) := by
  unfold cosm_tokeninfo_flags COSM_TOKEN_FLAG_PRN_GENERATION COSM_TOKEN_FLAG_LOGIN_REQUIRED
    COSM_TOKEN_FLAG_USER_PIN_INITIALIZED COSM_TOKEN_FLAG_TOKEN_INITIALIZED
  by_cases h1 : p &&& c.SC_PKCS15_CARD_FLAG_PRN_GENERATION = 0 <;>
  by_cases h2 : p &&& c.SC_PKCS15_CARD_FLAG_LOGIN_REQUIRED = 0 <;>
  by_cases h3 : p &&& c.SC_PKCS15_CARD_FLAG_USER_PIN_INITIALIZED = 0 <;>
  by_cases h4 : p &&& c.SC_PKCS15_CARD_FLAG_TOKEN_INITIALIZED = 0 <;>
  simp [h1, h2, h3, h4]

/-- The closed form of the buffer, read byte by byte. -/
theorem tokeninfo_layout_index (L : List Nat) (n hi lo : Nat) :
    let buf := L.take n ++ List.replicate (n - L.length) 0x20 ++ [0, 0, hi, lo]
    buf.length = n + 4
    ∧ (∀ i, i < min L.length n → buf[i]? = L[i]?)
    ∧ (∀ i, min L.length n ≤ i → i < n → buf[i]? = some 0x20)
    ∧ buf[n]? = some 0 ∧ buf[n + 1]? = some 0
    ∧ buf[n + 2]? = some hi ∧ buf[n + 3]? = some lo := by
  intro buf
  have hlen : (L.take n ++ List.replicate (n - L.length) 0x20).length = n := by
    simp; omega
  refine ⟨by simp [buf]; omega, ?_, ?_, ?_, ?_, ?_, ?_⟩
  · intro i hi
    simp only [buf, List.append_assoc]
    rw [List.getElem?_append_left (by simp; omega), List.getElem?_take]
    simp; omega
  · intro i h1 h2
    simp only [buf, List.append_assoc]
    rw [List.getElem?_append_right (by simp; omega),
      List.getElem?_append_left (by simp; omega)]
    simp [List.getElem?_replicate]; omega
  all_goals
    simp only [buf]
    rw [List.getElem?_append_right (by omega)]
    simp [hlen]

/-- C1: for a TokenInfo file of size at least 16, a NUL-free label passed as
argument and any flag word, `cosm_write_tokeninfo` issues exactly one command,
an update of the TokenInfo file with a buffer of exactly `size` bytes: the
prefix of the label up to `size - 4` bytes, spaces up to index `size - 4`, two
zero bytes, and the high and low byte of the device flags, which are the OR of
`0x01`, `0x04`, `0x08`, `0x0400` for the status bits set in the flag word. -/
theorem cosm_write_tokeninfo_layout {σ : Type} (c : Consts) (P : CardPrims σ)
    (profile : Profile) (st : State σ) (file : ScFile) (L : List Nat) (p : Nat)
    (hfile : profile.get_file "OberthurAWP-token-info" = .ok file)
    (hsize : 16 ≤ file.size) (hL : ∀ b ∈ L, b ≠ 0) :
    ∃ buf f : _,
      (cosm_write_tokeninfo c P profile st (some L) p).2.trace
        = st.trace ++ [CardCmd.update file buf]
      ∧ f = ((if p &&& c.SC_PKCS15_CARD_FLAG_PRN_GENERATION ≠ 0 then 0x01 else 0)
          ||| (if p &&& c.SC_PKCS15_CARD_FLAG_LOGIN_REQUIRED ≠ 0 then 0x04 else 0)
          ||| (if p &&& c.SC_PKCS15_CARD_FLAG_USER_PIN_INITIALIZED ≠ 0 then 0x08 else 0)
          ||| (if p &&& c.SC_PKCS15_CARD_FLAG_TOKEN_INITIALIZED ≠ 0 then 0x0400 else 0))
      ∧ buf.length = file.size
      ∧ (∀ i, i < min L.length (file.size - 4) → buf[i]? = L[i]?)
      ∧ (∀ i, min L.length (file.size - 4) ≤ i → i < file.size - 4 → buf[i]? = some 0x20)
      ∧ buf[file.size - 4]? = some 0
      ∧ buf[file.size - 3]? = some 0
      ∧ buf[file.size - 2]? = some ((f >>> 8) &&& 0xFF)
      ∧ buf[file.size - 1]? = some (f &&& 0xFF) := by
  obtain ⟨n, hn⟩ : ∃ n, file.size = n + 4 := ⟨file.size - 4, by omega⟩
  have hbuf := tokeninfo_buffer_label c n L p hL st.label st.p15_spec
  have hidx := tokeninfo_layout_index L n ((cosm_tokeninfo_flags c p >>> 8) &&& 0xFF)
    (cosm_tokeninfo_flags c p &&& 0xFF)
  simp only at hidx
  rw [← hbuf, ← hn] at hidx
  obtain ⟨h1, h2, h3, h4, h5, h6, h7⟩ := hidx
  refine ⟨cosm_tokeninfo_buffer c file.size (some L) st.label st.p15_spec p,
    cosm_tokeninfo_flags c p, ?_, cosm_tokeninfo_flags_eq c p, h1, ?_, ?_, ?_, ?_, ?_, ?_⟩
  · have hnot : ¬ file.size < 16 := by omega
    simp [cosm_write_tokeninfo, hfile, hnot, sc_pkcs15init_update_file]
  · intro i hi
    exact h2 i (by omega)
  · intro i hi hi2
    exact h3 i (by omega) (by omega)
  · rw [show file.size - 4 = n by omega]; exact h4
  · rw [show file.size - 3 = n + 1 by omega]; exact h5
  · rw [show file.size - 2 = n + 2 by omega]; exact h6
  · rw [show file.size - 1 = n + 3 by omega]; exact h7

/-- Witness of C1: the sample profile with a 16-byte TokenInfo file, the label
`ABC` and the flag word `0x84`. -/
theorem cosm_write_tokeninfo_layout_witness :
    (sample_profile 16 0).get_file "OberthurAWP-token-info"
        = .ok (sample_file [0x3F, 0x00, 0x50, 0x11, 0x10, 0x00] 0x1000 16 ScFileType.WORKING_EF)
    ∧ (∀ b ∈ [65, 66, 67], b ≠ 0)
    ∧ ∃ buf f : _,
      (cosm_write_tokeninfo sample_consts (fileCardPrims sample_oracle) (sample_profile 16 0)
          (sample_state sample_card) (some [65, 66, 67]) 0x84).2.trace
        = [] ++ [CardCmd.update
            (sample_file [0x3F, 0x00, 0x50, 0x11, 0x10, 0x00] 0x1000 16 ScFileType.WORKING_EF) buf]
      ∧ f = ((if 0x84 &&& 0x04 ≠ 0 then 0x01 else 0)
          ||| (if 0x84 &&& 0x02 ≠ 0 then 0x04 else 0)
          ||| (if 0x84 &&& 0x40 ≠ 0 then 0x08 else 0)
          ||| (if 0x84 &&& 0x80 ≠ 0 then 0x0400 else 0))
      ∧ buf.length = 16
      ∧ (∀ i, i < min 3 (16 - 4) → buf[i]? = [65, 66, 67][i]?)
      ∧ (∀ i, min 3 (16 - 4) ≤ i → i < 16 - 4 → buf[i]? = some 0x20)
      ∧ buf[16 - 4]? = some 0
      ∧ buf[16 - 3]? = some 0
      ∧ buf[16 - 2]? = some ((f >>> 8) &&& 0xFF)
      ∧ buf[16 - 1]? = some (f &&& 0xFF) :=
  ⟨by rfl, by decide,
    cosm_write_tokeninfo_layout sample_consts (fileCardPrims sample_oracle) (sample_profile 16 0)
      (sample_state sample_card)
      (sample_file [0x3F, 0x00, 0x50, 0x11, 0x10, 0x00] 0x1000 16 ScFileType.WORKING_EF)
      [65, 66, 67] 0x84 (by rfl) (by decide) (by decide)⟩

/-- With bit-disjoint constants, a status bit is set in the flag word of `b`
exactly when it is in `b`. -/
theorem status_flags_and (c : Consts) (hc : c.card_flags_disjoint) (b : StatusBits) :
    (b.p15_flags c &&& c.SC_PKCS15_CARD_FLAG_PRN_GENERATION ≠ 0 ↔ b.prn_generation = true)
    ∧ (b.p15_flags c &&& c.SC_PKCS15_CARD_FLAG_LOGIN_REQUIRED ≠ 0 ↔ b.login_required = true)
    ∧ (b.p15_flags c &&& c.SC_PKCS15_CARD_FLAG_USER_PIN_INITIALIZED ≠ 0
        ↔ b.user_pin_initialized = true)
    ∧ (b.p15_flags c &&& c.SC_PKCS15_CARD_FLAG_TOKEN_INITIALIZED ≠ 0
        ↔ b.token_initialized = true) := by
  obtain ⟨n1, n2, n3, n4, d12, d13, d14, d23, d24, d34⟩ := hc
  have d21 := (Nat.and_comm _ _).trans d12
  have d31 := (Nat.and_comm _ _).trans d13
  have d41 := (Nat.and_comm _ _).trans d14
  have d32 := (Nat.and_comm _ _).trans d23
  have d42 := (Nat.and_comm _ _).trans d24
  have d43 := (Nat.and_comm _ _).trans d34
  obtain ⟨b1, b2, b3, b4⟩ := b
  simp only [StatusBits.p15_flags, Nat.and_distrib_right]
  cases b1 <;> cases b2 <;> cases b3 <;> cases b4 <;>
    simp [d12, d13, d14, d23, d24, d34, d21, d31, d41, d32, d42, d43, n1, n2, n3, n4]

/-- The device flags written for the flag word of `b`. -/
theorem status_flags_encode (c : Consts) (hc : c.card_flags_disjoint) (b : StatusBits) :
    cosm_tokeninfo_flags c (b.p15_flags c) =
      (if b.prn_generation then 0x01 else 0) ||| (if b.login_required then 0x04 else 0)
      ||| (if b.user_pin_initialized then 0x08 else 0)
      ||| (if b.token_initialized then 0x0400 else 0) := by
  obtain ⟨h1, h2, h3, h4⟩ := status_flags_and c hc b
  rw [cosm_tokeninfo_flags_eq]
  simp only [h1, h2, h3, h4]

/-- The label read back from a record is the part before its last four bytes. -/
theorem tokeninfo_decode_label_eq (pre : List Nat) (n a b0 hi lo : Nat) (hpre : pre.length = n) :
    tokeninfo_decode_label (pre ++ [a, b0, hi, lo]) = pre := by
  simp [tokeninfo_decode_label, hpre]

/-- The flags read back from a record are its last two bytes, big-endian. -/
theorem tokeninfo_decode_flags_eq (pre : List Nat) (a b0 hi lo : Nat) :
    tokeninfo_decode_flags (pre ++ [a, b0, hi, lo]) = hi * 256 + lo := by
  simp only [tokeninfo_decode_flags, List.length_append, List.length_cons, List.length_nil,
    List.getD_eq_getElem?_getD]
  rw [show pre.length + (0 + 1 + 1 + 1 + 1) - 2 = pre.length + 2 by omega,
    show pre.length + (0 + 1 + 1 + 1 + 1) - 1 = pre.length + 3 by omega,
    List.getElem?_append_right (by omega), List.getElem?_append_right (by omega)]
  simp

/-- The round trip of the TokenInfo record for a label passed as argument. For
a TokenInfo file of size at least 16, a label passed as argument and any subset
of the four status bits, the record that `cosm_write_tokeninfo` writes decodes
to exactly that subset and to the label truncated or space-padded to
`size - 4` bytes. -/
theorem cosm_write_tokeninfo_roundtrip {σ : Type} (c : Consts) (P : CardPrims σ)
    (profile : Profile) (st : State σ) (file : ScFile) (L : List Nat) (b : StatusBits)
    (hc : c.card_flags_disjoint)
    (hfile : profile.get_file "OberthurAWP-token-info" = .ok file)
    (hsize : 16 ≤ file.size) (hL : ∀ x ∈ L, x ≠ 0) :
    ∃ record,
      (cosm_write_tokeninfo c P profile st (some L) (b.p15_flags c)).2.trace
        = st.trace ++ [CardCmd.update file record]
      ∧ tokeninfo_decode_status record = b
      ∧ tokeninfo_decode_label record = label_fit L (file.size - 4) := by
  obtain ⟨n, hn⟩ : ∃ n, file.size = n + 4 := ⟨file.size - 4, by omega⟩
  have hbuf := tokeninfo_buffer_label c n L (b.p15_flags c) hL st.label st.p15_spec
  have hlen : (L.take n ++ List.replicate (n - L.length) 0x20).length = n := by
    simp; omega
  refine ⟨cosm_tokeninfo_buffer c file.size (some L) st.label st.p15_spec (b.p15_flags c),
    ?_, ?_, ?_⟩
  · have hnot : ¬ file.size < 16 := by omega
    simp [cosm_write_tokeninfo, hfile, hnot, sc_pkcs15init_update_file]
  · rw [hn, hbuf, tokeninfo_decode_status, tokeninfo_decode_flags_eq,
      status_flags_encode c hc b]
    obtain ⟨b1, b2, b3, b4⟩ := b
    cases b1 <;> cases b2 <;> cases b3 <;> cases b4 <;> decide
  · rw [hn, hbuf, tokeninfo_decode_label_eq _ n _ _ _ _ hlen, label_fit, Nat.add_sub_cancel]

/-- The round trip for a label passed as argument, at the sample profile with a
16-byte TokenInfo file, the label `ABC` and the subset PRN-generation,
token-initialized. -/
theorem cosm_write_tokeninfo_roundtrip_witness :
    sample_consts.card_flags_disjoint
    ∧ (sample_profile 16 0).get_file "OberthurAWP-token-info"
        = .ok (sample_file [0x3F, 0x00, 0x50, 0x11, 0x10, 0x00] 0x1000 16 ScFileType.WORKING_EF)
    ∧ (∀ x ∈ [65, 66, 67], x ≠ 0)
    ∧ ∃ record,
      (cosm_write_tokeninfo sample_consts (fileCardPrims sample_oracle) (sample_profile 16 0)
          (sample_state sample_card) (some [65, 66, 67])
          (StatusBits.p15_flags sample_consts
            { prn_generation := true, login_required := false, user_pin_initialized := false,
              token_initialized := true })).2.trace
        = (sample_state sample_card).trace ++ [CardCmd.update
            (sample_file [0x3F, 0x00, 0x50, 0x11, 0x10, 0x00] 0x1000 16 ScFileType.WORKING_EF)
            record]
      ∧ tokeninfo_decode_status record
          = { prn_generation := true, login_required := false, user_pin_initialized := false,
              token_initialized := true }
      ∧ tokeninfo_decode_label record = label_fit [65, 66, 67]
          ((sample_file [0x3F, 0x00, 0x50, 0x11, 0x10, 0x00] 0x1000 16
            ScFileType.WORKING_EF).size - 4) :=
  ⟨by unfold Consts.card_flags_disjoint; decide, by rfl, by decide,
    cosm_write_tokeninfo_roundtrip sample_consts (fileCardPrims sample_oracle)
      (sample_profile 16 0) (sample_state sample_card)
      (sample_file [0x3F, 0x00, 0x50, 0x11, 0x10, 0x00] 0x1000 16 ScFileType.WORKING_EF)
      [65, 66, 67] _ (by unfold Consts.card_flags_disjoint; decide) (by rfl) (by decide)
      (by decide)⟩

/-! ## PIN references and PIN creation -/

/-- C3: when the profile defines the AppDF, `cosm_select_pin_reference` returns
success; a credential without a reference (`reference <= 0`) gets 4 when the
SO-pin or the unblocking-pin flag is set and 1 otherwise, ORed with `0x80` when
the LOCAL flag is set; a credential with a reference keeps it. -/
theorem cosm_select_pin_reference_assigns (c : Consts) (profile : Profile) (pin_info : PinInfo)
    (appdf : ScFile) (happ : profile.get_file "OberthurAWP-AppDF" = .ok appdf) :
    (cosm_select_pin_reference c profile pin_info).1 = SC_SUCCESS
    ∧ (pin_info.reference ≤ 0 →
        (cosm_select_pin_reference c profile pin_info).2.reference =
          (((if pin_info.flags &&& c.SC_PKCS15_PIN_FLAG_SO_PIN ≠ 0
                ∨ pin_info.flags &&& c.SC_PKCS15_PIN_FLAG_UNBLOCKING_PIN ≠ 0 then 4 else 1)
            ||| (if pin_info.flags &&& c.SC_PKCS15_PIN_FLAG_LOCAL ≠ 0 then 0x80 else 0) : Nat)
            : Int))
    ∧ (0 < pin_info.reference →
        (cosm_select_pin_reference c profile pin_info).2.reference = pin_info.reference) := by
  refine ⟨?_, ?_, ?_⟩
  · simp [cosm_select_pin_reference, happ]
  · intro href
    by_cases hso : pin_info.flags &&& c.SC_PKCS15_PIN_FLAG_SO_PIN = 0 <;>
    by_cases hun : pin_info.flags &&& c.SC_PKCS15_PIN_FLAG_UNBLOCKING_PIN = 0 <;>
    by_cases hlo : pin_info.flags &&& c.SC_PKCS15_PIN_FLAG_LOCAL = 0 <;>
    simp [cosm_select_pin_reference, happ, href, hso, hun, hlo]
  · intro href
    have hnot : ¬ pin_info.reference ≤ 0 := by omega
    by_cases hlo : pin_info.flags &&& c.SC_PKCS15_PIN_FLAG_LOCAL = 0 <;>
    simp [cosm_select_pin_reference, happ, hnot, hlo]

/-- Witness of C3: a local user pin without a reference gets `0x81` under the
sample profile. -/
theorem cosm_select_pin_reference_assigns_witness :
    (sample_profile 16 0).get_file "OberthurAWP-AppDF" = .ok sample_appdf
    ∧ (cosm_select_pin_reference sample_consts (sample_profile 16 0)
        sample_local_user_pin).1 = SC_SUCCESS
    ∧ (cosm_select_pin_reference sample_consts (sample_profile 16 0)
        sample_local_user_pin).2.reference = 0x81 :=
  ⟨by rfl,
    (cosm_select_pin_reference_assigns sample_consts (sample_profile 16 0)
      sample_local_user_pin sample_appdf (by rfl)).1,
    by
      have h := (cosm_select_pin_reference_assigns sample_consts (sample_profile 16 0)
        sample_local_user_pin sample_appdf (by rfl)).2.1 (by decide)
      rw [h]
      decide⟩

/-- Counterexample to C4 as stated: a credential with the SO-pin flag and
reference 5 that also has the unblocking-pin flag is refused with
`NOT_SUPPORTED`, not with `INVALID_PIN_REFERENCE`. -/
theorem cosm_create_pin_so_unblocking_not_supported :
    sample_so_unblocking_pin.flags &&& sample_consts.SC_PKCS15_PIN_FLAG_SO_PIN ≠ 0
    ∧ sample_so_unblocking_pin.reference ≠ 4
    ∧ (sample_profile 16 0).get_file "OberthurAWP-AppDF" = .ok sample_appdf
    ∧ (cosm_create_pin sample_consts (fileCardPrims sample_oracle) (sample_profile 16 0)
        (sample_state sample_card) sample_so_unblocking_pin (some [0x31, 0x32, 0x33, 0x34])
        none).1 = Rv.err ScError.NOT_SUPPORTED
    ∧ (cosm_create_pin sample_consts (fileCardPrims sample_oracle) (sample_profile 16 0)
        (sample_state sample_card) sample_so_unblocking_pin (some [0x31, 0x32, 0x33, 0x34])
        none).1 ≠ Rv.err ScError.INVALID_PIN_REFERENCE := by
  refine ⟨by decide, by decide, by rfl, ?_, ?_⟩ <;> decide

/-- C4, amended: for a credential with the SO-pin flag set, the unblocking-pin
flag not set and a reference other than 4, with the AppDF defined in the
profile, `cosm_create_pin` fails with `INVALID_PIN_REFERENCE` whatever the pin
and puk are, and issues no command: trace, card and flags are unchanged. -/
theorem cosm_create_pin_so_invalid_reference {σ : Type} (c : Consts) (P : CardPrims σ)
    (profile : Profile) (st : State σ) (pin_info : PinInfo) (pin puk : Option (List Nat))
    (appdf : ScFile) (happ : profile.get_file "OberthurAWP-AppDF" = .ok appdf)
    (hso : pin_info.flags &&& c.SC_PKCS15_PIN_FLAG_SO_PIN ≠ 0)
    (hun : pin_info.flags &&& c.SC_PKCS15_PIN_FLAG_UNBLOCKING_PIN = 0)
    (href : pin_info.reference ≠ 4) :
    (cosm_create_pin c P profile st pin_info pin puk).1 = Rv.err ScError.INVALID_PIN_REFERENCE
    ∧ (cosm_create_pin c P profile st pin_info pin puk).2.2.trace = st.trace
    ∧ (cosm_create_pin c P profile st pin_info pin puk).2.2.card = st.card
    ∧ (cosm_create_pin c P profile st pin_info pin puk).2.2.flags = st.flags := by
  by_cases hlo : pin_info.flags &&& c.SC_PKCS15_PIN_FLAG_LOCAL = 0 <;>
  simp [cosm_create_pin, cosm_create_pin_check, happ, hso, hun, href, hlo]

/-- Witness of C4, amended: the SO pin with reference 5 under the sample profile. -/
theorem cosm_create_pin_so_invalid_reference_witness :
    (sample_profile 16 0).get_file "OberthurAWP-AppDF" = .ok sample_appdf
    ∧ sample_so_pin.flags &&& sample_consts.SC_PKCS15_PIN_FLAG_SO_PIN ≠ 0
    ∧ sample_so_pin.flags &&& sample_consts.SC_PKCS15_PIN_FLAG_UNBLOCKING_PIN = 0
    ∧ sample_so_pin.reference ≠ 4
    ∧ (cosm_create_pin sample_consts (fileCardPrims sample_oracle) (sample_profile 16 0)
        (sample_state sample_card) sample_so_pin (some [0x31, 0x32, 0x33, 0x34]) none).1
        = Rv.err ScError.INVALID_PIN_REFERENCE
    ∧ (cosm_create_pin sample_consts (fileCardPrims sample_oracle) (sample_profile 16 0)
        (sample_state sample_card) sample_so_pin (some [0x31, 0x32, 0x33, 0x34]) none).2.2.trace
        = [] :=
  ⟨by rfl, by decide, by decide, by decide,
    (cosm_create_pin_so_invalid_reference sample_consts (fileCardPrims sample_oracle)
      (sample_profile 16 0) (sample_state sample_card) sample_so_pin
      (some [0x31, 0x32, 0x33, 0x34]) none sample_appdf (by rfl) (by decide) (by decide)
      (by decide)).1,
    (cosm_create_pin_so_invalid_reference sample_consts (fileCardPrims sample_oracle)
      (sample_profile 16 0) (sample_state sample_card) sample_so_pin
      (some [0x31, 0x32, 0x33, 0x34]) none sample_appdf (by rfl) (by decide) (by decide)
      (by decide)).2.1⟩

/-- C5: a PIN longer than 64 bytes, and likewise a supplied PUK of length 0,
makes `cosm_create_reference_data` fail with `INVALID_ARGUMENTS` before any
command: the state, its trace included, is returned as it was. -/
theorem cosm_create_reference_data_invalid_arguments {σ : Type} (c : Consts) (P : CardPrims σ)
    (profile : Profile) (st : State σ) (pinfo : PinInfo) (pin : List Nat)
    (puk : Option (List Nat)) (h : 64 < pin.length ∨ puk = some []) :
    cosm_create_reference_data c P profile st pinfo (some pin) puk
      = (Rv.err ScError.INVALID_ARGUMENTS, st) := by
  rcases h with h | h
  · simp [cosm_create_reference_data, h]
  · subst h
    simp [cosm_create_reference_data]

/-- Witness of C5: a PIN of 65 bytes. -/
theorem cosm_create_reference_data_invalid_arguments_witness :
    (64 < (List.replicate 65 0x31).length ∨ (none : Option (List Nat)) = some [])
    ∧ cosm_create_reference_data sample_consts (fileCardPrims sample_oracle)
        (sample_profile 16 0) (sample_state sample_card) sample_local_user_pin
        (some (List.replicate 65 0x31)) none
      = (Rv.err ScError.INVALID_ARGUMENTS, sample_state sample_card) :=
  ⟨Or.inl (by decide),
    cosm_create_reference_data_invalid_arguments sample_consts (fileCardPrims sample_oracle)
      (sample_profile 16 0) (sample_state sample_card) sample_local_user_pin
      (List.replicate 65 0x31) none (Or.inl (by decide))⟩

/-- C6: in `cosm_create_reference_data`, for a PIN of at most 64 bytes and a
credential without the unblocking-pin flag. A supplied PUK of length 0 ends
the call before any command. Otherwise, if the select of the credential's path
fails nothing else is issued; if it succeeds one create-pin request is issued,
whose `pin_tries` is the `tries_left` of the user-pin policy. When the
user-PUK policy has `tries_left = 0` the request has no puk (`puk = NULL`,
`puk_len = 0`, `puk_tries = 0`) and no update follows. When it has
`tries_left > 0` the request carries the 16 bytes of `oberthur_puk`,
`puk_len = 16` and `puk_tries = 5`; after a failed request no update follows,
and after a successful one exactly those 16 bytes are written to the PUK-file
of the profile. -/
theorem cosm_create_reference_data_puk_policy {σ : Type} (c : Consts) (P : CardPrims σ)
    (profile : Profile) (st : State σ) (pinfo : PinInfo) (pin : List Nat)
    (puk : Option (List Nat))
    (hpin : pin.length ≤ 64)
    (hun : pinfo.flags &&& c.SC_PKCS15_PIN_FLAG_UNBLOCKING_PIN = 0) :
    let tries := (profile.get_pin_info PinRole.USER_PUK).tries_left
    let args_no_puk : CreatePinInfo :=
      { type := AcMethod.CHV, ref := pinfo.reference, pin := pin, pin_len := pin.length,
        pin_tries := (profile.get_pin_info PinRole.USER_PIN).tries_left,
        puk := none, puk_len := 0, puk_tries := 0 }
    let args_puk : CreatePinInfo :=
      { type := AcMethod.CHV, ref := pinfo.reference, pin := pin, pin_len := pin.length,
        pin_tries := (profile.get_pin_info PinRole.USER_PIN).tries_left,
        puk := some oberthur_puk, puk_len := 16, puk_tries := 5 }
    let sel := P.select_file st.card pinfo.path
    let r := cosm_create_reference_data c P profile st pinfo (some pin) puk
    oberthur_puk.length = 16
    ∧ (puk = some [] → r = (Rv.err ScError.INVALID_ARGUMENTS, st))
    ∧ (puk ≠ some [] → sel.1.isErr = true →
        r.1 = sel.1 ∧ r.2.trace = st.trace ++ [CardCmd.select pinfo.path])
    ∧ (puk ≠ some [] → sel.1.isErr = false →
        (tries = 0 →
          r.1 = (P.ctl_create_pin sel.2.2 args_no_puk).1
          ∧ r.2.trace
            = st.trace ++ [CardCmd.select pinfo.path, CardCmd.ctl_create_pin args_no_puk])
        ∧ (0 < tries → (P.ctl_create_pin sel.2.2 args_puk).1.isErr = true →
          r.1 = (P.ctl_create_pin sel.2.2 args_puk).1
          ∧ r.2.trace = st.trace ++ [CardCmd.select pinfo.path, CardCmd.ctl_create_pin args_puk])
        ∧ (0 < tries → (P.ctl_create_pin sel.2.2 args_puk).1.isErr = false →
          ∀ file, profile.get_file "OberthurAWP-puk-file" = .ok file →
            r.1 = (P.update_file (P.ctl_create_pin sel.2.2 args_puk).2 file oberthur_puk).1
            ∧ r.2.trace = st.trace ++ [CardCmd.select pinfo.path,
                CardCmd.ctl_create_pin args_puk, CardCmd.update file oberthur_puk])) := by
  intro tries args_no_puk args_puk sel r
  have hlen : ¬ pin.length > 64 := by omega
  refine ⟨by decide, ?_, ?_, ?_⟩
  · intro hp
    subst hp
    simp [r, cosm_create_reference_data, hlen]
  · intro hpuk hsel
    have hpuk2 : ¬ (Option.map List.length puk = some 0) := by
      cases puk with
      | none => simp
      | some l =>
        cases l with
        | nil => exact absurd rfl hpuk
        | cons a l => simp
    have hsel2 : (P.select_file st.card pinfo.path).1.isErr = true := hsel
    simp [r, sel, cosm_create_reference_data, hlen, hpuk2, sc_select_file, hsel2]
  · intro hpuk hsel
    have hpuk2 : ¬ (Option.map List.length puk = some 0) := by
      cases puk with
      | none => simp
      | some l =>
        cases l with
        | nil => exact absurd rfl hpuk
        | cons a l => simp
    have hsel2 : (P.select_file st.card pinfo.path).1.isErr = false := hsel
    refine ⟨?_, ?_, ?_⟩
    · intro h0
      have h0b : (profile.get_pin_info PinRole.USER_PUK).tries_left = 0 := h0
      simp [r, args_no_puk, sel, cosm_create_reference_data, cosm_createpin_args, hlen,
        hpuk2, sc_select_file, hsel2, sc_card_ctl_create_pin, hun, h0b]
    · intro hpos hreq
      have hposb : 0 < (profile.get_pin_info PinRole.USER_PUK).tries_left := hpos
      have hargs : cosm_createpin_args c profile pinfo pin = args_puk := by
        simp [args_puk, cosm_createpin_args, hun, hposb, oberthur_puk]
      have hreqb : (P.ctl_create_pin (P.select_file st.card pinfo.path).2.2 args_puk).1.isErr
          = true := hreq
      simp [r, sel, cosm_create_reference_data, hlen, hpuk2, sc_select_file, hsel2,
        sc_card_ctl_create_pin, hargs, hreqb]
    · intro hpos hreq file hfile
      have hposb : 0 < (profile.get_pin_info PinRole.USER_PUK).tries_left := hpos
      have hargs : cosm_createpin_args c profile pinfo pin = args_puk := by
        simp [args_puk, cosm_createpin_args, hun, hposb, oberthur_puk]
      have hreqb : (P.ctl_create_pin (P.select_file st.card pinfo.path).2.2 args_puk).1.isErr
          = false := hreq
      simp [r, sel, cosm_create_reference_data, hlen, hpuk2, sc_select_file, hsel2,
        sc_card_ctl_create_pin, hargs, hreqb, hun, hposb, hfile, sc_pkcs15init_update_file]

/-- Witness of C6: pin `1234`, no puk, a user-PUK policy with `tries_left = 0`,
on a card that holds the AppDF: the request has no puk and nothing is written. -/
theorem cosm_create_reference_data_puk_policy_witness :
    [0x31, 0x32, 0x33, 0x34].length ≤ 64
    ∧ sample_user_pin.flags &&& sample_consts.SC_PKCS15_PIN_FLAG_UNBLOCKING_PIN = 0
    ∧ (cosm_create_reference_data sample_consts (fileCardPrims sample_oracle)
        (sample_profile 16 0) (sample_state sample_card_appdf) sample_user_pin
        (some [0x31, 0x32, 0x33, 0x34]) none).1 = Rv.ok 0
    ∧ (cosm_create_reference_data sample_consts (fileCardPrims sample_oracle)
        (sample_profile 16 0) (sample_state sample_card_appdf) sample_user_pin
        (some [0x31, 0x32, 0x33, 0x34]) none).2.trace
      = [CardCmd.select [0x3F, 0x00, 0x50, 0x11],
          CardCmd.ctl_create_pin
            { type := AcMethod.CHV, ref := 0x81, pin := [0x31, 0x32, 0x33, 0x34], pin_len := 4,
              pin_tries := 3, puk := none, puk_len := 0, puk_tries := 0 }] :=
  ⟨by decide, by decide,
    (((cosm_create_reference_data_puk_policy sample_consts (fileCardPrims sample_oracle)
      (sample_profile 16 0) (sample_state sample_card_appdf) sample_user_pin
      [0x31, 0x32, 0x33, 0x34] none (by decide) (by decide)).2.2.2 (by decide) (by decide)).1
      (by decide)).1,
    (((cosm_create_reference_data_puk_policy sample_consts (fileCardPrims sample_oracle)
      (sample_profile 16 0) (sample_state sample_card_appdf) sample_user_pin
      [0x31, 0x32, 0x33, 0x34] none (by decide) (by decide)).2.2.2 (by decide) (by decide)).1
      (by decide)).2⟩

/-! ## Key file allocation -/

/-- An OR into the low byte changes no bit above it. -/
theorem or_low_byte_shift (a n : Nat) : (a ||| (n &&& 0xFF)) >>> 8 = a >>> 8 := by
  apply Nat.eq_of_testBit_eq
  intro i
  have h : Nat.testBit 255 (8 + i) = false :=
    Nat.testBit_lt_two_pow (Nat.lt_of_lt_of_le (by decide : 255 < 2 ^ 8)
      (Nat.pow_le_pow_right (by decide) (by omega)))
  simp [Nat.testBit_shiftRight, h]

/-- The low byte after an OR into the low byte. -/
theorem or_low_byte_and (a n : Nat) :
    (a ||| (n &&& 0xFF)) &&& 0xFF = (a &&& 0xFF) ||| (n &&& 0xFF) := by
  apply Nat.eq_of_testBit_eq
  intro i
  simp only [Nat.testBit_and, Nat.testBit_or]
  cases Nat.testBit a i <;> cases Nat.testBit n i <;> cases Nat.testBit 255 i <;> rfl

/-- The path after `path.value[len - 1] = f(path.value[len - 1])`, byte by byte. -/
theorem path_update_getElem (path : List Nat) (f : Nat → Nat) (i : Nat) :
    (path_update path (path.length - 1) f).length = path.length
    ∧ (i + 1 < path.length → (path_update path (path.length - 1) f)[i]? = path[i]?)
    ∧ (i + 1 = path.length → (path_update path (path.length - 1) f)[i]? = path[i]?.map f) := by
  unfold path_update
  cases h : path[path.length - 1]? with
  | none =>
    have hnil : path.length = 0 := by
      by_contra hne
      have : path.length - 1 < path.length := by omega
      rw [List.getElem?_eq_getElem this] at h
      cases h
    refine ⟨rfl, fun hi => rfl, fun hi => ?_⟩
    omega
  | some v =>
    refine ⟨by simp, fun hi => ?_, fun hi => ?_⟩
    · simp only []
      rw [List.getElem?_set_ne (by omega)]
    · have hidx : path.length - 1 = i := by omega
      simp only []
      rw [hidx] at h ⊢
      rw [List.getElem?_set_self (by omega), h]
      rfl

/-- C7: for every slot number `n` and every profile that defines
`template-private-key`, `cosm_new_file` returns for the type
`SC_DEVICE_SPECIFIC_TYPE | SC_PKCS15_TYPE_PRKEY_RSA` what it returns for
`SC_PKCS15_TYPE_PRKEY_RSA`, after one pass of its loop: success and the
template with `n & 0xFF` ORed into the id and into the last byte of the path,
every other id bit, path byte and field unchanged, and with the EF structure
`SC_CARDCTL_OBERTHUR_KEY_RSA_CRT` when the template is an internal EF. -/
theorem cosm_new_file_device_specific_prkey (c : Consts) (profile : Profile) (fuel n : Nat)
    (tmpl : ScFile) (htmpl : profile.get_file "template-private-key" = .ok tmpl) :
    cosm_new_file c profile (fuel + 1) (SC_DEVICE_SPECIFIC_TYPE ||| c.SC_PKCS15_TYPE_PRKEY_RSA) n
      = cosm_new_file c profile (fuel + 1) c.SC_PKCS15_TYPE_PRKEY_RSA n
    ∧ ∃ file,
      cosm_new_file c profile (fuel + 1) (SC_DEVICE_SPECIFIC_TYPE ||| c.SC_PKCS15_TYPE_PRKEY_RSA) n
        = some (SC_SUCCESS, some file)
      ∧ file.id = tmpl.id ||| (n &&& 0xFF)
      ∧ file.id >>> 8 = tmpl.id >>> 8
      ∧ file.id &&& 0xFF = (tmpl.id &&& 0xFF) ||| (n &&& 0xFF)
      ∧ file.path.length = tmpl.path.length
      ∧ (∀ i, i + 1 < tmpl.path.length → file.path[i]? = tmpl.path[i]?)
      ∧ (∀ i, i + 1 = tmpl.path.length →
          file.path[i]? = tmpl.path[i]?.map (fun b => b ||| (n &&& 0xFF)))
      ∧ (tmpl.type = ScFileType.INTERNAL_EF →
          file.ef_structure = c.SC_CARDCTL_OBERTHUR_KEY_RSA_CRT)
      ∧ (tmpl.type ≠ ScFileType.INTERNAL_EF → file.ef_structure = tmpl.ef_structure)
      ∧ file.size = tmpl.size ∧ file.type = tmpl.type ∧ file.status = tmpl.status
      ∧ file.acl = tmpl.acl := by
  have hdev : cosm_new_file c profile (fuel + 1)
      (SC_DEVICE_SPECIFIC_TYPE ||| c.SC_PKCS15_TYPE_PRKEY_RSA) n
      = cosm_new_file c profile (fuel + 1) c.SC_PKCS15_TYPE_PRKEY_RSA n := by
    simp [cosm_new_file, cosm_new_file_resolve, cosm_new_file_switch, COSM_TYPE_PRKEY_RSA]
  refine ⟨hdev, ?_⟩
  rw [hdev]
  by_cases hty : tmpl.type = ScFileType.INTERNAL_EF
  · refine ⟨{ tmpl with
        id := tmpl.id ||| (n &&& 0xFF)
        path := path_update tmpl.path (tmpl.path.length - 1) (fun b => b ||| (n &&& 0xFF))
        ef_structure := c.SC_CARDCTL_OBERTHUR_KEY_RSA_CRT }, ?_, rfl, or_low_byte_shift _ _,
      or_low_byte_and _ _, (path_update_getElem _ _ 0).1,
      fun i hi => (path_update_getElem _ _ i).2.1 hi,
      fun i hi => (path_update_getElem _ _ i).2.2 hi,
      fun _ => rfl, fun h => absurd hty h, rfl, rfl, rfl, rfl⟩
    simp [cosm_new_file, cosm_new_file_resolve, cosm_new_file_switch, htmpl, hty]
  · refine ⟨{ tmpl with
        id := tmpl.id ||| (n &&& 0xFF)
        path := path_update tmpl.path (tmpl.path.length - 1) (fun b => b ||| (n &&& 0xFF)) },
      ?_, rfl, or_low_byte_shift _ _,
      or_low_byte_and _ _, (path_update_getElem _ _ 0).1,
      fun i hi => (path_update_getElem _ _ i).2.1 hi,
      fun i hi => (path_update_getElem _ _ i).2.2 hi,
      fun h => absurd h hty, fun _ => rfl, rfl, rfl, rfl, rfl⟩
    simp [cosm_new_file, cosm_new_file_resolve, cosm_new_file_switch, htmpl, hty]

/-- Witness of C7: slot number 3 under the sample profile and constants, where
the device-specific type is `0x1101` and the descriptor gets id `0x3003`, last
path byte `0x03` and the EF structure of an RSA-CRT key. -/
theorem cosm_new_file_device_specific_prkey_witness :
    (sample_profile 16 0).get_file "template-private-key" = .ok sample_prkey_template
    ∧ cosm_new_file sample_consts (sample_profile 16 0) 1
        (SC_DEVICE_SPECIFIC_TYPE ||| sample_consts.SC_PKCS15_TYPE_PRKEY_RSA) 3
      = cosm_new_file sample_consts (sample_profile 16 0) 1
          sample_consts.SC_PKCS15_TYPE_PRKEY_RSA 3
    ∧ cosm_new_file sample_consts (sample_profile 16 0) 1 0x1101 3
      = some (SC_SUCCESS, some
          { sample_prkey_template with
            id := 0x3003
            path := [0x3F, 0x00, 0x50, 0x11, 0x90, 0x02, 0x30, 0x03]
            ef_structure := 0xA3 }) :=
  ⟨by rfl,
    (cosm_new_file_device_specific_prkey sample_consts (sample_profile 16 0) 0 3
      sample_prkey_template (by rfl)).1,
    by decide⟩

/-! ## The primitives on a `FileCard` -/

/-- A select of an absent path on a `FileCard`. -/
theorem fc_select_absent (o : CardOracle) (s : State FileCard) (p : List Nat)
    (h : s.card.present p = false) :
    sc_select_file (fileCardPrims o) s p
      = (Rv.err ScError.FILE_NOT_FOUND, sc_file_new,
          { s with trace := s.trace ++ [CardCmd.select p] }) := by
  have hnone : s.card.files.find? (fun f => f.path == p) = none := by
    simp only [FileCard.present, List.any_eq_false] at h
    simpa using h
  simp [sc_select_file, fileCardPrims, hnone]

/-- A select of a present path on a `FileCard`. -/
theorem fc_select_present (o : CardOracle) (s : State FileCard) (p : List Nat)
    (h : s.card.present p = true) :
    ∃ f, f.path = p ∧
      sc_select_file (fileCardPrims o) s p
        = (Rv.ok 0, f,
            { s with card := { s.card with cur := p }, trace := s.trace ++ [CardCmd.select p] }) := by
  cases hf : s.card.files.find? (fun f => f.path == p) with
  | none =>
    have : s.card.present p = false := by
      simp only [FileCard.present, List.any_eq_false]
      simpa using hf
    rw [this] at h
    cases h
  | some f =>
    refine ⟨f, ?_, ?_⟩
    · simpa using List.find?_some hf
    · simp [sc_select_file, fileCardPrims, hf]

/-- An authentication on a `FileCard`. -/
theorem fc_authenticate (o : CardOracle) (s : State FileCard) (f : ScFile) (op : AcOp) :
    sc_pkcs15init_authenticate (fileCardPrims o) s f op
      = (o.authenticate f op, { s with trace := s.trace ++ [CardCmd.authenticate f op] }) := by
  simp [sc_pkcs15init_authenticate, fileCardPrims]

/-- A delete of an absent file on a `FileCard`. -/
theorem fc_delete_absent (o : CardOracle) (s : State FileCard) (idp : List Nat)
    (h : s.card.present (s.card.cur ++ idp) = false) :
    sc_delete_file (fileCardPrims o) s idp
      = (Rv.err ScError.FILE_NOT_FOUND, { s with trace := s.trace ++ [CardCmd.delete idp] }) := by
  simp [sc_delete_file, fileCardPrims, h]

/-- A delete of a present file on a `FileCard`. -/
theorem fc_delete_present (o : CardOracle) (s : State FileCard) (idp : List Nat)
    (h : s.card.present (s.card.cur ++ idp) = true) :
    sc_delete_file (fileCardPrims o) s idp
      = (Rv.ok 0,
          { s with
            card := { s.card with
              files := s.card.files.filter (fun f => !(s.card.cur ++ idp).isPrefixOf f.path) }
            trace := s.trace ++ [CardCmd.delete idp] }) := by
  simp [sc_delete_file, fileCardPrims, h]

/-- After a delete the deleted path is absent. -/
theorem fc_filter_absent (files : List ScFile) (cur p : List Nat) :
    FileCard.present
      { files := files.filter (fun f => !(p).isPrefixOf f.path), cur := cur } p = false := by
  simp only [FileCard.present, List.any_eq_false, List.mem_filter]
  rintro f ⟨_, hf⟩ hp
  have : f.path = p := by simpa using hp
  rw [this] at hf
  have hpp : p.isPrefixOf p = true := List.isPrefixOf_iff_prefix.mpr (List.prefix_refl p)
  rw [hpp] at hf
  cases hf

/-- A delete adds no path. -/
theorem fc_filter_mono (files : List ScFile) (q : ScFile → Bool) (cur cur2 p : List Nat)
    (h : FileCard.present { files := files.filter q, cur := cur } p = true) :
    FileCard.present { files := files, cur := cur2 } p = true := by
  simp only [FileCard.present, List.any_eq_true, List.mem_filter] at h ⊢
  obtain ⟨f, ⟨hf, _⟩, hp⟩ := h
  exact ⟨f, hf, hp⟩

/-- A non-negative result is no error. -/
theorem isErr_ok (n : Nat) : (Rv.ok n).isErr = false := rfl

/-- A negative result is an error. -/
theorem isErr_err (e : ScError) : (Rv.err e).isErr = true := rfl

/-- The outcome of lines 161-180 of `cosm_delete_file` on a `FileCard`. -/
theorem cosm_delete_file_in_parent_fc (o : CardOracle) (s : State FileCard) (df : ScFile) :
    (∃ new, (cosm_delete_file_in_parent (fileCardPrims o) s df).2.trace = s.trace ++ new
      ∧ ∀ a, CardCmd.ctl_generate_key a ∉ new)
    ∧ (∀ p, (cosm_delete_file_in_parent (fileCardPrims o) s df).2.card.present p = true →
        s.card.present p = true)
    ∧ ((cosm_delete_file_in_parent (fileCardPrims o) s df).1.isErr = false →
        (cosm_delete_file_in_parent (fileCardPrims o) s df).2.card.present (delete_target df)
          = false) := by
  unfold cosm_delete_file_in_parent
  simp only [fc_authenticate]
  by_cases hpar : s.card.present (df.path.take (df.path.length - 2)) = true
  · obtain ⟨pf, _, hsel⟩ := fc_select_present o s _ hpar
    simp only [hsel, isErr_ok, Bool.false_eq_true, if_false]
    by_cases he2 : (o.authenticate pf AcOp.DELETE).isErr = true
    · simp only [he2, if_true]
      exact ⟨⟨[CardCmd.select (df.path.take (df.path.length - 2)), CardCmd.authenticate pf AcOp.DELETE],
          by simp, by simp⟩, fun p hp => hp, fun h => by simp [he2] at h⟩
    · simp only [he2]
      by_cases htgt : s.card.present (delete_target df) = true
      · rw [fc_delete_present o _ _ (by simpa [delete_target] using htgt)]
        refine ⟨⟨[CardCmd.select (df.path.take (df.path.length - 2)), CardCmd.authenticate pf AcOp.DELETE,
          CardCmd.delete [(df.id >>> 8) % 256, df.id &&& 0xFF]], by simp, by simp⟩, fun p hp => ?_, fun _ => ?_⟩
        · exact fc_filter_mono _ _ _ s.card.cur _ hp
        · exact fc_filter_absent _ _ _
      · have htgt2 : s.card.present (delete_target df) = false := by
          simpa using htgt
        rw [fc_delete_absent o _ _ (by simpa [delete_target] using htgt2)]
        exact ⟨⟨[CardCmd.select (df.path.take (df.path.length - 2)), CardCmd.authenticate pf AcOp.DELETE,
          CardCmd.delete [(df.id >>> 8) % 256, df.id &&& 0xFF]], by simp, by simp⟩, fun p hp => hp, fun h => by simp [isErr_err] at h⟩
  · have hpar2 : s.card.present (df.path.take (df.path.length - 2)) = false := by
      simpa using hpar
    rw [fc_select_absent o s _ hpar2]
    simp only [isErr_err, if_true]
    exact ⟨⟨[CardCmd.select (df.path.take (df.path.length - 2))], rfl, by simp⟩, fun p hp => hp, fun h => by simp [isErr_err] at h⟩

/-- The outcome of `cosm_delete_file` on a `FileCard`: the trace only grows,
no file appears, and a result that is not an error leaves the addressed file
absent. -/
theorem cosm_delete_file_fc (o : CardOracle) (s : State FileCard) (df : ScFile) :
    (∃ new, (cosm_delete_file (fileCardPrims o) s df).2.trace = s.trace ++ new
      ∧ ∀ a, CardCmd.ctl_generate_key a ∉ new)
    ∧ (∀ p, (cosm_delete_file (fileCardPrims o) s df).2.card.present p = true →
        s.card.present p = true)
    ∧ ((cosm_delete_file (fileCardPrims o) s df).1.isErr = false →
        (cosm_delete_file (fileCardPrims o) s df).2.card.present (delete_target df) = false) := by
  unfold cosm_delete_file
  by_cases hdf : df.type = ScFileType.DF
  · simp only [hdf, if_true, fc_authenticate]
    by_cases he : (o.authenticate df AcOp.DELETE).isErr = true
    · simp only [he, if_true]
      exact ⟨⟨[CardCmd.authenticate df AcOp.DELETE], rfl, by simp⟩, fun p hp => hp, fun h => by simp [he] at h⟩
    · simp only [he, Bool.false_eq_true, if_false]
      obtain ⟨⟨new, h1, h1b⟩, h2, h3⟩ := cosm_delete_file_in_parent_fc o
        { s with trace := s.trace ++ [CardCmd.authenticate df AcOp.DELETE] } df
      refine ⟨⟨[CardCmd.authenticate df AcOp.DELETE] ++ new, ?_, ?_⟩, h2, h3⟩
      · rw [h1, List.append_assoc]
      · intro a ha
        simp only [List.mem_append, List.mem_singleton] at ha
        rcases ha with ha | ha
        · cases ha
        · exact h1b a ha
  · simp only [hdf, if_false]
    exact cosm_delete_file_in_parent_fc o s df

/-- Lines 596-597: overwriting the last two bytes of a path. -/
theorem set_last_two (L : List Nat) (a b : Nat) (h : 2 ≤ L.length) :
    (L.set (L.length - 2) a).set (L.length - 1) b = L.take (L.length - 2) ++ [a, b] := by
  have hd : (L.drop (L.length - 2)).length = 2 := by
    rw [List.length_drop]; omega
  obtain ⟨x, y, hxy⟩ := List.length_eq_two.mp hd
  have hL : L = L.take (L.length - 2) ++ [x, y] := by
    rw [← hxy, List.take_append_drop]
  have hpl : (L.take (L.length - 2)).length = L.length - 2 := by
    rw [List.length_take]; omega
  generalize L.take (L.length - 2) = pre at hL hpl
  subst hL
  have e1 : (pre ++ [x, y]).length - 2 = pre.length := by simp
  have e2 : (pre ++ [x, y]).length - 1 = pre.length + 1 := by simp
  rw [e1, e2, List.set_append_right _ _ (Nat.le_refl _), Nat.sub_self,
    List.set_append_right _ _ (by omega)]
  simp

/-- The temporary file built for a private key file with a path of at least two
bytes. -/
theorem cosm_get_temporary_public_key_file_fields (c : Consts) (prkf : ScFile)
    (hlen : 2 ≤ prkf.path.length) :
    (cosm_get_temporary_public_key_file c prkf).1 = Rv.ok 0
    ∧ (cosm_get_temporary_public_key_file c prkf).2.id = 0x1012
    ∧ (cosm_get_temporary_public_key_file c prkf).2.path
        = prkf.path.take (prkf.path.length - 2) ++ [0x10, 0x12]
    ∧ (cosm_get_temporary_public_key_file c prkf).2.type = ScFileType.INTERNAL_EF
    ∧ (cosm_get_temporary_public_key_file c prkf).2.size = prkf.size := by
  refine ⟨?_, ?_, ?_, ?_, ?_⟩ <;>
    simp [cosm_get_temporary_public_key_file, sc_file_add_acl_entry, sc_file_new]
  exact set_last_two prkf.path 0x10 0x12 hlen

/-- A create of an absent path on a `FileCard`. -/
theorem fc_create_absent (o : CardOracle) (s : State FileCard) (f : ScFile)
    (h : s.card.files.any (fun g => g.path == f.path) = false) :
    sc_pkcs15init_create_file (fileCardPrims o) s f
      = (Rv.ok 0,
          { s with
            card := { s.card with files := s.card.files ++ [f] }
            trace := s.trace ++ [CardCmd.create f] }) := by
  have h2 : s.card.present f.path = false := h
  simp [sc_pkcs15init_create_file, fileCardPrims, h2]

/-- A create of a present path on a `FileCard`. -/
theorem fc_create_present (o : CardOracle) (s : State FileCard) (f : ScFile)
    (h : s.card.files.any (fun g => g.path == f.path) = true) :
    sc_pkcs15init_create_file (fileCardPrims o) s f
      = (Rv.err ScError.FILE_ALREADY_EXISTS, { s with trace := s.trace ++ [CardCmd.create f] }) := by
  have h2 : s.card.present f.path = true := h
  simp [sc_pkcs15init_create_file, fileCardPrims, h2]

/-- A generate-key request on a `FileCard`. -/
theorem fc_generate_key (o : CardOracle) (s : State FileCard) (args : GenkeyInfo) :
    sc_card_ctl_generate_key (fileCardPrims o) s args
      = ((o.generate_key args).1, (o.generate_key args).2,
          { s with trace := s.trace ++ [CardCmd.ctl_generate_key args] }) := by
  simp [sc_card_ctl_generate_key, fileCardPrims]

/-- A select of an absent path, on a state written out in full. -/
theorem fc_select_absent_lit (o : CardOracle) (files : List ScFile) (cur : List Nat)
    (tr : List CardCmd) (lab : Option (List Nat)) (fl : Nat) (sp : Option P15Spec)
    (p : List Nat) (h : files.any (fun f => f.path == p) = false) :
    sc_select_file (fileCardPrims o)
        { card := { files := files, cur := cur }, trace := tr, label := lab, flags := fl,
          p15_spec := sp } p
      = (Rv.err ScError.FILE_NOT_FOUND, sc_file_new,
          { card := { files := files, cur := cur }, trace := tr ++ [CardCmd.select p],
            label := lab, flags := fl, p15_spec := sp }) :=
  fc_select_absent o _ p h

/-- A select of a present path, on a state written out in full. -/
theorem fc_select_present_lit (o : CardOracle) (files : List ScFile) (cur : List Nat)
    (tr : List CardCmd) (lab : Option (List Nat)) (fl : Nat) (sp : Option P15Spec)
    (p : List Nat) (h : files.any (fun f => f.path == p) = true) :
    ∃ f, f.path = p ∧
      sc_select_file (fileCardPrims o)
          { card := { files := files, cur := cur }, trace := tr, label := lab, flags := fl,
            p15_spec := sp } p
        = (Rv.ok 0, f,
            { card := { files := files, cur := p }, trace := tr ++ [CardCmd.select p],
              label := lab, flags := fl, p15_spec := sp }) :=
  fc_select_present o _ p h

/-- A create of an absent path, on a state written out in full. -/
theorem fc_create_absent_lit (o : CardOracle) (files : List ScFile) (cur : List Nat)
    (tr : List CardCmd) (lab : Option (List Nat)) (fl : Nat) (sp : Option P15Spec)
    (f : ScFile) (h : files.any (fun g => g.path == f.path) = false) :
    sc_pkcs15init_create_file (fileCardPrims o)
        { card := { files := files, cur := cur }, trace := tr, label := lab, flags := fl,
          p15_spec := sp } f
      = (Rv.ok 0,
          { card := { files := files ++ [f], cur := cur }, trace := tr ++ [CardCmd.create f],
            label := lab, flags := fl, p15_spec := sp }) :=
  fc_create_absent o _ f h

/-- A create of a present path, on a state written out in full. -/
theorem fc_create_present_lit (o : CardOracle) (files : List ScFile) (cur : List Nat)
    (tr : List CardCmd) (lab : Option (List Nat)) (fl : Nat) (sp : Option P15Spec)
    (f : ScFile) (h : files.any (fun g => g.path == f.path) = true) :
    sc_pkcs15init_create_file (fileCardPrims o)
        { card := { files := files, cur := cur }, trace := tr, label := lab, flags := fl,
          p15_spec := sp } f
      = (Rv.err ScError.FILE_ALREADY_EXISTS,
          { card := { files := files, cur := cur }, trace := tr ++ [CardCmd.create f],
            label := lab, flags := fl, p15_spec := sp }) :=
  fc_create_present o _ f h

/-- Lines 657-694 of `cosm_generate_key` on a `FileCard` that holds the
temporary file `tmpf` at `tp`, after the commands `pre`. -/
theorem cosm_generate_key_run_fc (o : CardOracle) (s : State FileCard) (t0 pre : List CardCmd)
    (key_info : PrkeyInfo) (prkf tmpf : ScFile) (tp : List Nat)
    (htr : s.trace = t0 ++ pre) (hcreate : CardCmd.create tmpf ∈ pre)
    (hid : tmpf.id = 0x1012) (hpath : tmpf.path = tp)
    (htp : tp = tmpf.path.take (tmpf.path.length - 2) ++ [0x10, 0x12])
    (hnodel : ∀ p, CardCmd.delete p ∉ pre) (hnoctl : ∀ a, CardCmd.ctl_generate_key a ∉ pre)
    (hpres : s.card.present tp = true) :
    ∃ new,
      (cosm_generate_key_run (fileCardPrims o) s key_info prkf tmpf).2.2.2.trace = t0 ++ new
      ∧ ((cosm_generate_key_run (fileCardPrims o) s key_info prkf tmpf).1.isErr = false →
          (∃ f, CardCmd.create f ∈ new ∧ f.id = 0x1012 ∧ f.path = tp)
          ∧ (cosm_generate_key_run (fileCardPrims o) s key_info prkf tmpf).2.2.2.card.present tp
              = false)
      ∧ (∀ args, CardCmd.ctl_generate_key args ∈ new → (o.generate_key args).1.isErr = true →
          (cosm_generate_key_run (fileCardPrims o) s key_info prkf tmpf).1
            = (o.generate_key args).1
          ∧ (∀ p, CardCmd.delete p ∉ new)
          ∧ (∃ f, CardCmd.create f ∈ new ∧ f.id = 0x1012 ∧ f.path = tp)
          ∧ (cosm_generate_key_run (fileCardPrims o) s key_info prkf tmpf).2.2.2.card.present tp
              = true) := by
  unfold cosm_generate_key_run
  simp only [fc_generate_key]
  generalize GenkeyInfo.mk prkf.id tmpf.id 0x10001 key_info.modulus_length
    (key_info.modulus_length / 8) = args0
  by_cases hg : (o.generate_key args0).1.isErr = true
  · simp only [hg, if_true]
    refine ⟨pre ++ [CardCmd.ctl_generate_key args0], by simp [htr], fun h => by simp [hg] at h,
      fun args hmem _ => ?_⟩
    have hargs2 : args = args0 := by
      simp only [List.mem_append, List.mem_singleton] at hmem
      rcases hmem with hmem | hmem
      · exact absurd hmem (hnoctl args)
      · cases hmem; rfl
    subst hargs2
    refine ⟨rfl, fun p hp => ?_, ⟨tmpf, by simp [hcreate], hid, hpath⟩, hpres⟩
    simp only [List.mem_append, List.mem_singleton] at hp
    rcases hp with hp | hp
    · exact hnodel p hp
    · cases hp
  · simp only [hg, Bool.false_eq_true, if_false]
    obtain ⟨⟨newd, hd1, hd2⟩, _, hd4⟩ := cosm_delete_file_fc o
      { s with trace := s.trace ++ [CardCmd.ctl_generate_key args0] } tmpf
    have htgt : delete_target tmpf = tp := by
      rw [htp, delete_target, hid]
      rfl
    refine ⟨pre ++ [CardCmd.ctl_generate_key args0] ++ newd, ?_, fun h => ?_, fun args hmem hfail => ?_⟩
    · rw [hd1]
      simp [htr]
    · refine ⟨⟨tmpf, by simp [hcreate], hid, hpath⟩, ?_⟩
      rw [← htgt]
      exact hd4 h
    · exfalso
      simp only [List.mem_append, List.mem_singleton] at hmem
      rcases hmem with (hmem | hmem) | hmem
      · exact hnoctl args hmem
      · cases hmem
        exact hg hfail
      · exact hd2 args hmem

/-- C8: on a card with an explicit set of files and for a private key path of
at least two bytes, with `tmp` the path of the key's parent DF followed by
`10 12`: whenever `cosm_generate_key` does not return an error, it has
created the file of id `0x1012` at `tmp` and `tmp` is no longer on the card;
and whenever its generate-key request fails, it returns that failure, has
issued no delete, and the file it created at `tmp` is still on the card. -/
theorem cosm_generate_key_temporary_file (c : Consts) (o : CardOracle) (st : State FileCard)
    (ty : Nat) (key_info : PrkeyInfo) (hlen : 2 ≤ key_info.path.length) :
    ∃ new,
      (cosm_generate_key c (fileCardPrims o) st ty key_info).2.2.2.trace = st.trace ++ new
      ∧ ((cosm_generate_key c (fileCardPrims o) st ty key_info).1.isErr = false →
          (∃ f, CardCmd.create f ∈ new ∧ f.id = 0x1012
            ∧ f.path = key_info.path.take (key_info.path.length - 2) ++ [0x10, 0x12])
          ∧ (cosm_generate_key c (fileCardPrims o) st ty key_info).2.2.2.card.present
              (key_info.path.take (key_info.path.length - 2) ++ [0x10, 0x12]) = false)
      ∧ (∀ args, CardCmd.ctl_generate_key args ∈ new → (o.generate_key args).1.isErr = true →
          (cosm_generate_key c (fileCardPrims o) st ty key_info).1 = (o.generate_key args).1
          ∧ (∀ p, CardCmd.delete p ∉ new)
          ∧ (∃ f, CardCmd.create f ∈ new ∧ f.id = 0x1012
            ∧ f.path = key_info.path.take (key_info.path.length - 2) ++ [0x10, 0x12])
          ∧ (cosm_generate_key c (fileCardPrims o) st ty key_info).2.2.2.card.present
              (key_info.path.take (key_info.path.length - 2) ++ [0x10, 0x12]) = true) := by
  unfold cosm_generate_key
  by_cases hty : ty = c.SC_PKCS15_TYPE_PRKEY_RSA
  swap
  · rw [if_pos hty]
    exact ⟨[], by simp, fun h => by simp [isErr_err] at h, fun args h => by simp at h⟩
  rw [if_neg (by simpa using hty)]
  simp only [fc_authenticate]
  -- select of the parent DF
  by_cases hp1 : st.card.present (key_info.path.take (key_info.path.length - 2)) = true
  swap
  · have hp1b : st.card.present (key_info.path.take (key_info.path.length - 2)) = false := by
      simpa using hp1
    rw [fc_select_absent o st _ hp1b]
    rw [if_pos (isErr_err _)]
    exact ⟨[CardCmd.select (key_info.path.take (key_info.path.length - 2))], rfl,
      fun h => by simp [isErr_err] at h, fun args h => by simp at h⟩
  obtain ⟨pf, _, hsel1⟩ := fc_select_present o st _ hp1
  simp only [hsel1, isErr_ok, Bool.false_eq_true, if_false]
  -- the two authentications
  by_cases ha1 : (o.authenticate pf AcOp.CRYPTO).isErr = true
  · simp only [ha1, if_true]
    exact ⟨[CardCmd.select (key_info.path.take (key_info.path.length - 2)),
        CardCmd.authenticate pf AcOp.CRYPTO], by simp,
      fun h => by simp [ha1] at h, fun args h => by simp at h⟩
  simp only [ha1, Bool.false_eq_true, if_false]
  by_cases ha2 : (o.authenticate pf AcOp.CREATE).isErr = true
  · simp only [ha2, if_true]
    exact ⟨[CardCmd.select (key_info.path.take (key_info.path.length - 2)),
        CardCmd.authenticate pf AcOp.CRYPTO, CardCmd.authenticate pf AcOp.CREATE], by simp,
      fun h => by simp [ha2] at h, fun args h => by simp at h⟩
  simp only [ha2, Bool.false_eq_true, if_false]
  -- select of the private key file
  by_cases hp2 : st.card.files.any (fun f => f.path == key_info.path) = true
  swap
  · have hp2b : st.card.files.any (fun f => f.path == key_info.path) = false := by
      simpa using hp2
    rw [fc_select_absent_lit o _ _ _ _ _ _ _ hp2b]
    rw [if_pos (isErr_err _)]
    exact ⟨[CardCmd.select (key_info.path.take (key_info.path.length - 2)),
        CardCmd.authenticate pf AcOp.CRYPTO, CardCmd.authenticate pf AcOp.CREATE,
        CardCmd.select key_info.path], by simp,
      fun h => by simp [isErr_err] at h, fun args h => by simp at h⟩
  obtain ⟨prkf, hprkf, hsel2⟩ := fc_select_present_lit o st.card.files
    (key_info.path.take (key_info.path.length - 2))
    (st.trace ++ [CardCmd.select (key_info.path.take (key_info.path.length - 2))]
      ++ [CardCmd.authenticate pf AcOp.CRYPTO] ++ [CardCmd.authenticate pf AcOp.CREATE])
    st.label st.flags st.p15_spec key_info.path hp2
  simp only [hsel2, isErr_ok, Bool.false_eq_true, if_false]
  -- the temporary file
  have hlen2 : 2 ≤ prkf.path.length := by rw [hprkf]; exact hlen
  obtain ⟨ht1, ht2, ht3, _, _⟩ := cosm_get_temporary_public_key_file_fields c prkf hlen2
  rw [hprkf] at ht3
  simp only [ht1, isErr_ok, Bool.false_eq_true, if_false]
  generalize (cosm_get_temporary_public_key_file c prkf).2 = tmpf at ht2 ht3 ⊢
  by_cases hp3 : st.card.files.any (fun g => g.path == tmpf.path) = true
  · rw [fc_create_present_lit o _ _ _ _ _ _ tmpf hp3]
    rw [if_pos (isErr_err _)]
    exact ⟨[CardCmd.select (key_info.path.take (key_info.path.length - 2)),
        CardCmd.authenticate pf AcOp.CRYPTO, CardCmd.authenticate pf AcOp.CREATE,
        CardCmd.select key_info.path, CardCmd.create tmpf], by simp,
      fun h => by simp [isErr_err] at h, fun args h => by simp at h⟩
  have hp3b : st.card.files.any (fun g => g.path == tmpf.path) = false := by
    simpa using hp3
  rw [fc_create_absent_lit o _ _ _ _ _ _ tmpf hp3b]
  rw [if_neg (by simp [isErr_ok])]
  have htl : (tmpf.path.take (tmpf.path.length - 2)) ++ [0x10, 0x12]
      = key_info.path.take (key_info.path.length - 2) ++ [0x10, 0x12] := by
    rw [ht3]
    simp
  refine cosm_generate_key_run_fc o _ st.trace
    [CardCmd.select (key_info.path.take (key_info.path.length - 2)),
      CardCmd.authenticate pf AcOp.CRYPTO, CardCmd.authenticate pf AcOp.CREATE,
      CardCmd.select key_info.path, CardCmd.create tmpf] key_info prkf tmpf _
    (by simp) (by simp) ht2 ht3 htl.symm (by simp) (by simp) ?_
  simp [FileCard.present, ht3]

/-- Witness of C8: a key of the sample card; the run succeeds, issues the
create of the file of id `0x1012` and leaves no file at `3F00 5011 9002 1012`. -/
theorem cosm_generate_key_temporary_file_witness :
    2 ≤ sample_key_info.path.length
    ∧ (cosm_generate_key sample_consts (fileCardPrims sample_oracle)
        (sample_state sample_card_key) 0x101 sample_key_info).1 = Rv.ok 0
    ∧ (cosm_generate_key sample_consts (fileCardPrims sample_oracle)
        (sample_state sample_card_key) 0x101 sample_key_info).2.2.2.card.present
          [0x3F, 0x00, 0x50, 0x11, 0x90, 0x02, 0x10, 0x12] = false
    ∧ ∃ new,
      (cosm_generate_key sample_consts (fileCardPrims sample_oracle)
        (sample_state sample_card_key) 0x101 sample_key_info).2.2.2.trace
        = (sample_state sample_card_key).trace ++ new
      ∧ ((cosm_generate_key sample_consts (fileCardPrims sample_oracle)
          (sample_state sample_card_key) 0x101 sample_key_info).1.isErr = false →
          (∃ f, CardCmd.create f ∈ new ∧ f.id = 0x1012
            ∧ f.path = sample_key_info.path.take (sample_key_info.path.length - 2)
                ++ [0x10, 0x12])
          ∧ (cosm_generate_key sample_consts (fileCardPrims sample_oracle)
              (sample_state sample_card_key) 0x101 sample_key_info).2.2.2.card.present
              (sample_key_info.path.take (sample_key_info.path.length - 2) ++ [0x10, 0x12])
              = false)
      ∧ (∀ args, CardCmd.ctl_generate_key args ∈ new →
          (sample_oracle.generate_key args).1.isErr = true →
          (cosm_generate_key sample_consts (fileCardPrims sample_oracle)
            (sample_state sample_card_key) 0x101 sample_key_info).1
            = (sample_oracle.generate_key args).1
          ∧ (∀ p, CardCmd.delete p ∉ new)
          ∧ (∃ f, CardCmd.create f ∈ new ∧ f.id = 0x1012
            ∧ f.path = sample_key_info.path.take (sample_key_info.path.length - 2)
                ++ [0x10, 0x12])
          ∧ (cosm_generate_key sample_consts (fileCardPrims sample_oracle)
              (sample_state sample_card_key) 0x101 sample_key_info).2.2.2.card.present
              (sample_key_info.path.take (sample_key_info.path.length - 2) ++ [0x10, 0x12])
              = true) :=
  ⟨by decide, by decide, by decide,
    cosm_generate_key_temporary_file sample_consts sample_oracle (sample_state sample_card_key)
      0x101 sample_key_info (by decide)⟩

/-! ## Erasing the card -/

/-- C10, the failing input: with the sample profile, whose TokenInfo file has
16 bytes, on a card that holds only the master file and with no label on the
card or in the profile, `cosm_create_dir` succeeds and its last command writes
the TokenInfo record `OpenSC-Toke`, one space, `00 00 04 01`: the flags are
`0x0401`, but the label has lost its twelfth character, so the record is not
the label `OpenSC-Token` fitted to 12 bytes followed by `00 00 04 01`. -/
theorem cosm_create_dir_label_size_16 :
    (cosm_create_dir sample_consts (fileCardPrims sample_oracle) (sample_profile 16 0)
        (sample_state sample_card) sample_root_df).1 = SC_SUCCESS
    ∧ (cosm_create_dir sample_consts (fileCardPrims sample_oracle) (sample_profile 16 0)
        (sample_state sample_card) sample_root_df).2.trace.getLast?
        = some (CardCmd.update (sample_token_info 16)
            [79, 112, 101, 110, 83, 67, 45, 84, 111, 107, 101, 0x20, 0, 0, 0x04, 0x01])
    ∧ (cosm_create_dir sample_consts (fileCardPrims sample_oracle) (sample_profile 16 0)
        (sample_state sample_card) sample_root_df).2.trace.getLast?
        ≠ some (CardCmd.update (sample_token_info 16)
            (label_fit OPENSC_TOKEN (16 - 4) ++ [0, 0, 0x04, 0x01])) := by
  refine ⟨by decide, by decide, by decide⟩

/-- The buffer of `cosm_write_tokeninfo` when no label is passed and the label
`L` in use (of the card, of the profile, or the default) goes through
`snprintf`: only `size - 5` characters of `L` are kept. -/
theorem tokeninfo_buffer_snprintf (n : Nat) (L : List Nat) (lo hi : Nat) (hn : 1 ≤ n)
    (hL : ∀ b ∈ L, b ≠ 0) :
    (((memset
        (if strlen (snprintf (List.replicate (n + 4) 0) n L) < n then
          memset (snprintf (List.replicate (n + 4) 0) n L)
            (strlen (snprintf (List.replicate (n + 4) 0) n L)) 0x20
            (n + 4 - strlen (snprintf (List.replicate (n + 4) 0) n L))
        else snprintf (List.replicate (n + 4) 0) n L) n 0 4).set (n + 3) lo).set (n + 2) hi)
      = label_fit (L.take (n - 1)) n ++ [0, 0, hi, lo] := by
  have hT : ∀ b ∈ L.take (n - 1), b ≠ 0 := fun b hb => hL b (List.mem_of_mem_take hb)
  have hn0 : ¬ n = 0 := by omega
  have h1 : snprintf (List.replicate (n + 4) 0) n L
      = L.take (n - 1) ++ 0 :: List.replicate (n + 4 - (min L.length (n - 1) + 1)) 0 := by
    simp only [snprintf, hn0, if_false, cstr_eq_self L hL, List.drop_replicate,
      List.append_assoc, List.singleton_append]
  have h2 : strlen (snprintf (List.replicate (n + 4) 0) n L) = min (n - 1) L.length := by
    rw [h1, strlen, cstr_append_zero _ _ hT, List.length_take]
  have hlt : min (n - 1) L.length < n := by omega
  have hlenT : (L.take (n - 1)).length = min (n - 1) L.length := List.length_take _ _
  have hm : memset (L.take (n - 1) ++ 0 :: List.replicate (n + 4 - (min L.length (n - 1) + 1)) 0)
      (min (n - 1) L.length) 0x20 (n + 4 - min (n - 1) L.length)
      = label_fit (L.take (n - 1)) n ++ List.replicate 4 0x20 := by
    have hd : List.drop (min (n - 1) L.length + (n + 4 - min (n - 1) L.length))
        (L.take (n - 1) ++ 0 :: List.replicate (n + 4 - (min L.length (n - 1) + 1)) 0) = [] := by
      apply List.drop_eq_nil_of_le
      simp
      omega
    simp only [memset, hd, List.append_nil, label_fit, List.append_assoc,
      List.append_replicate_replicate, List.take_take, hlenT]
    rw [← hlenT, List.take_left, hlenT]
    have e1 : min (n - 1) (n - 1) = n - 1 := Nat.min_self _
    have e2 : min n (n - 1) = n - 1 := by omega
    simp only [e1, e2]
    congr 2
    omega
  rw [h2, if_pos hlt, h1, hm]
  exact tokeninfo_tail _ _ n _ _ (by simp [label_fit]) (by simp)

/-- The buffer of `cosm_write_tokeninfo` for the default label: for a size of
at least 17 it holds all of `OpenSC-Token`. -/
theorem tokeninfo_buffer_default (c : Consts) (n p : Nat) (spec : Option P15Spec)
    (hn : 13 ≤ n) (hspec : spec.bind (fun sp => sp.label) = none) :
    cosm_tokeninfo_buffer c (n + 4) none none spec p
      = label_fit OPENSC_TOKEN n ++
        [0, 0, (cosm_tokeninfo_flags c p >>> 8) &&& 0xFF, cosm_tokeninfo_flags c p &&& 0xFF] := by
  have h := tokeninfo_buffer_snprintf n OPENSC_TOKEN (cosm_tokeninfo_flags c p &&& 0xFF)
    ((cosm_tokeninfo_flags c p >>> 8) &&& 0xFF) (by omega) (by decide)
  have htake : OPENSC_TOKEN.take (n - 1) = OPENSC_TOKEN :=
    List.take_of_length_le (by simp [OPENSC_TOKEN]; omega)
  rw [htake] at h
  simp only [cosm_tokeninfo_buffer, hspec, Nat.add_sub_cancel]
  rw [show n + 4 - 1 = n + 3 by omega, show n + 4 - 2 = n + 2 by omega]
  exact h

/-- The loop of `cosm_create_dir` when every name is defined and no create
fails: it ends with `ok`, and changes neither labels nor flags. -/
theorem cosm_create_dir_loop_ok {σ : Type} (P : CardPrims σ) (profile : Profile)
    (hcreate : ∀ card f, (P.create_file card f).1.isErr = false)
    (names : List String) (hnames : ∀ name ∈ names, ∃ f, profile.get_file name = .ok f)
    (s : State σ) :
    (cosm_create_dir_loop P profile names s).1 = Rv.ok 0
    ∧ (cosm_create_dir_loop P profile names s).2.label = s.label
    ∧ (cosm_create_dir_loop P profile names s).2.p15_spec = s.p15_spec
    ∧ ∃ new, (cosm_create_dir_loop P profile names s).2.trace = s.trace ++ new := by
  induction names generalizing s with
  | nil => exact ⟨rfl, rfl, rfl, [], by simp [cosm_create_dir_loop]⟩
  | cons name rest ih =>
    obtain ⟨f, hf⟩ := hnames name (List.mem_cons_self _ _)
    have hrest : ∀ nm ∈ rest, ∃ f, profile.get_file nm = .ok f :=
      fun nm h => hnames nm (List.mem_cons_of_mem _ h)
    have hc := hcreate s.card f
    simp only [cosm_create_dir_loop, hf, sc_pkcs15init_create_file, hc, Bool.false_eq_true,
      and_false, if_false]
    obtain ⟨i1, i2, i3, new, i4⟩ := ih hrest
      { s with card := (P.create_file s.card f).2, trace := s.trace ++ [CardCmd.create f] }
    exact ⟨i1, i2, i3, [CardCmd.create f] ++ new, by rw [i4, List.append_assoc]⟩

/-- The device flags that `cosm_create_dir` writes are `0x0401`. -/
theorem create_dir_flags (c : Consts) (hc : c.card_flags_disjoint) :
    cosm_tokeninfo_flags c
      (c.SC_PKCS15_CARD_FLAG_TOKEN_INITIALIZED ||| c.SC_PKCS15_CARD_FLAG_PRN_GENERATION)
      = 0x0401 := by
  have h := status_flags_encode c hc
    { prn_generation := true, login_required := false, user_pin_initialized := false,
      token_initialized := true }
  have hp : StatusBits.p15_flags c
      { prn_generation := true, login_required := false, user_pin_initialized := false,
        token_initialized := true }
      = c.SC_PKCS15_CARD_FLAG_TOKEN_INITIALIZED ||| c.SC_PKCS15_CARD_FLAG_PRN_GENERATION := by
    simp [StatusBits.p15_flags, Nat.or_comm]
  rw [hp] at h
  rw [h]
  decide

/-- Scenario A for a TokenInfo size of at least 17: for a profile that defines
the eight files of `create_dfs`, with no label on the card or in the profile,
when no create and no update fails, `cosm_create_dir` succeeds and its last
command writes the TokenInfo record that holds all of `OpenSC-Token`, spaces
up to `size - 4`, and `00 00 04 01`. -/
theorem cosm_create_dir_scenario_a_from_17 {σ : Type} (c : Consts) (P : CardPrims σ)
    (profile : Profile) (st : State σ) (df tok : ScFile)
    (hc : c.card_flags_disjoint)
    (hnames : ∀ name ∈ create_dfs, ∃ f, profile.get_file name = .ok f)
    (htok : profile.get_file "OberthurAWP-token-info" = .ok tok) (hsize : 17 ≤ tok.size)
    (hlabel : st.label = none) (hspec : st.p15_spec.bind (fun sp => sp.label) = none)
    (hcreate : ∀ card f, (P.create_file card f).1.isErr = false)
    (hupdate : ∀ card f d, (P.update_file card f d).1.isErr = false) :
    (cosm_create_dir c P profile st df).1 = SC_SUCCESS
    ∧ ∃ pre, (cosm_create_dir c P profile st df).2.trace
        = st.trace ++ pre ++ [CardCmd.update tok
            (label_fit OPENSC_TOKEN (tok.size - 4) ++ [0, 0, 0x04, 0x01])] := by
  obtain ⟨n, hn⟩ : ∃ n, tok.size = n + 4 := ⟨tok.size - 4, by omega⟩
  have hc0 := hcreate st.card df
  have key := cosm_create_dir_loop_ok P profile hcreate create_dfs hnames
    { st with card := (P.create_file st.card df).2, trace := st.trace ++ [CardCmd.create df] }
  have hnot : ¬ tok.size < 16 := by omega
  have hbuf := tokeninfo_buffer_default c n
    (c.SC_PKCS15_CARD_FLAG_TOKEN_INITIALIZED ||| c.SC_PKCS15_CARD_FLAG_PRN_GENERATION)
    st.p15_spec (by omega) hspec
  rw [create_dir_flags c hc, show ((0x0401 : Nat) >>> 8) &&& 0xFF = 0x04 by decide,
    show (0x0401 : Nat) &&& 0xFF = 0x01 by decide] at hbuf
  have hnot2 : ¬ n + 4 < 16 := by omega
  simp only [cosm_create_dir, sc_pkcs15init_create_file, hc0, Bool.false_eq_true, if_false]
  generalize cosm_create_dir_loop P profile create_dfs
    { st with card := (P.create_file st.card df).2, trace := st.trace ++ [CardCmd.create df] }
    = r at key ⊢
  obtain ⟨l1, l2, l3, new, l4⟩ := key
  simp only at l2 l3 l4
  rw [hlabel] at l2
  simp only [l1, isErr_ok, Bool.false_eq_true, if_false, cosm_write_tokeninfo, htok, hnot2,
    sc_pkcs15init_update_file, l2, l3, l4, hn, hbuf, Nat.add_sub_cancel]
  refine ⟨?_, [CardCmd.create df] ++ new, by simp⟩
  have hu := hupdate r.2.card tok (label_fit OPENSC_TOKEN n ++ [0, 0, 0x04, 0x01])
  revert hu
  cases (P.update_file r.2.card tok (label_fit OPENSC_TOKEN n ++ [0, 0, 0x04, 0x01])).1 with
  | ok k =>
    intro _
    cases k <;> simp [Rv.isPos, SC_SUCCESS]
  | err e => intro hu; simp [Rv.isErr] at hu

/-- Scenario A at size 17 on the accepting card: the hypotheses of
`cosm_create_dir_scenario_a_from_17` hold for the sample profile. -/
theorem cosm_create_dir_scenario_a_from_17_witness :
    (cosm_create_dir sample_consts accepting_prims (sample_profile 17 0) accepting_state
        sample_root_df).1 = SC_SUCCESS
    ∧ ∃ pre, (cosm_create_dir sample_consts accepting_prims (sample_profile 17 0)
        accepting_state sample_root_df).2.trace
        = accepting_state.trace ++ pre ++ [CardCmd.update (sample_token_info 17)
            (label_fit OPENSC_TOKEN ((sample_token_info 17).size - 4) ++ [0, 0, 0x04, 0x01])] :=
  cosm_create_dir_scenario_a_from_17 sample_consts accepting_prims (sample_profile 17 0)
    accepting_state sample_root_df (sample_token_info 17)
    (by unfold Consts.card_flags_disjoint; decide)
    (by
      intro name hname
      simp only [create_dfs, List.mem_cons, List.mem_singleton, List.not_mem_nil, or_false]
        at hname
      rcases hname with h | h | h | h | h | h | h | h <;> subst h <;> exact ⟨_, rfl⟩)
    (by rfl) (by decide) rfl rfl (fun _ _ => rfl) (fun _ _ _ => rfl)

/-! ## Guards and status flags of `cosm_write_tokeninfo` -/

/-- Bit `i` of `~m` on 32 bits: set when `i < 32` and bit `i` of `m` is clear. -/
theorem testBit_bnot32 (m i : Nat) :
    (bnot32 m).testBit i = (decide (i < 32) && !m.testBit i) := by
  unfold bnot32
  have h : m % 4294967296 < 2 ^ 32 := Nat.mod_lt _ (by decide)
  have key := Nat.testBit_two_pow_sub_succ h i
  rw [show (0xFFFFFFFF : Nat) - m % 4294967296 = 2 ^ 32 - (m % 4294967296 + 1) by omega]
  rw [key, show (4294967296 : Nat) = 2 ^ 32 by norm_num, Nat.testBit_mod_two_pow]
  by_cases hi : i < 32 <;> simp [hi]

/-- A value masked with `m` has no bit of `~m`. -/
theorem and_mask_bnot32 (t m : Nat) : (t &&& m) &&& bnot32 m = 0 := by
  apply Nat.eq_of_testBit_eq
  intro i
  simp only [Nat.testBit_and, testBit_bnot32, Nat.zero_testBit]
  cases t.testBit i <;> cases m.testBit i <;> simp

/-- The statement `flags = (flags & ~m) | p` leaves the bits of `m` equal to
those of `p`. -/
theorem mask_update_and (f p m : Nat) : ((f &&& bnot32 m) ||| p) &&& m = p &&& m := by
  apply Nat.eq_of_testBit_eq
  intro i
  simp only [Nat.testBit_and, Nat.testBit_or, testBit_bnot32]
  cases f.testBit i <;> cases m.testBit i <;> cases p.testBit i <;> simp

/-- C11: when the profile has no TokenInfo template, or the template is smaller
than 16 bytes, `cosm_write_tokeninfo` returns `SC_ERROR_INCONSISTENT_PROFILE`
and the state is the one before the call: the card is untouched and no command
is added to the trace (no update is issued), and the flags of the card and of
`p15_spec` are the ones before the call. -/
theorem cosm_write_tokeninfo_inconsistent_profile {σ : Type} (c : Consts) (P : CardPrims σ)
    (profile : Profile) (st : State σ) (label : Option (List Nat)) (p15_flags : Nat)
    (h : (∃ e, profile.get_file "OberthurAWP-token-info" = .error e)
      ∨ (∃ file, profile.get_file "OberthurAWP-token-info" = .ok file ∧ file.size < 16)) :
    (cosm_write_tokeninfo c P profile st label p15_flags).1
        = Rv.err ScError.INCONSISTENT_PROFILE
    ∧ (cosm_write_tokeninfo c P profile st label p15_flags).2 = st
    ∧ (cosm_write_tokeninfo c P profile st label p15_flags).2.trace = st.trace
    ∧ (cosm_write_tokeninfo c P profile st label p15_flags).2.flags = st.flags
    ∧ (cosm_write_tokeninfo c P profile st label p15_flags).2.p15_spec = st.p15_spec := by
  have key : cosm_write_tokeninfo c P profile st label p15_flags
      = (Rv.err ScError.INCONSISTENT_PROFILE, st) := by
    rcases h with ⟨e, he⟩ | ⟨file, hf, hs⟩
    · simp [cosm_write_tokeninfo, he]
    · simp [cosm_write_tokeninfo, hf, hs]
  rw [key]
  exact ⟨rfl, rfl, rfl, rfl, rfl⟩

/-- Witness of C11: the sample profile with a TokenInfo file of 15 bytes, on a
session whose card and profile hold the flag word `0x02`. -/
theorem cosm_write_tokeninfo_inconsistent_profile_witness :
    ((∃ e, (sample_profile 15 0).get_file "OberthurAWP-token-info" = .error e)
      ∨ (∃ file, (sample_profile 15 0).get_file "OberthurAWP-token-info" = .ok file
          ∧ file.size < 16))
    ∧ (cosm_write_tokeninfo sample_consts accepting_prims (sample_profile 15 0)
        (spec_state 0x02) none 0x80).1 = Rv.err ScError.INCONSISTENT_PROFILE
    ∧ (cosm_write_tokeninfo sample_consts accepting_prims (sample_profile 15 0)
        (spec_state 0x02) none 0x80).2.trace = [] :=
  ⟨Or.inr ⟨sample_token_info 15, by rfl, by decide⟩,
    (cosm_write_tokeninfo_inconsistent_profile sample_consts accepting_prims
      (sample_profile 15 0) (spec_state 0x02) none 0x80
      (Or.inr ⟨sample_token_info 15, by rfl, by decide⟩)).1,
    (cosm_write_tokeninfo_inconsistent_profile sample_consts accepting_prims
      (sample_profile 15 0) (spec_state 0x02) none 0x80
      (Or.inr ⟨sample_token_info 15, by rfl, by decide⟩)).2.2.1⟩

/-- Past the two guards, `cosm_write_tokeninfo` issues one update, returns its
result with a positive count turned into 0, and assigns the flags of the card
and of `p15_spec` whatever that result is. -/
theorem cosm_write_tokeninfo_past_guards {σ : Type} (c : Consts) (P : CardPrims σ)
    (profile : Profile) (st : State σ) (file : ScFile) (label : Option (List Nat)) (p : Nat)
    (hfile : profile.get_file "OberthurAWP-token-info" = .ok file) (hsize : 16 ≤ file.size) :
    cosm_write_tokeninfo c P profile st label p =
      ((if (P.update_file st.card file
              (cosm_tokeninfo_buffer c file.size label st.label st.p15_spec p)).1.isPos
          then Rv.ok 0
          else (P.update_file st.card file
              (cosm_tokeninfo_buffer c file.size label st.label st.p15_spec p)).1),
        { card := (P.update_file st.card file
              (cosm_tokeninfo_buffer c file.size label st.label st.p15_spec p)).2
          trace := st.trace ++ [CardCmd.update file
              (cosm_tokeninfo_buffer c file.size label st.label st.p15_spec p)]
          label := st.label
          flags := (st.flags &&& bnot32 (c.SC_PKCS15_CARD_FLAG_PRN_GENERATION
              ||| c.SC_PKCS15_CARD_FLAG_LOGIN_REQUIRED
              ||| c.SC_PKCS15_CARD_FLAG_USER_PIN_INITIALIZED
              ||| c.SC_PKCS15_CARD_FLAG_TOKEN_INITIALIZED)) ||| p
          p15_spec := st.p15_spec.map (fun sp =>
            { sp with flags := (sp.flags &&& bnot32 (c.SC_PKCS15_CARD_FLAG_PRN_GENERATION
              ||| c.SC_PKCS15_CARD_FLAG_LOGIN_REQUIRED
              ||| c.SC_PKCS15_CARD_FLAG_USER_PIN_INITIALIZED
              ||| c.SC_PKCS15_CARD_FLAG_TOKEN_INITIALIZED)) ||| p }) }) := by
  have hnot : ¬ file.size < 16 := by omega
  simp [cosm_write_tokeninfo, hfile, hnot, sc_pkcs15init_update_file]

/-- C16, the failing input: with the sample profile (TokenInfo file of 16
bytes), on a card that refuses the update with the card error 7, a session whose
card and profile hold the status bits `0x02` (login-required) and a call that
asks for `0x80` (token-initialized): `cosm_write_tokeninfo` returns the card
error 7, and yet the four status bits (mask `0xC6`) of the card and of
`p15_spec` have changed from `0x02` to `0x80`. -/
theorem cosm_write_tokeninfo_failed_update_changes_flags :
    (cosm_write_tokeninfo sample_consts update_refusing_prims (sample_profile 16 0)
        (spec_state 0x02) none 0x80).1 = Rv.err (ScError.CARD 7)
    ∧ (spec_state 0x02).flags &&& 0xC6 = 0x02
    ∧ (spec_state 0x02).p15_spec.map (fun sp => sp.flags &&& 0xC6) = some 0x02
    ∧ (cosm_write_tokeninfo sample_consts update_refusing_prims (sample_profile 16 0)
        (spec_state 0x02) none 0x80).2.flags &&& 0xC6 = 0x80
    ∧ (cosm_write_tokeninfo sample_consts update_refusing_prims (sample_profile 16 0)
        (spec_state 0x02) none 0x80).2.p15_spec.map (fun sp => sp.flags &&& 0xC6)
        = some 0x80 := by
  refine ⟨by decide, by decide, by decide, by decide, by decide⟩

/-- The flags after `cosm_write_tokeninfo` past its guards, whatever the update
returns: the four masked bits of the card and of `p15_spec` are the four
masked bits of the requested flags, and the call returns the error of the
update when there is one. -/
theorem cosm_write_tokeninfo_flags_any_result {σ : Type} (c : Consts) (P : CardPrims σ)
    (profile : Profile) (st : State σ) (file : ScFile) (label : Option (List Nat)) (p : Nat)
    (hfile : profile.get_file "OberthurAWP-token-info" = .ok file) (hsize : 16 ≤ file.size) :
    let mask := c.SC_PKCS15_CARD_FLAG_PRN_GENERATION
      ||| c.SC_PKCS15_CARD_FLAG_LOGIN_REQUIRED
      ||| c.SC_PKCS15_CARD_FLAG_USER_PIN_INITIALIZED
      ||| c.SC_PKCS15_CARD_FLAG_TOKEN_INITIALIZED
    (cosm_write_tokeninfo c P profile st label p).2.flags &&& mask = p &&& mask
    ∧ (∀ sp ∈ (cosm_write_tokeninfo c P profile st label p).2.p15_spec,
        sp.flags &&& mask = p &&& mask)
    ∧ (∀ e, (P.update_file st.card file
          (cosm_tokeninfo_buffer c file.size label st.label st.p15_spec p)).1 = Rv.err e →
        (cosm_write_tokeninfo c P profile st label p).1 = Rv.err e) := by
  intro mask
  rw [cosm_write_tokeninfo_past_guards c P profile st file label p hfile hsize]
  refine ⟨mask_update_and _ _ _, ?_, ?_⟩
  · intro sp hsp
    simp only [Option.mem_def, Option.map_eq_some'] at hsp
    obtain ⟨sp0, _, rfl⟩ := hsp
    exact mask_update_and _ _ _
  · intro e he
    simp [he, Rv.isPos]

/-- The call `strlen(buf)` is at most the length of the buffer. -/
theorem strlen_le (buf : List Nat) : strlen buf ≤ buf.length := by
  unfold strlen cstr
  exact (List.takeWhile_sublist _).length_le

/-- The call `strncpy(dst, src, n)` keeps the length of `dst`. -/
theorem strncpy_length (dst src : List Nat) (n : Nat) (h : n ≤ dst.length) :
    (strncpy dst src n).length = dst.length := by
  simp only [strncpy, List.length_append, List.length_take, List.length_replicate,
    List.length_drop]
  omega

/-- The call `snprintf(dst, n, fmt)` keeps the length of `dst`. -/
theorem snprintf_length (dst fmt : List Nat) (n : Nat) (h : n ≤ dst.length) :
    (snprintf dst n fmt).length = dst.length := by
  unfold snprintf
  by_cases hn : n = 0
  · simp [hn]
  · simp only [hn, if_false, List.length_append, List.length_take, List.length_cons,
      List.length_nil, List.length_drop]
    omega

/-- The call `memset(buf + off, v, k)` inside the buffer keeps its length. -/
theorem memset_length (buf : List Nat) (off v k : Nat) (h : off + k ≤ buf.length) :
    (memset buf off v k).length = buf.length := by
  simp only [memset, List.length_append, List.length_take, List.length_replicate,
    List.length_drop]
  omega

/-- The buffer of `cosm_write_tokeninfo` for every source of the label: some
`size - 4` bytes, then two zero bytes, then the high and the low byte of the
device flags. -/
theorem tokeninfo_buffer_tail (c : Consts) (n : Nat) (label pl : Option (List Nat))
    (spec : Option P15Spec) (p : Nat) :
    ∃ pre, pre.length = n ∧ cosm_tokeninfo_buffer c (n + 4) label pl spec p =
      pre ++ [0, 0, (cosm_tokeninfo_flags c p >>> 8) &&& 0xFF,
        cosm_tokeninfo_flags c p &&& 0xFF] := by
  have hstage : ∀ B : List Nat, B.length = n + 4 →
      ∃ pre, pre.length = n ∧
        (((memset (if strlen B < n then memset B (strlen B) 0x20 (n + 4 - strlen B) else B)
            n 0 4).set (n + 3) (cosm_tokeninfo_flags c p &&& 0xFF)).set (n + 2)
            ((cosm_tokeninfo_flags c p >>> 8) &&& 0xFF))
          = pre ++ [0, 0, (cosm_tokeninfo_flags c p >>> 8) &&& 0xFF,
              cosm_tokeninfo_flags c p &&& 0xFF] := by
    intro B hB
    have hsl := strlen_le B
    have hB1 : (if strlen B < n then memset B (strlen B) 0x20 (n + 4 - strlen B) else B).length
        = n + 4 := by
      split
      · rw [memset_length _ _ _ _ (by omega), hB]
      · exact hB
    generalize (if strlen B < n then memset B (strlen B) 0x20 (n + 4 - strlen B) else B) = B1
      at hB1
    refine ⟨B1.take n, by simp [hB1], ?_⟩
    have h := tokeninfo_tail (B1.take n) (B1.drop n) n
      ((cosm_tokeninfo_flags c p >>> 8) &&& 0xFF) (cosm_tokeninfo_flags c p &&& 0xFF)
      (by simp [hB1]) (by simp [hB1])
    rw [List.take_append_drop] at h
    exact h
  have hrep : (List.replicate (n + 4) 0 : List Nat).length = n + 4 := by simp
  simp only [cosm_tokeninfo_buffer, Nat.add_sub_cancel]
  rw [show n + 4 - 1 = n + 3 by omega, show n + 4 - 2 = n + 2 by omega]
  cases label with
  | some l => exact hstage _ (by rw [strncpy_length _ _ _ (by simp), hrep])
  | none =>
    cases pl with
    | some l => exact hstage _ (by rw [snprintf_length _ _ _ (by simp), hrep])
    | none =>
      cases spec.bind (fun sp => sp.label) with
      | some l => exact hstage _ (by rw [snprintf_length _ _ _ (by simp), hrep])
      | none => exact hstage _ (by rw [snprintf_length _ _ _ (by simp), hrep])

/-- The high and the low byte of the device flags: the high byte is `0x04`
exactly when the token-initialized bit is requested, the low byte holds the
other three bits. -/
theorem cosm_tokeninfo_flags_bytes (c : Consts) (p : Nat) :
    (cosm_tokeninfo_flags c p >>> 8) &&& 0xFF
        = (if p &&& c.SC_PKCS15_CARD_FLAG_TOKEN_INITIALIZED ≠ 0 then 0x04 else 0)
    ∧ cosm_tokeninfo_flags c p &&& 0xFF
        = ((if p &&& c.SC_PKCS15_CARD_FLAG_PRN_GENERATION ≠ 0 then 0x01 else 0)
          ||| (if p &&& c.SC_PKCS15_CARD_FLAG_LOGIN_REQUIRED ≠ 0 then 0x04 else 0)
          ||| (if p &&& c.SC_PKCS15_CARD_FLAG_USER_PIN_INITIALIZED ≠ 0 then 0x08 else 0)) := by
  rw [cosm_tokeninfo_flags_eq]
  by_cases h1 : p &&& c.SC_PKCS15_CARD_FLAG_PRN_GENERATION = 0 <;>
  by_cases h2 : p &&& c.SC_PKCS15_CARD_FLAG_LOGIN_REQUIRED = 0 <;>
  by_cases h3 : p &&& c.SC_PKCS15_CARD_FLAG_USER_PIN_INITIALIZED = 0 <;>
  by_cases h4 : p &&& c.SC_PKCS15_CARD_FLAG_TOKEN_INITIALIZED = 0 <;>
  simp only [h1, h2, h3, h4, ne_eq, not_true_eq_false, not_false_eq_true, if_true, if_false] <;>
  decide

/-- Counterexample to C19 as stated: with the sample profile (TokenInfo file
of 16 bytes), the label `ABC` and the flag word `0x80` (token-initialized), the
record that `cosm_write_tokeninfo` writes has `0x04` in byte `size - 2` and 0
in byte `size - 1`. -/
theorem cosm_write_tokeninfo_high_byte_nonzero :
    (cosm_write_tokeninfo sample_consts accepting_prims (sample_profile 16 0)
        accepting_state (some [65, 66, 67]) 0x80).2.trace
      = [CardCmd.update (sample_token_info 16)
          [65, 66, 67, 0x20, 0x20, 0x20, 0x20, 0x20, 0x20, 0x20, 0x20, 0x20, 0, 0, 0x04, 0]]
    ∧ ([65, 66, 67, 0x20, 0x20, 0x20, 0x20, 0x20, 0x20, 0x20, 0x20, 0x20, 0, 0, 0x04, 0]
        : List Nat)[16 - 2]? = some 0x04 := by
  refine ⟨by decide, by decide⟩

/-- C19, amended: for a TokenInfo file of size at least 16, every source of the
label and every flag word, `cosm_write_tokeninfo` issues one update with a
record of `size` bytes in which byte `size - 2` is `0x04` when the
token-initialized bit is requested and 0 otherwise, and byte `size - 1` is the
OR of `0x01`, `0x04`, `0x08` for the PRN-generation, login-required and
user-pin-initialized bits that are requested. -/
theorem cosm_write_tokeninfo_flag_bytes {σ : Type} (c : Consts) (P : CardPrims σ)
    (profile : Profile) (st : State σ) (file : ScFile) (label : Option (List Nat)) (p : Nat)
    (hfile : profile.get_file "OberthurAWP-token-info" = .ok file) (hsize : 16 ≤ file.size) :
    ∃ record,
      (cosm_write_tokeninfo c P profile st label p).2.trace
        = st.trace ++ [CardCmd.update file record]
      ∧ record.length = file.size
      ∧ record[file.size - 2]?
          = some (if p &&& c.SC_PKCS15_CARD_FLAG_TOKEN_INITIALIZED ≠ 0 then 0x04 else 0)
      ∧ record[file.size - 1]?
          = some ((if p &&& c.SC_PKCS15_CARD_FLAG_PRN_GENERATION ≠ 0 then 0x01 else 0)
            ||| (if p &&& c.SC_PKCS15_CARD_FLAG_LOGIN_REQUIRED ≠ 0 then 0x04 else 0)
            ||| (if p &&& c.SC_PKCS15_CARD_FLAG_USER_PIN_INITIALIZED ≠ 0 then 0x08 else 0)) := by
  obtain ⟨n, hn⟩ : ∃ n, file.size = n + 4 := ⟨file.size - 4, by omega⟩
  obtain ⟨pre, hpre, hbuf⟩ := tokeninfo_buffer_tail c n label st.label st.p15_spec p
  obtain ⟨hhi, hlo⟩ := cosm_tokeninfo_flags_bytes c p
  refine ⟨cosm_tokeninfo_buffer c file.size label st.label st.p15_spec p, ?_, ?_, ?_, ?_⟩
  · rw [cosm_write_tokeninfo_past_guards c P profile st file label p hfile hsize]
  · rw [hn, hbuf]
    simp [hpre]
  · rw [hn, hbuf, show n + 4 - 2 = n + 2 by omega, List.getElem?_append_right (by omega), ← hhi]
    simp [hpre]
  · rw [hn, hbuf, show n + 4 - 1 = n + 3 by omega, List.getElem?_append_right (by omega), ← hlo]
    simp [hpre]

/-- Witness of C19, amended: the sample profile with a 16-byte TokenInfo file,
no label anywhere, and the flag word `0x84`. -/
theorem cosm_write_tokeninfo_flag_bytes_witness :
    (sample_profile 16 0).get_file "OberthurAWP-token-info" = .ok (sample_token_info 16)
    ∧ 16 ≤ (sample_token_info 16).size
    ∧ ∃ record,
      (cosm_write_tokeninfo sample_consts accepting_prims (sample_profile 16 0)
          accepting_state none 0x84).2.trace
        = accepting_state.trace ++ [CardCmd.update (sample_token_info 16) record]
      ∧ record.length = (sample_token_info 16).size
      ∧ record[(sample_token_info 16).size - 2]?
          = some (if 0x84 &&& sample_consts.SC_PKCS15_CARD_FLAG_TOKEN_INITIALIZED ≠ 0
              then 0x04 else 0)
      ∧ record[(sample_token_info 16).size - 1]?
          = some ((if 0x84 &&& sample_consts.SC_PKCS15_CARD_FLAG_PRN_GENERATION ≠ 0
                then 0x01 else 0)
            ||| (if 0x84 &&& sample_consts.SC_PKCS15_CARD_FLAG_LOGIN_REQUIRED ≠ 0
                then 0x04 else 0)
            ||| (if 0x84 &&& sample_consts.SC_PKCS15_CARD_FLAG_USER_PIN_INITIALIZED ≠ 0
                then 0x08 else 0)) :=
  ⟨by rfl, by decide,
    cosm_write_tokeninfo_flag_bytes sample_consts accepting_prims (sample_profile 16 0)
      accepting_state (sample_token_info 16) none 0x84 (by rfl) (by decide)⟩

/-! ## The decision table of `cosm_create_pin` -/

/-- The trace never gets shorter in `cosm_write_tokeninfo`. -/
theorem cosm_write_tokeninfo_trace_le {σ : Type} (c : Consts) (P : CardPrims σ)
    (profile : Profile) (s : State σ) (label : Option (List Nat)) (p : Nat) :
    s.trace.length ≤ (cosm_write_tokeninfo c P profile s label p).2.trace.length := by
  unfold cosm_write_tokeninfo
  cases profile.get_file "OberthurAWP-token-info" with
  | error e => simp
  | ok file => by_cases hs : file.size < 16 <;> simp [hs, sc_pkcs15init_update_file]

/-- The call `cosm_create_reference_data` either refuses its arguments and
leaves the state as it is, or issues at least one command. -/
theorem cosm_create_reference_data_trace {σ : Type} (c : Consts) (P : CardPrims σ)
    (profile : Profile) (s : State σ) (pinfo : PinInfo) (pin puk : Option (List Nat)) :
    cosm_create_reference_data c P profile s pinfo pin puk
        = (Rv.err ScError.INVALID_ARGUMENTS, s)
    ∨ s.trace.length
        < (cosm_create_reference_data c P profile s pinfo pin puk).2.trace.length := by
  unfold cosm_create_reference_data
  cases pin with
  | none => left; rfl
  | some pinv =>
    by_cases h1 : pinv.length > 0x40
    · left; simp [h1]
    · by_cases h2 : puk.map List.length = some 0
      · left; simp [h1, h2]
      · right
        simp only [h1, h2, if_false]
        split
        · simp [sc_select_file]
        · split
          · simp [sc_card_ctl_create_pin, sc_select_file]
          · split
            · split <;>
                simp [sc_card_ctl_create_pin, sc_select_file, sc_pkcs15init_update_file]
            · simp [sc_card_ctl_create_pin, sc_select_file]

/-- For a credential without the SO-pin flag, `cosm_update_pin` either refuses
its arguments and leaves the state as it is, or issues at least one command. -/
theorem cosm_update_pin_trace {σ : Type} (c : Consts) (P : CardPrims σ)
    (profile : Profile) (s : State σ) (pinfo : PinInfo) (pin puk : Option (List Nat))
    (hso : pinfo.flags &&& c.SC_PKCS15_PIN_FLAG_SO_PIN = 0) :
    cosm_update_pin c P profile s pinfo pin puk = (Rv.err ScError.INVALID_ARGUMENTS, s)
    ∨ s.trace.length < (cosm_update_pin c P profile s pinfo pin puk).2.trace.length := by
  unfold cosm_update_pin
  simp only [hso, ne_eq, not_true_eq_false, if_false]
  rcases cosm_create_reference_data_trace c P profile s pinfo pin puk with h | h
  · left
    rw [h]
    simp [Rv.isErr]
  · right
    split
    · exact h
    · exact Nat.lt_of_lt_of_le h (cosm_write_tokeninfo_trace_le _ _ _ _ _ _)

/-- For a credential with the SO-pin flag, `cosm_update_pin` touches nothing. -/
theorem cosm_update_pin_so {σ : Type} (c : Consts) (P : CardPrims σ)
    (profile : Profile) (s : State σ) (pinfo : PinInfo) (pin puk : Option (List Nat))
    (hso : pinfo.flags &&& c.SC_PKCS15_PIN_FLAG_SO_PIN ≠ 0) :
    cosm_update_pin c P profile s pinfo pin puk
      = (if pinfo.reference ≠ 4 then Rv.err ScError.INVALID_PIN_REFERENCE else SC_SUCCESS, s) := by
  unfold cosm_update_pin
  by_cases href : pinfo.reference = 4 <;> simp [hso, href]

/-- The function `cosm_create_pin` when the profile defines the AppDF, as one
decision on the two role flags and the reference. -/
theorem cosm_create_pin_cases {σ : Type} (c : Consts) (P : CardPrims σ)
    (profile : Profile) (st : State σ) (pin_info : PinInfo) (pin puk : Option (List Nat))
    (appdf : ScFile) (happ : profile.get_file "OberthurAWP-AppDF" = .ok appdf) :
    cosm_create_pin c P profile st pin_info pin puk =
      if pin_info.flags &&& c.SC_PKCS15_PIN_FLAG_SO_PIN ≠ 0
          ∧ pin_info.flags &&& c.SC_PKCS15_PIN_FLAG_UNBLOCKING_PIN ≠ 0 then
        (Rv.err ScError.NOT_SUPPORTED,
          (if pin_info.flags &&& c.SC_PKCS15_PIN_FLAG_LOCAL ≠ 0
            then { pin_info with path := appdf.path } else pin_info), st)
      else if pin_info.reference ≠
          (if pin_info.flags &&& c.SC_PKCS15_PIN_FLAG_SO_PIN ≠ 0 then 4
            else if pin_info.flags &&& c.SC_PKCS15_PIN_FLAG_UNBLOCKING_PIN ≠ 0 then 0x84
            else 0x81) then
        (Rv.err ScError.INVALID_PIN_REFERENCE,
          (if pin_info.flags &&& c.SC_PKCS15_PIN_FLAG_LOCAL ≠ 0
            then { pin_info with path := appdf.path } else pin_info), st)
      else if pin = none ∨ pin = some [] then
        (Rv.ok 0,
          (if pin_info.flags &&& c.SC_PKCS15_PIN_FLAG_LOCAL ≠ 0
            then { pin_info with path := appdf.path } else pin_info), st)
      else
        ((cosm_update_pin c P profile st
            (if pin_info.flags &&& c.SC_PKCS15_PIN_FLAG_LOCAL ≠ 0
              then { pin_info with path := appdf.path } else pin_info) pin puk).1,
          (if pin_info.flags &&& c.SC_PKCS15_PIN_FLAG_LOCAL ≠ 0
            then { pin_info with path := appdf.path } else pin_info),
          (cosm_update_pin c P profile st
            (if pin_info.flags &&& c.SC_PKCS15_PIN_FLAG_LOCAL ≠ 0
              then { pin_info with path := appdf.path } else pin_info) pin puk).2) := by
  have hflags : (if pin_info.flags &&& c.SC_PKCS15_PIN_FLAG_LOCAL ≠ 0
      then { pin_info with path := appdf.path } else pin_info).flags = pin_info.flags := by
    split <;> rfl
  have href : (if pin_info.flags &&& c.SC_PKCS15_PIN_FLAG_LOCAL ≠ 0
      then { pin_info with path := appdf.path } else pin_info).reference
        = pin_info.reference := by
    split <;> rfl
  simp only [cosm_create_pin, happ, cosm_create_pin_check, hflags, href]
  have hpin : ¬ (pin = none ∨ pin = some []) →
      ∃ a t, pin = some (a :: t) := by
    intro h
    cases pin with
    | none => exact absurd (Or.inl rfl) h
    | some pinv =>
      cases pinv with
      | nil => exact absurd (Or.inr rfl) h
      | cons a t => exact ⟨a, t, rfl⟩
  by_cases hso : pin_info.flags &&& c.SC_PKCS15_PIN_FLAG_SO_PIN = 0 <;>
  by_cases hun : pin_info.flags &&& c.SC_PKCS15_PIN_FLAG_UNBLOCKING_PIN = 0 <;>
  simp only [hso, hun, ne_eq, not_true_eq_false, not_false_eq_true, if_true, if_false,
    and_self, and_false, false_and]
  · by_cases hr : pin_info.reference = 0x81 <;> simp only [hr, not_true_eq_false, if_false]
    · by_cases hp : pin = none ∨ pin = some []
      · rcases hp with hp | hp <;> simp [hp]
      · obtain ⟨a, t, hp2⟩ := hpin hp
        simp [hp2]
    · simp only [hr, not_false_eq_true, if_true]
  · by_cases hr : pin_info.reference = 0x84 <;> simp only [hr, not_true_eq_false, if_false]
    · by_cases hp : pin = none ∨ pin = some []
      · rcases hp with hp | hp <;> simp [hp]
      · obtain ⟨a, t, hp2⟩ := hpin hp
        simp [hp2]
    · simp only [hr, not_false_eq_true, if_true]
  · by_cases hr : pin_info.reference = 4 <;> simp only [hr, not_true_eq_false, if_false]
    · by_cases hp : pin = none ∨ pin = some []
      · rcases hp with hp | hp <;> simp [hp]
      · obtain ⟨a, t, hp2⟩ := hpin hp
        simp [hp2]
    · simp only [hr, not_false_eq_true, if_true]

/-- C12, amended: the decision table of `cosm_create_pin` when the profile
defines the AppDF. With both the SO-pin and the unblocking-pin flag it returns
`NOT_SUPPORTED`; otherwise, with a reference other than the required one (4 for
an SO pin, `0x84` for a user PUK, `0x81` for a plain user pin) it returns
`INVALID_PIN_REFERENCE`; otherwise, without PIN data, it returns success; in
these three cases the state is the one before the call, so no command is
issued. Conversely, a call that returns `NOT_SUPPORTED` without having issued a
command had both flags, and one that returns `INVALID_PIN_REFERENCE` without
having issued a command had not both flags and a reference other than the
required one. With the required reference and PIN data the call is
`cosm_update_pin`: its result, whatever code the card reports, is the result
of `cosm_create_pin`. -/
theorem cosm_create_pin_decision_table {σ : Type} (c : Consts) (P : CardPrims σ)
    (profile : Profile) (st : State σ) (pin_info : PinInfo) (pin puk : Option (List Nat))
    (appdf : ScFile) (happ : profile.get_file "OberthurAWP-AppDF" = .ok appdf) :
    let so := pin_info.flags &&& c.SC_PKCS15_PIN_FLAG_SO_PIN ≠ 0
    let unb := pin_info.flags &&& c.SC_PKCS15_PIN_FLAG_UNBLOCKING_PIN ≠ 0
    let required : Int := if so then 4 else if unb then 0x84 else 0x81
    let r := cosm_create_pin c P profile st pin_info pin puk
    (so ∧ unb → r.1 = Rv.err ScError.NOT_SUPPORTED ∧ r.2.2 = st)
    ∧ (¬ (so ∧ unb) → pin_info.reference ≠ required →
        r.1 = Rv.err ScError.INVALID_PIN_REFERENCE ∧ r.2.2 = st)
    ∧ (¬ (so ∧ unb) → pin_info.reference = required → (pin = none ∨ pin = some []) →
        r.1 = Rv.ok 0 ∧ r.2.2 = st)
    ∧ (r.1 = Rv.err ScError.NOT_SUPPORTED → r.2.2.trace = st.trace → so ∧ unb)
    ∧ (r.1 = Rv.err ScError.INVALID_PIN_REFERENCE → r.2.2.trace = st.trace →
        ¬ (so ∧ unb) ∧ pin_info.reference ≠ required)
    ∧ (¬ (so ∧ unb) → pin_info.reference = required →
        ∀ pinv, pin = some pinv → pinv ≠ [] →
        r.1 = (cosm_update_pin c P profile st
            (if pin_info.flags &&& c.SC_PKCS15_PIN_FLAG_LOCAL ≠ 0
              then { pin_info with path := appdf.path } else pin_info) pin puk).1
        ∧ r.2.2 = (cosm_update_pin c P profile st
            (if pin_info.flags &&& c.SC_PKCS15_PIN_FLAG_LOCAL ≠ 0
              then { pin_info with path := appdf.path } else pin_info) pin puk).2) := by
  intro so unb required r
  have hr : r = _ := cosm_create_pin_cases c P profile st pin_info pin puk appdf happ
  have hflags : (if pin_info.flags &&& c.SC_PKCS15_PIN_FLAG_LOCAL ≠ 0
      then { pin_info with path := appdf.path } else pin_info).flags = pin_info.flags := by
    split <;> rfl
  have href : (if pin_info.flags &&& c.SC_PKCS15_PIN_FLAG_LOCAL ≠ 0
      then { pin_info with path := appdf.path } else pin_info).reference
        = pin_info.reference := by
    split <;> rfl
  generalize (if pin_info.flags &&& c.SC_PKCS15_PIN_FLAG_LOCAL ≠ 0
      then { pin_info with path := appdf.path } else pin_info) = pi1 at hr hflags href ⊢
  change r = (if so ∧ unb then _ else if pin_info.reference ≠ required then _ else _) at hr
  -- what the call does once the table lets it through
  have hpass : ¬ (so ∧ unb) → pin_info.reference = required →
      ¬ (pin = none ∨ pin = some []) →
      (r.1 = Rv.ok 0 ∨ r.1 = Rv.err ScError.INVALID_ARGUMENTS)
        ∨ st.trace.length < r.2.2.trace.length := by
    intro h1 h2 h3
    rw [hr, if_neg h1, if_neg (not_not.mpr h2), if_neg h3]
    by_cases hso : pin_info.flags &&& c.SC_PKCS15_PIN_FLAG_SO_PIN = 0
    · rcases cosm_update_pin_trace c P profile st pi1 pin puk (by rw [hflags]; exact hso)
        with h | h
      · left; right; rw [h]
      · right; exact h
    · have h4 : pi1.reference = 4 := by
        rw [href, h2]
        simp only [required, so, hso, ne_eq, not_false_eq_true, if_true]
      left; left
      rw [cosm_update_pin_so c P profile st pi1 pin puk (by rw [hflags]; exact hso)]
      simp [h4, SC_SUCCESS]
  refine ⟨?_, ?_, ?_, ?_, ?_, ?_⟩
  · intro h
    rw [hr, if_pos h]
    exact ⟨rfl, rfl⟩
  · intro h1 h2
    rw [hr, if_neg h1, if_pos h2]
    exact ⟨rfl, rfl⟩
  · intro h1 h2 h3
    rw [hr, if_neg h1, if_neg (not_not.mpr h2), if_pos h3]
    exact ⟨rfl, rfl⟩
  · intro hrv htr
    by_contra h1
    by_cases h2 : pin_info.reference = required
    · by_cases h3 : pin = none ∨ pin = some []
      · rw [hr, if_neg h1, if_neg (not_not.mpr h2), if_pos h3] at hrv
        exact absurd hrv (by simp)
      · rcases hpass h1 h2 h3 with (h | h) | h
        · rw [h] at hrv; exact absurd hrv (by simp)
        · rw [h] at hrv; exact absurd hrv (by simp)
        · rw [htr] at h; exact absurd h (Nat.lt_irrefl _)
    · rw [hr, if_neg h1, if_pos h2] at hrv
      exact absurd hrv (by simp)
  · intro hrv htr
    by_cases h1 : so ∧ unb
    · rw [hr, if_pos h1] at hrv
      exact absurd hrv (by simp)
    · refine ⟨h1, ?_⟩
      intro h2
      by_cases h3 : pin = none ∨ pin = some []
      · rw [hr, if_neg h1, if_neg (not_not.mpr h2), if_pos h3] at hrv
        exact absurd hrv (by simp)
      · rcases hpass h1 h2 h3 with (h | h) | h
        · rw [h] at hrv; exact absurd hrv (by simp)
        · rw [h] at hrv; exact absurd hrv (by simp)
        · rw [htr] at h; exact absurd h (Nat.lt_irrefl _)
  · intro h1 h2 pinv hp hne
    have h3 : ¬ (pin = none ∨ pin = some []) := by
      subst hp
      simp [hne]
    rw [hr, if_neg h1, if_neg (not_not.mpr h2), if_neg h3]
    exact ⟨rfl, rfl⟩

/-- Witness of C12, amended: under the sample profile, a credential with both flags is
refused with `NOT_SUPPORTED`, an SO pin with reference 5 is refused with
`INVALID_PIN_REFERENCE`, and a user pin with reference `0x81` and no PIN data is
accepted, each time in the state before the call. -/
theorem cosm_create_pin_decision_table_witness :
    (sample_profile 16 0).get_file "OberthurAWP-AppDF" = .ok sample_appdf
    ∧ ((cosm_create_pin sample_consts accepting_prims (sample_profile 16 0) accepting_state
          sample_so_unblocking_pin (some [1, 2, 3, 4]) none).1 = Rv.err ScError.NOT_SUPPORTED
        ∧ (cosm_create_pin sample_consts accepting_prims (sample_profile 16 0) accepting_state
          sample_so_unblocking_pin (some [1, 2, 3, 4]) none).2.2 = accepting_state)
    ∧ ((cosm_create_pin sample_consts accepting_prims (sample_profile 16 0) accepting_state
          sample_so_pin (some [1, 2, 3, 4]) none).1 = Rv.err ScError.INVALID_PIN_REFERENCE
        ∧ (cosm_create_pin sample_consts accepting_prims (sample_profile 16 0) accepting_state
          sample_so_pin (some [1, 2, 3, 4]) none).2.2 = accepting_state)
    ∧ ((cosm_create_pin sample_consts accepting_prims (sample_profile 16 0) accepting_state
          sample_user_pin none none).1 = Rv.ok 0
        ∧ (cosm_create_pin sample_consts accepting_prims (sample_profile 16 0) accepting_state
          sample_user_pin none none).2.2 = accepting_state) :=
  ⟨by rfl,
    (cosm_create_pin_decision_table sample_consts accepting_prims (sample_profile 16 0)
      accepting_state sample_so_unblocking_pin (some [1, 2, 3, 4]) none sample_appdf
      (by rfl)).1 ⟨by decide, by decide⟩,
    (cosm_create_pin_decision_table sample_consts accepting_prims (sample_profile 16 0)
      accepting_state sample_so_pin (some [1, 2, 3, 4]) none sample_appdf
      (by rfl)).2.1 (by decide) (by decide),
    (cosm_create_pin_decision_table sample_consts accepting_prims (sample_profile 16 0)
      accepting_state sample_user_pin none none sample_appdf
      (by rfl)).2.2.1 (by decide) (by decide) (Or.inl rfl)⟩

/-! ## Provisioning an SO pin -/

/-- C18: for a credential with the SO-pin flag and without the unblocking-pin
flag, with reference 4 and non-empty PIN data, `cosm_update_pin` returns success
and `cosm_create_pin` leaves the state as it was before the call: the card is
untouched and no command (select, control request, update) is added to the
trace, so the TokenInfo record on the card and the flags of the card and of
`p15_spec` are unchanged; and `cosm_create_pin` returns success whenever the
profile defines the AppDF. -/
theorem cosm_create_pin_so_no_hardware_action {σ : Type} (c : Consts) (P : CardPrims σ)
    (profile : Profile) (st : State σ) (pin_info : PinInfo) (pinv : List Nat)
    (puk : Option (List Nat))
    (hso : pin_info.flags &&& c.SC_PKCS15_PIN_FLAG_SO_PIN ≠ 0)
    (hunb : pin_info.flags &&& c.SC_PKCS15_PIN_FLAG_UNBLOCKING_PIN = 0)
    (href : pin_info.reference = 4) (hpin : pinv ≠ []) :
    cosm_update_pin c P profile st pin_info (some pinv) puk = (SC_SUCCESS, st)
    ∧ (cosm_create_pin c P profile st pin_info (some pinv) puk).2.2 = st
    ∧ (cosm_create_pin c P profile st pin_info (some pinv) puk).2.2.trace = st.trace
    ∧ (cosm_create_pin c P profile st pin_info (some pinv) puk).2.2.flags = st.flags
    ∧ (cosm_create_pin c P profile st pin_info (some pinv) puk).2.2.p15_spec = st.p15_spec
    ∧ (∀ appdf, profile.get_file "OberthurAWP-AppDF" = .ok appdf →
        (cosm_create_pin c P profile st pin_info (some pinv) puk).1 = SC_SUCCESS) := by
  have hup : ∀ pi1 : PinInfo, pi1.flags = pin_info.flags → pi1.reference = pin_info.reference →
      cosm_update_pin c P profile st pi1 (some pinv) puk = (SC_SUCCESS, st) := by
    intro pi1 h1 h2
    rw [cosm_update_pin_so c P profile st pi1 (some pinv) puk (by rw [h1]; exact hso)]
    simp [h2, href]
  have hstate : (cosm_create_pin c P profile st pin_info (some pinv) puk).2.2 = st
      ∧ (∀ appdf, profile.get_file "OberthurAWP-AppDF" = .ok appdf →
        (cosm_create_pin c P profile st pin_info (some pinv) puk).1 = SC_SUCCESS) := by
    cases happ : profile.get_file "OberthurAWP-AppDF" with
    | error e =>
      refine ⟨by simp [cosm_create_pin, happ], ?_⟩
      intro appdf h
      cases h
    | ok appdf =>
      have hne : ¬ (some pinv = none ∨ some pinv = some []) := by
        simp [hpin]
      have hreq : ¬ pin_info.reference ≠
          (if pin_info.flags &&& c.SC_PKCS15_PIN_FLAG_SO_PIN ≠ 0 then 4
            else if pin_info.flags &&& c.SC_PKCS15_PIN_FLAG_UNBLOCKING_PIN ≠ 0 then 0x84
            else 0x81) := by
        simp [hso, href]
      have hboth : ¬ (pin_info.flags &&& c.SC_PKCS15_PIN_FLAG_SO_PIN ≠ 0
          ∧ pin_info.flags &&& c.SC_PKCS15_PIN_FLAG_UNBLOCKING_PIN ≠ 0) := by
        simp [hunb]
      rw [cosm_create_pin_cases c P profile st pin_info (some pinv) puk appdf happ,
        if_neg hboth, if_neg hreq, if_neg hne,
        hup _ (by split <;> rfl) (by split <;> rfl)]
      exact ⟨rfl, fun _ _ => rfl⟩
  refine ⟨hup pin_info rfl rfl, hstate.1, ?_, ?_, ?_, hstate.2⟩ <;> rw [hstate.1]

/-- Witness of C18: an SO pin with reference 4 and the PIN `1234` under the
sample profile, on a session whose card and profile hold the flag word `0x02`. -/
theorem cosm_create_pin_so_no_hardware_action_witness :
    ({ sample_so_pin with reference := 4 } : PinInfo).flags
        &&& sample_consts.SC_PKCS15_PIN_FLAG_SO_PIN ≠ 0
    ∧ ({ sample_so_pin with reference := 4 } : PinInfo).flags
        &&& sample_consts.SC_PKCS15_PIN_FLAG_UNBLOCKING_PIN = 0
    ∧ (cosm_create_pin sample_consts update_refusing_prims (sample_profile 16 0)
        (spec_state 0x02) { sample_so_pin with reference := 4 }
        (some [0x31, 0x32, 0x33, 0x34]) none).1 = SC_SUCCESS
    ∧ (cosm_create_pin sample_consts update_refusing_prims (sample_profile 16 0)
        (spec_state 0x02) { sample_so_pin with reference := 4 }
        (some [0x31, 0x32, 0x33, 0x34]) none).2.2 = spec_state 0x02 :=
  ⟨by decide, by decide,
    (cosm_create_pin_so_no_hardware_action sample_consts update_refusing_prims
      (sample_profile 16 0) (spec_state 0x02) { sample_so_pin with reference := 4 }
      [0x31, 0x32, 0x33, 0x34] none (by decide) (by decide) rfl (by decide)).2.2.2.2.2
      sample_appdf (by rfl),
    (cosm_create_pin_so_no_hardware_action sample_consts update_refusing_prims
      (sample_profile 16 0) (spec_state 0x02) { sample_so_pin with reference := 4 }
      [0x31, 0x32, 0x33, 0x34] none (by decide) (by decide) rfl (by decide)).2.1⟩

/-! ## Type resolution and error kinds of `cosm_new_file` -/

/-- An exact match on the first entry of a table. -/
theorem table_exact_match_head (a : Nat × String × Nat) (l : List (Nat × String × Nat))
    (type : Nat) (h : a.1 = type) : table_exact_match (a :: l) type = some a.2 := by
  simp [table_exact_match, List.find?, h]

/-- An exact match that is not on the first entry of a table. -/
theorem table_exact_match_tail (a : Nat × String × Nat) (l : List (Nat × String × Nat))
    (type : Nat) (h : a.1 ≠ type) : table_exact_match (a :: l) type = table_exact_match l type := by
  have hb : (a.1 == type) = false := by simpa using h
  simp [table_exact_match, List.find?, hb]

/-- The switch of `cosm_new_file` is the exact match against the table with
the two device-specific RSA types. -/
theorem cosm_new_file_switch_eq_table (c : Consts) (type : Nat) :
    cosm_new_file_switch c type = table_exact_match (device_type_table c) type := by
  unfold cosm_new_file_switch device_type_table
  by_cases h1 : c.SC_PKCS15_TYPE_PRKEY_RSA = type
  · rw [table_exact_match_head _ _ _ h1]
    simp [h1]
  rw [table_exact_match_tail _ _ _ h1]
  by_cases h2 : COSM_TYPE_PRKEY_RSA c = type
  · rw [table_exact_match_head _ _ _ h2]
    simp [h2]
  rw [table_exact_match_tail _ _ _ h2]
  rw [if_neg (by rintro (h | h); exact h1 h.symm; exact h2 h.symm)]
  by_cases h3 : c.SC_PKCS15_TYPE_PUBKEY_RSA = type
  · rw [table_exact_match_head _ _ _ h3]
    simp [h3]
  rw [table_exact_match_tail _ _ _ h3]
  by_cases h4 : COSM_TYPE_PUBKEY_RSA c = type
  · rw [table_exact_match_head _ _ _ h4]
    simp [h4]
  rw [table_exact_match_tail _ _ _ h4]
  rw [if_neg (by rintro (h | h); exact h3 h.symm; exact h4 h.symm)]
  by_cases h5 : c.SC_PKCS15_TYPE_PUBKEY_DSA = type
  · rw [table_exact_match_head _ _ _ h5]
    simp [h5]
  rw [table_exact_match_tail _ _ _ h5, if_neg (fun h => h5 h.symm)]
  by_cases h6 : c.SC_PKCS15_TYPE_CERT = type
  · rw [table_exact_match_head _ _ _ h6]
    simp [h6]
  rw [table_exact_match_tail _ _ _ h6, if_neg (fun h => h6 h.symm)]
  by_cases h7 : c.SC_PKCS15_TYPE_DATA_OBJECT = type
  · rw [table_exact_match_head _ _ _ h7]
    simp [h7]
  rw [table_exact_match_tail _ _ _ h7, if_neg (fun h => h7 h.symm)]
  rfl

/-- Two passes of the loop of `cosm_new_file` are enough for every type: the
loop ends with the template of the two-step procedure or with
`SC_ERROR_INVALID_ARGUMENTS`. -/
theorem cosm_new_file_resolve_two_step (c : Consts) (fuel type : Nat) (hfuel : 2 ≤ fuel) :
    cosm_new_file_resolve c fuel type =
      some (match two_step_resolve_type c type with
        | some t => .ok t
        | none => .error ScError.INVALID_ARGUMENTS) := by
  obtain ⟨k, rfl⟩ : ∃ k, fuel = k + 2 := ⟨fuel - 2, by omega⟩
  unfold two_step_resolve_type
  rw [← cosm_new_file_switch_eq_table, ← cosm_new_file_switch_eq_table]
  simp only [cosm_new_file_resolve]
  cases h1 : cosm_new_file_switch c type with
  | some t => rfl
  | none =>
    simp only
    by_cases hz : type &&& bnot32 c.SC_PKCS15_TYPE_CLASS_MASK = 0
    · simp [hz]
    · simp only [hz, if_false]
      cases h2 : cosm_new_file_switch c (type &&& c.SC_PKCS15_TYPE_CLASS_MASK) with
      | some t => rfl
      | none => simp [and_mask_bnot32]

/-- Counterexample to C13 as stated, under the sample constants and the sample
profile, which defines no certificate template: the type `0x600` matches no
case of the switch, has no bit outside the class mask `0xF00`, and
`cosm_new_file` fails with `SC_ERROR_INVALID_ARGUMENTS`, not with
`NOT_SUPPORTED`; the certificate type `0x400` resolves to
`template-certificate`, which the profile does not define, and `cosm_new_file`
fails with `SC_ERROR_NOT_SUPPORTED`, not with `INCONSISTENT_PROFILE`. -/
theorem cosm_new_file_error_kinds_sample :
    cosm_new_file_switch sample_consts 0x600 = none
    ∧ cosm_new_file sample_consts (sample_profile 16 0) 2 0x600 0
        = some (Rv.err ScError.INVALID_ARGUMENTS, none)
    ∧ cosm_new_file_switch sample_consts 0x400 = some ("template-certificate", 0xFFFFFFFF)
    ∧ (sample_profile 16 0).get_file "template-certificate" = .error ScError.FILE_NOT_FOUND
    ∧ cosm_new_file sample_consts (sample_profile 16 0) 2 0x400 0
        = some (Rv.err ScError.NOT_SUPPORTED, none) := by
  refine ⟨by decide, by decide, by decide, by rfl, by decide⟩

/-- C13, amended: with at least two passes of the loop allowed, for every type
that the type resolution does not resolve (no case of the switch matches the
type, nor its class bits when it has a bit outside the class mask)
`cosm_new_file` fails with `SC_ERROR_INVALID_ARGUMENTS`, and for every type that
resolves to a template name that the profile does not define it fails with
`SC_ERROR_NOT_SUPPORTED`; in both cases no descriptor is returned. -/
theorem cosm_new_file_error_kinds (c : Consts) (profile : Profile) (fuel type num : Nat)
    (hfuel : 2 ≤ fuel) :
    (two_step_resolve_type c type = none →
      cosm_new_file c profile fuel type num = some (Rv.err ScError.INVALID_ARGUMENTS, none))
    ∧ (∀ template ef e, two_step_resolve_type c type = some (template, ef) →
        profile.get_file template = .error e →
        cosm_new_file c profile fuel type num = some (Rv.err ScError.NOT_SUPPORTED, none)) := by
  have hres := cosm_new_file_resolve_two_step c fuel type hfuel
  refine ⟨?_, ?_⟩
  · intro h
    rw [h] at hres
    simp [cosm_new_file, hres]
  · intro template ef e h hfile
    rw [h] at hres
    simp [cosm_new_file, hres, hfile]

/-- Witness of C13, amended: the types `0x600` and `0x400` under the sample
constants and the sample profile. -/
theorem cosm_new_file_error_kinds_witness :
    two_step_resolve_type sample_consts 0x600 = none
    ∧ cosm_new_file sample_consts (sample_profile 16 0) 5 0x600 3
        = some (Rv.err ScError.INVALID_ARGUMENTS, none)
    ∧ two_step_resolve_type sample_consts 0x400 = some ("template-certificate", 0xFFFFFFFF)
    ∧ cosm_new_file sample_consts (sample_profile 16 0) 5 0x400 3
        = some (Rv.err ScError.NOT_SUPPORTED, none) :=
  ⟨by decide,
    (cosm_new_file_error_kinds sample_consts (sample_profile 16 0) 5 0x600 3 (by decide)).1
      (by decide),
    by decide,
    (cosm_new_file_error_kinds sample_consts (sample_profile 16 0) 5 0x400 3 (by decide)).2
      "template-certificate" 0xFFFFFFFF ScError.FILE_NOT_FOUND (by decide) (by rfl)⟩

/-- Counterexample to C20 as stated, under the sample constants: for the type
`DEVICE_SPECIFIC | PUBKEY_DSA` (`0x1202`) the three-step procedure of the spec
strips the device-specific bit and finds the DSA public key entry
(`template-public-key`), while the loop of `cosm_new_file` matches no case for
`0x1202`, strips to the class bits `0x200`, matches no case again and returns
`SC_ERROR_INVALID_ARGUMENTS`. -/
theorem cosm_new_file_resolve_device_specific_dsa :
    SC_DEVICE_SPECIFIC_TYPE ||| sample_consts.SC_PKCS15_TYPE_PUBKEY_DSA = 0x1202
    ∧ spec_resolve_type sample_consts 0x1202 = some ("template-public-key", 0xFFFFFFFF)
    ∧ cosm_new_file_switch sample_consts 0x1202 = none
    ∧ 0x1202 &&& sample_consts.SC_PKCS15_TYPE_CLASS_MASK = 0x200
    ∧ cosm_new_file_switch sample_consts 0x200 = none
    ∧ cosm_new_file_resolve sample_consts 2 0x1202 = some (.error ScError.INVALID_ARGUMENTS)
    ∧ cosm_new_file sample_consts (sample_profile 16 0) 2 0x1202 0
        = some (Rv.err ScError.INVALID_ARGUMENTS, none) := by
  refine ⟨by decide, by decide, by decide, by decide, by decide, by rfl, by decide⟩

/-- A device-specific type has the device-specific bit. -/
theorem device_specific_bit (x : Nat) :
    (SC_DEVICE_SPECIFIC_TYPE ||| x) &&& SC_DEVICE_SPECIFIC_TYPE ≠ 0 := by
  intro h
  have h12 := congrArg (fun n => Nat.testBit n 12) h
  simp only [Nat.testBit_and, Nat.testBit_or, Nat.zero_testBit] at h12
  have hd : Nat.testBit SC_DEVICE_SPECIFIC_TYPE 12 = true := by decide
  rw [hd] at h12
  simp at h12

/-- For a type without the device-specific bit, the table with the two
device-specific RSA types matches what the table of the spec matches. -/
theorem device_table_eq_spec_table (c : Consts) (type : Nat)
    (h : type &&& SC_DEVICE_SPECIFIC_TYPE = 0) :
    table_exact_match (device_type_table c) type = table_exact_match (spec_type_table c) type := by
  have n1 : COSM_TYPE_PRKEY_RSA c ≠ type := by
    intro e
    rw [← e] at h
    exact device_specific_bit _ h
  have n2 : COSM_TYPE_PUBKEY_RSA c ≠ type := by
    intro e
    rw [← e] at h
    exact device_specific_bit _ h
  unfold device_type_table spec_type_table
  by_cases h1 : c.SC_PKCS15_TYPE_PRKEY_RSA = type
  · rw [table_exact_match_head _ _ _ h1, table_exact_match_head _ _ _ h1]
  rw [table_exact_match_tail (c.SC_PKCS15_TYPE_PRKEY_RSA, _, _) _ _ h1,
    table_exact_match_tail (COSM_TYPE_PRKEY_RSA c, _, _) _ _ n1,
    table_exact_match_tail (c.SC_PKCS15_TYPE_PRKEY_RSA, _, _) _ _ h1]
  by_cases h3 : c.SC_PKCS15_TYPE_PUBKEY_RSA = type
  · rw [table_exact_match_head _ _ _ h3, table_exact_match_head _ _ _ h3]
  rw [table_exact_match_tail (c.SC_PKCS15_TYPE_PUBKEY_RSA, _, _) _ _ h3,
    table_exact_match_tail (COSM_TYPE_PUBKEY_RSA c, _, _) _ _ n2,
    table_exact_match_tail (c.SC_PKCS15_TYPE_PUBKEY_RSA, _, _) _ _ h3]

/-- C20, amended: with at least two passes of the loop allowed, the type
resolution of `cosm_new_file` equals the two-step reference procedure for every
type: (1) exact match against the table of RSA private key, RSA public key, DSA
public key, certificate and data object, in which the two RSA entries also
match their device-specific type; (2) for a type with a bit outside the
type-class mask, strip to the type-class bits and retry the exact match once;
otherwise fail with `SC_ERROR_INVALID_ARGUMENTS`. On every type without the
device-specific bit (and of 32 bits, as an `unsigned int` is) this is the
three-step procedure of the spec. -/
theorem cosm_new_file_resolve_refines (c : Consts) (fuel type : Nat) (hfuel : 2 ≤ fuel) :
    cosm_new_file_resolve c fuel type =
      some (match two_step_resolve_type c type with
        | some t => .ok t
        | none => .error ScError.INVALID_ARGUMENTS)
    ∧ (type < 4294967296 → type &&& SC_DEVICE_SPECIFIC_TYPE = 0 →
        two_step_resolve_type c type = spec_resolve_type c type) := by
  refine ⟨cosm_new_file_resolve_two_step c fuel type hfuel, ?_⟩
  intro h32 hdev
  have hmask : (type &&& c.SC_PKCS15_TYPE_CLASS_MASK) &&& SC_DEVICE_SPECIFIC_TYPE = 0 := by
    rw [Nat.and_assoc, Nat.and_comm c.SC_PKCS15_TYPE_CLASS_MASK, ← Nat.and_assoc, hdev,
      Nat.zero_and]
  unfold two_step_resolve_type spec_resolve_type
  rw [device_table_eq_spec_table c type hdev, device_table_eq_spec_table c _ hmask]
  simp only [hdev, ne_eq, not_true_eq_false, if_false]
  cases h1 : table_exact_match (spec_type_table c) type with
  | some t => rfl
  | none =>
    simp only
    by_cases hz : type &&& bnot32 c.SC_PKCS15_TYPE_CLASS_MASK = 0
    · have hsame : type &&& c.SC_PKCS15_TYPE_CLASS_MASK = type := by
        apply Nat.eq_of_testBit_eq
        intro i
        have hi := congrArg (fun n => Nat.testBit n i) hz
        simp only [Nat.testBit_and, testBit_bnot32, Nat.zero_testBit] at hi
        have hlt : type.testBit i = true → i < 32 := by
          intro ht
          by_contra hge
          have hpow : type < 2 ^ i :=
            Nat.lt_of_lt_of_le h32 (Nat.pow_le_pow_right (by decide) (by omega) : 2 ^ 32 ≤ 2 ^ i)
          rw [Nat.testBit_lt_two_pow hpow] at ht
          exact absurd ht (by simp)
        rw [Nat.testBit_and]
        cases ht : type.testBit i with
        | false => simp
        | true =>
          have h3 := hlt ht
          simp [ht, h3] at hi
          simp [hi]
      rw [if_pos hz, hsame, h1]
    · rw [if_neg hz]

/-- Witness of C20, amended: the device-specific RSA private key type `0x1101`
and the type `0x1202`, under the sample constants with three passes allowed. -/
theorem cosm_new_file_resolve_refines_witness :
    (2 ≤ 3)
    ∧ two_step_resolve_type sample_consts 0x1101 = some ("template-private-key", 0xA3)
    ∧ cosm_new_file_resolve sample_consts 3 0x1101 = some (.ok ("template-private-key", 0xA3))
    ∧ two_step_resolve_type sample_consts 0x1202 = none
    ∧ cosm_new_file_resolve sample_consts 3 0x1202
        = some (.error ScError.INVALID_ARGUMENTS) :=
  ⟨by decide, by decide,
    (cosm_new_file_resolve_refines sample_consts 3 0x1101 (by decide)).1.trans (by rfl),
    by decide,
    (cosm_new_file_resolve_refines sample_consts 3 0x1202 (by decide)).1.trans (by rfl)⟩

/-! ## The abort policy of `cosm_erase_card` -/

/-- C14, the failing input: with the sample profile, on the card
`sample_card_full` and a card that refuses the authentication on the DF of
`df_info` (`3F00 5015`) with the card error 1, the delete of `df_info->file`
fails with that error after the `DIR` step, and `cosm_erase_card` neither stops
nor returns it: it goes on to delete the private DF, the public DF and the
AppDF, resets the application registry and returns success, with the DF of
`df_info` still on the card. -/
theorem cosm_erase_card_ddf_failure_ignored :
    (cosm_delete_file (fileCardPrims ddf_refusing_oracle)
        (cosm_delete_file (fileCardPrims ddf_refusing_oracle) (sample_state sample_card_full)
          (sample_file [0x3F, 0x00, 0x2F, 0x00] 0x2F00 128 ScFileType.WORKING_EF)).2
        (sample_profile 16 0).df_info_file).1 = Rv.err (ScError.CARD 1)
    ∧ (cosm_erase_card (fileCardPrims ddf_refusing_oracle) (sample_profile 16 0)
        (sample_state sample_card_full)).1 = Rv.ok 0
    ∧ (cosm_erase_card (fileCardPrims ddf_refusing_oracle) (sample_profile 16 0)
        (sample_state sample_card_full)).2.trace
      = [ CardCmd.select [0x3F, 0x00],
          CardCmd.authenticate (sample_file [0x3F, 0x00] 0x3F00 0 ScFileType.DF) AcOp.DELETE,
          CardCmd.delete [0x2F, 0x00],
          CardCmd.authenticate sample_root_df AcOp.DELETE,
          CardCmd.authenticate
            (sample_file [0x3F, 0x00, 0x50, 0x11, 0x90, 0x02] 0x9002 0 ScFileType.DF) AcOp.DELETE,
          CardCmd.select [0x3F, 0x00, 0x50, 0x11],
          CardCmd.authenticate sample_appdf AcOp.DELETE,
          CardCmd.delete [0x90, 0x02],
          CardCmd.authenticate
            (sample_file [0x3F, 0x00, 0x50, 0x11, 0x90, 0x01] 0x9001 0 ScFileType.DF) AcOp.DELETE,
          CardCmd.select [0x3F, 0x00, 0x50, 0x11],
          CardCmd.authenticate sample_appdf AcOp.DELETE,
          CardCmd.delete [0x90, 0x01],
          CardCmd.authenticate sample_appdf AcOp.DELETE,
          CardCmd.select [0x3F, 0x00],
          CardCmd.authenticate (sample_file [0x3F, 0x00] 0x3F00 0 ScFileType.DF) AcOp.DELETE,
          CardCmd.delete [0x50, 0x11],
          CardCmd.free_apps ]
    ∧ (cosm_erase_card (fileCardPrims ddf_refusing_oracle) (sample_profile 16 0)
        (sample_state sample_card_full)).2.card.present [0x3F, 0x00, 0x50, 0x15] = true := by
  refine ⟨by decide, by decide, by decide, by decide⟩

/-- The three checked steps of `cosm_erase_card`: when the delete of `DIR`, of
the private DF or of the public DF fails with an error other than
`FILE_NOT_FOUND`, the erase ends in the state that this delete left and returns
that error. -/
theorem cosm_erase_card_checked_steps_abort {σ : Type} (P : CardPrims σ) (profile : Profile)
    (s : State σ) (dir : ScFile) (e : ScError) (he : e ≠ ScError.FILE_NOT_FOUND)
    (hfail : (cosm_delete_file P s dir).1 = Rv.err e) :
    (profile.get_file "DIR" = .ok dir →
      cosm_erase_card P profile s = (Rv.err e, (cosm_delete_file P s dir).2))
    ∧ (profile.get_file "private-DF" = .ok dir →
      cosm_erase_card_private P profile s = (Rv.err e, (cosm_delete_file P s dir).2))
    ∧ (profile.get_file "public-DF" = .ok dir →
      cosm_erase_card_public P profile s = (Rv.err e, (cosm_delete_file P s dir).2)) := by
  have habort : cosm_erase_abort (Rv.err e) = true := by
    simp [cosm_erase_abort, Rv.isErr, he]
  have hne : ¬ (Rv.err e = Rv.err ScError.FILE_NOT_FOUND) := by
    intro h
    exact he (Rv.err.inj h)
  refine ⟨?_, ?_, ?_⟩
  · intro h
    simp only [cosm_erase_card, h, hfail, habort, if_true, cosm_erase_done, hne, if_false]
  · intro h
    simp only [cosm_erase_card_private, h, hfail, habort, if_true, cosm_erase_done, hne, if_false]
  · intro h
    simp only [cosm_erase_card_public, h, hfail, habort, if_true, cosm_erase_done, hne, if_false]

/-- The unchecked step of `cosm_erase_card`: whatever the delete of
`df_info->file` returns, the erase goes on with the private DF from the state
that this delete left. -/
theorem cosm_erase_card_ddf_unchecked {σ : Type} (P : CardPrims σ) (profile : Profile)
    (s : State σ) :
    cosm_erase_card_ddf P profile s
      = cosm_erase_card_private P profile (cosm_delete_file P s profile.df_info_file).2 := rfl

/-! ## The order of the creates in `cosm_create_dir` -/

/-- The commands of `create_all`: one create for each file, in order; labels
and flags are kept. -/
theorem create_all_trace {σ : Type} (P : CardPrims σ) (fs : List ScFile) (s : State σ) :
    (create_all P fs s).trace = s.trace ++ fs.map CardCmd.create
    ∧ (create_all P fs s).label = s.label
    ∧ (create_all P fs s).flags = s.flags
    ∧ (create_all P fs s).p15_spec = s.p15_spec := by
  induction fs generalizing s with
  | nil => simp [create_all]
  | cons f fs ih =>
    obtain ⟨h1, h2, h3, h4⟩ := ih (sc_pkcs15init_create_file P s f).2
    simp only [create_all, h1, h2, h3, h4]
    simp [sc_pkcs15init_create_file]

/-- A create request after the creates of `pre`. -/
theorem create_all_snoc {σ : Type} (P : CardPrims σ) (pre : List ScFile) (f : ScFile)
    (s : State σ) :
    create_all P (pre ++ [f]) s = (sc_pkcs15init_create_file P (create_all P pre s) f).2 := by
  induction pre generalizing s with
  | nil => rfl
  | cons g pre ih => exact ih (sc_pkcs15init_create_file P s g).2

/-- The loop of `cosm_create_dir` over `names`: it issues the creates of the
templates `fs` of a prefix of `names`, in order, and either stops at the first
name without a template (`INCONSISTENT_PROFILE`), or stops after the first
create that fails with an error other than `FILE_ALREADY_EXISTS` and returns
that error, or has created every name. -/
theorem cosm_create_dir_loop_run {σ : Type} (P : CardPrims σ) (profile : Profile)
    (names : List String) (s : State σ) :
    ∃ fs : List ScFile,
      (names.take fs.length).map profile.get_file = fs.map Except.ok
      ∧ fs.length ≤ names.length
      ∧ ((∃ name e, names[fs.length]? = some name ∧ profile.get_file name = .error e
            ∧ cosm_create_dir_loop P profile names s
              = (Rv.err ScError.INCONSISTENT_PROFILE, create_all P fs s))
        ∨ (∃ pre f e, fs = pre ++ [f] ∧ e ≠ ScError.FILE_ALREADY_EXISTS
            ∧ (sc_pkcs15init_create_file P (create_all P pre s) f).1 = Rv.err e
            ∧ cosm_create_dir_loop P profile names s = (Rv.err e, create_all P fs s))
        ∨ (fs.length = names.length
            ∧ cosm_create_dir_loop P profile names s = (Rv.ok 0, create_all P fs s))) := by
  induction names generalizing s with
  | nil => exact ⟨[], rfl, Nat.le_refl _, Or.inr (Or.inr ⟨rfl, rfl⟩)⟩
  | cons name rest ih =>
    cases hf : profile.get_file name with
    | error e =>
      refine ⟨[], rfl, Nat.zero_le _, Or.inl ⟨name, e, by simp, hf, ?_⟩⟩
      simp [cosm_create_dir_loop, hf, create_all]
    | ok f =>
      by_cases hstop : (sc_pkcs15init_create_file P s f).1 ≠ Rv.err ScError.FILE_ALREADY_EXISTS
          ∧ (sc_pkcs15init_create_file P s f).1.isErr
      · obtain ⟨hne, herr⟩ := hstop
        cases hr : (sc_pkcs15init_create_file P s f).1 with
        | ok n => rw [hr] at herr; exact absurd herr (by simp [Rv.isErr])
        | err e =>
          have he : e ≠ ScError.FILE_ALREADY_EXISTS := by
            intro h
            rw [hr, h] at hne
            exact hne rfl
          refine ⟨[f], by simp [hf], by simp, Or.inr (Or.inl ⟨[], f, e, rfl, he, hr, ?_⟩)⟩
          have hcond : (sc_pkcs15init_create_file P s f).1 ≠ Rv.err ScError.FILE_ALREADY_EXISTS
              ∧ (sc_pkcs15init_create_file P s f).1.isErr := ⟨hne, herr⟩
          simp only [cosm_create_dir_loop, hf, if_pos hcond, create_all]
          rw [← hr]
      · obtain ⟨fs, h1, h2, h3⟩ := ih (sc_pkcs15init_create_file P s f).2
        have hloop : cosm_create_dir_loop P profile (name :: rest) s
            = cosm_create_dir_loop P profile rest (sc_pkcs15init_create_file P s f).2 := by
          simp only [cosm_create_dir_loop, hf, if_neg hstop]
        refine ⟨f :: fs, by simp [hf, h1], by simp; omega, ?_⟩
        rw [hloop]
        rcases h3 with ⟨nm, e, g1, g2, g3⟩ | ⟨pre, g, e, g1, g2, g3, g4⟩ | ⟨g1, g2⟩
        · exact Or.inl ⟨nm, e, by simpa using g1, g2, g3⟩
        · exact Or.inr (Or.inl ⟨f :: pre, g, e, by simp [g1], g2, g3, g4⟩)
        · exact Or.inr (Or.inr ⟨by simp [g1], g2⟩)

/-- The shapes of a run of `cosm_create_dir`: one create for the root
descriptor and then one create for the template of each name of a prefix of
`create_dfs`, ending after the root create, at a name without a template, after
a create with an error other than `FILE_ALREADY_EXISTS`, or with the TokenInfo
write after all eight. -/
theorem cosm_create_dir_run_shapes {σ : Type} (c : Consts) (P : CardPrims σ) (profile : Profile)
    (st : State σ) (df : ScFile) :
    create_dfs = ["OberthurAWP-AppDF", "private-DF", "public-DF", "OberthurAWP-token-info",
      "OberthurAWP-puk-file", "OberthurAWP-container-list", "OberthurAWP-public-list",
      "OberthurAWP-private-list"]
    ∧ (∃ fs : List ScFile,
      (create_dfs.take fs.length).map profile.get_file = fs.map Except.ok
      ∧ fs.length ≤ create_dfs.length
      ∧ (create_all P (df :: fs) st).trace = st.trace ++ (df :: fs).map CardCmd.create
      ∧ ((∃ e, (sc_pkcs15init_create_file P st df).1 = Rv.err e ∧ fs = []
            ∧ cosm_create_dir c P profile st df = (Rv.err e, create_all P [df] st))
        ∨ (∃ name e, create_dfs[fs.length]? = some name ∧ profile.get_file name = .error e
            ∧ cosm_create_dir c P profile st df
              = (Rv.err ScError.INCONSISTENT_PROFILE, create_all P (df :: fs) st))
        ∨ (∃ pre f e, fs = pre ++ [f] ∧ e ≠ ScError.FILE_ALREADY_EXISTS
            ∧ (sc_pkcs15init_create_file P (create_all P (df :: pre) st) f).1 = Rv.err e
            ∧ cosm_create_dir c P profile st df = (Rv.err e, create_all P (df :: fs) st))
        ∨ (fs.length = create_dfs.length
            ∧ cosm_create_dir c P profile st df
              = cosm_write_tokeninfo c P profile (create_all P (df :: fs) st) none
                  (c.SC_PKCS15_CARD_FLAG_TOKEN_INITIALIZED
                    ||| c.SC_PKCS15_CARD_FLAG_PRN_GENERATION))))
    ∧ (∀ (name : String) (rest : List String) (s : State σ) (f : ScFile),
        profile.get_file name = .ok f →
        (sc_pkcs15init_create_file P s f).1 = Rv.err ScError.FILE_ALREADY_EXISTS →
        cosm_create_dir_loop P profile (name :: rest) s
          = cosm_create_dir_loop P profile rest (sc_pkcs15init_create_file P s f).2) := by
  refine ⟨rfl, ?_, ?_⟩
  · cases hroot : (sc_pkcs15init_create_file P st df).1 with
    | err e =>
      refine ⟨[], rfl, Nat.zero_le _, (create_all_trace P [df] st).1, Or.inl ⟨e, rfl, rfl, ?_⟩⟩
      simp only [cosm_create_dir, hroot, isErr_err, if_true, create_all]
      rw [← hroot]
    | ok n =>
      obtain ⟨fs, h1, h2, h3⟩ := cosm_create_dir_loop_run P profile create_dfs
        (sc_pkcs15init_create_file P st df).2
      refine ⟨fs, h1, h2, (create_all_trace P (df :: fs) st).1, Or.inr ?_⟩
      have hdir : cosm_create_dir c P profile st df
          = if (cosm_create_dir_loop P profile create_dfs
                (sc_pkcs15init_create_file P st df).2).1.isErr
            then cosm_create_dir_loop P profile create_dfs (sc_pkcs15init_create_file P st df).2
            else cosm_write_tokeninfo c P profile
              (cosm_create_dir_loop P profile create_dfs
                (sc_pkcs15init_create_file P st df).2).2 none
              (c.SC_PKCS15_CARD_FLAG_TOKEN_INITIALIZED
                ||| c.SC_PKCS15_CARD_FLAG_PRN_GENERATION) := by
        simp only [cosm_create_dir, hroot, isErr_ok, Bool.false_eq_true, if_false]
      rw [hdir]
      rcases h3 with ⟨nm, e, g1, g2, g3⟩ | ⟨pre, g, e, g1, g2, g3, g4⟩ | ⟨g1, g2⟩
      · refine Or.inl ⟨nm, e, g1, g2, ?_⟩
        rw [g3]
        simp only [isErr_err, if_true, create_all]
      · refine Or.inr (Or.inl ⟨pre, g, e, g1, g2, g3, ?_⟩)
        rw [g4]
        simp only [isErr_err, if_true, create_all]
      · refine Or.inr (Or.inr ⟨g1, ?_⟩)
        rw [g2]
        simp only [isErr_ok, Bool.false_eq_true, if_false, create_all]
  · intro name rest s f hf hae
    simp [cosm_create_dir_loop, hf, hae]

/-- The order of the creates on a card that already holds the AppDF: with the
sample profile (TokenInfo file of 17 bytes), `cosm_create_dir` gets
`FILE_ALREADY_EXISTS` for the AppDF, goes on, and ends with the TokenInfo update
after the nine creates. -/
theorem cosm_create_dir_already_exists_sample :
    (cosm_create_dir sample_consts (fileCardPrims sample_oracle) (sample_profile 17 0)
        (sample_state sample_card_appdf)
        (sample_file [0x3F, 0x00, 0x50, 0x16] 0x5016 0 ScFileType.DF)).1 = Rv.ok 0
    ∧ (sc_pkcs15init_create_file (fileCardPrims sample_oracle)
        (sample_state sample_card_appdf) sample_appdf).1 = Rv.err ScError.FILE_ALREADY_EXISTS
    ∧ ((cosm_create_dir sample_consts (fileCardPrims sample_oracle) (sample_profile 17 0)
        (sample_state sample_card_appdf)
        (sample_file [0x3F, 0x00, 0x50, 0x16] 0x5016 0 ScFileType.DF)).2.trace.map
          (fun cmd => match cmd with
            | CardCmd.create f => some f.path
            | _ => none))
      = [ some [0x3F, 0x00, 0x50, 0x16],
          some [0x3F, 0x00, 0x50, 0x11],
          some [0x3F, 0x00, 0x50, 0x11, 0x90, 0x02],
          some [0x3F, 0x00, 0x50, 0x11, 0x90, 0x01],
          some [0x3F, 0x00, 0x50, 0x11, 0x10, 0x00],
          some [0x3F, 0x00, 0x50, 0x11, 0x20, 0x00],
          some [0x3F, 0x00, 0x50, 0x11, 0x30, 0x00],
          some [0x3F, 0x00, 0x50, 0x11, 0x90, 0x01, 0x40, 0x00],
          some [0x3F, 0x00, 0x50, 0x11, 0x90, 0x02, 0x50, 0x00],
          none ] := by
  refine ⟨by decide, by decide, by decide⟩

/-! ## The private key file of `cosm_create_key` -/

/-- The function `cosm_create_key` for an RSA key, by the private-key template
of the profile: without one it fails with `NOT_SUPPORTED` and issues nothing,
with one it probes, deletes and creates the file `create_key_file`. -/
theorem cosm_create_key_eq_probe {σ : Type} (c : Consts) (P : CardPrims σ) (profile : Profile)
    (fuel : Nat) (st : State σ) (key_info : PrkeyInfo) :
    cosm_create_key c P profile (fuel + 1) st c.SC_PKCS15_TYPE_PRKEY_RSA key_info =
      match profile.get_file "template-private-key" with
      | .error _ => some (Rv.err ScError.NOT_SUPPORTED, key_info, st)
      | .ok template =>
        some (cosm_create_key_probe P st (create_key_file c template key_info) key_info) := by
  cases htmpl : profile.get_file "template-private-key" with
  | error e =>
    simp [cosm_create_key, cosm_new_file, cosm_new_file_resolve, cosm_new_file_switch, htmpl]
  | ok template =>
    have hnew : cosm_new_file c profile (fuel + 1) c.SC_PKCS15_TYPE_PRKEY_RSA
        key_info.key_reference
        = some (Rv.ok 0, some
            { template with
              id := template.id ||| (key_info.key_reference &&& 0xFF)
              path := path_update template.path (template.path.length - 1)
                (fun b => b ||| (key_info.key_reference &&& 0xFF))
              ef_structure :=
                if template.type = ScFileType.INTERNAL_EF then c.SC_CARDCTL_OBERTHUR_KEY_RSA_CRT
                else template.ef_structure }) := by
      by_cases hty : template.type = ScFileType.INTERNAL_EF <;>
        simp [cosm_new_file, cosm_new_file_resolve, cosm_new_file_switch, htmpl, hty, SC_SUCCESS]
    simp only [cosm_create_key, ne_eq, not_true_eq_false, if_false, hnew, isErr_ok,
      Bool.false_eq_true, cosm_create_key_probe, create_key_file]
    split_ifs <;> rfl

/-- The commands of `cosm_delete_file`: at least one, and no create. -/
theorem cosm_delete_file_trace {σ : Type} (P : CardPrims σ) (s : State σ) (df : ScFile) :
    ∃ cmds, (cosm_delete_file P s df).2.trace = s.trace ++ cmds ∧ cmds ≠ []
      ∧ ∀ f, CardCmd.create f ∉ cmds := by
  have hpar : ∀ s : State σ, ∃ cmds,
      (cosm_delete_file_in_parent P s df).2.trace = s.trace ++ cmds ∧ cmds ≠ []
        ∧ ∀ f, CardCmd.create f ∉ cmds := by
    intro s
    unfold cosm_delete_file_in_parent
    simp only
    split
    · exact ⟨[CardCmd.select (df.path.take (df.path.length - 2))],
        by simp [sc_select_file], by simp, by simp⟩
    · split
      · exact ⟨[CardCmd.select (df.path.take (df.path.length - 2)),
            CardCmd.authenticate (sc_select_file P s (df.path.take (df.path.length - 2))).2.1
              AcOp.DELETE],
          by simp [sc_select_file, sc_pkcs15init_authenticate], by simp, by simp⟩
      · exact ⟨[CardCmd.select (df.path.take (df.path.length - 2)),
            CardCmd.authenticate (sc_select_file P s (df.path.take (df.path.length - 2))).2.1
              AcOp.DELETE,
            CardCmd.delete [(df.id >>> 8) % 256, df.id &&& 0xFF]],
          by simp [sc_select_file, sc_pkcs15init_authenticate, sc_delete_file], by simp, by simp⟩
  unfold cosm_delete_file
  split
  · simp only
    split
    · exact ⟨[CardCmd.authenticate df AcOp.DELETE],
        by simp [sc_pkcs15init_authenticate], by simp, by simp⟩
    · obtain ⟨cmds, h1, h2, h3⟩ := hpar (sc_pkcs15init_authenticate P s df AcOp.DELETE).2
      refine ⟨CardCmd.authenticate df AcOp.DELETE :: cmds, ?_, by simp, ?_⟩
      · rw [h1]
        simp [sc_pkcs15init_authenticate]
      · intro f hf
        simp only [List.mem_cons] at hf
        rcases hf with hf | hf
        · cases hf
        · exact h3 f hf
  · exact hpar s

/-- The create of `cosm_create_key`: one create of `file`; when it does not
fail, the key reference becomes the last byte of the path of `file`. Result and
state do not depend on the key information passed in. -/
theorem cosm_create_key_tail_spec {σ : Type} (P : CardPrims σ) (s : State σ) (file : ScFile)
    (ki : PrkeyInfo) :
    (cosm_create_key_tail P s file ki).2.2.trace = s.trace ++ [CardCmd.create file]
    ∧ ((cosm_create_key_tail P s file ki).1.isErr = false →
        (cosm_create_key_tail P s file ki).2.1.key_reference
          = file.path.getD (file.path.length - 1) 0)
    ∧ (cosm_create_key_tail P s file ki).1 = (sc_pkcs15init_create_file P s file).1
    ∧ (cosm_create_key_tail P s file ki).2.2 = (sc_pkcs15init_create_file P s file).2 := by
  by_cases h : (P.create_file s.card file).1.isErr = true
  · simp [cosm_create_key_tail, sc_pkcs15init_create_file, h]
  · simp [cosm_create_key_tail, sc_pkcs15init_create_file, h]

/-- The probe, delete and create of `cosm_create_key` for the file `file`: the
only create among the commands is the one of `file`; a call that does not fail
ends with that create and sets the key reference to the last byte of the path
of `file`; result and state do not depend on the key information passed in. -/
theorem cosm_create_key_probe_spec {σ : Type} (P : CardPrims σ) (s : State σ) (file : ScFile)
    (ki : PrkeyInfo) :
    ∃ new, (cosm_create_key_probe P s file ki).2.2.trace = s.trace ++ new
      ∧ (∀ f, CardCmd.create f ∈ new → f = file)
      ∧ ((cosm_create_key_probe P s file ki).1.isErr = false →
          (cosm_create_key_probe P s file ki).2.1.key_reference
            = file.path.getD (file.path.length - 1) 0
          ∧ new.getLast? = some (CardCmd.create file))
      ∧ (∀ ki2, (cosm_create_key_probe P s file ki2).1 = (cosm_create_key_probe P s file ki).1
          ∧ (cosm_create_key_probe P s file ki2).2.2
            = (cosm_create_key_probe P s file ki).2.2) := by
  have hsel : (sc_select_file P s file.path).2.2.trace = s.trace ++ [CardCmd.select file.path] :=
    rfl
  by_cases h0 : (sc_select_file P s file.path).1 = Rv.ok 0
  · obtain ⟨dels, hd1, hd2, hd3⟩ :=
      cosm_delete_file_trace P (sc_select_file P s file.path).2.2 file
    rw [hsel] at hd1
    by_cases hd : (cosm_delete_file P (sc_select_file P s file.path).2.2 file).1.isErr = true
    · have hx : ∀ k, cosm_create_key_probe P s file k
          = ((cosm_delete_file P (sc_select_file P s file.path).2.2 file).1, k,
              (cosm_delete_file P (sc_select_file P s file.path).2.2 file).2) := by
        intro k
        simp only [cosm_create_key_probe, h0, hd, if_true]
      refine ⟨CardCmd.select file.path :: dels, ?_, ?_, ?_, ?_⟩
      · rw [hx, hd1]; simp
      · intro f hf
        simp only [List.mem_cons] at hf
        rcases hf with hf | hf
        · cases hf
        · exact absurd hf (hd3 f)
      · intro hok
        rw [hx] at hok
        simp only at hok
        rw [hd] at hok
        exact absurd hok (by simp)
      · intro k
        rw [hx k, hx ki]
        exact ⟨rfl, rfl⟩
    · have hx : ∀ k, cosm_create_key_probe P s file k
          = cosm_create_key_tail P
              (cosm_delete_file P (sc_select_file P s file.path).2.2 file).2 file k := by
        intro k
        simp only [cosm_create_key_probe, h0, hd, if_true, Bool.false_eq_true, if_false]
      have ht := fun k => cosm_create_key_tail_spec P
        (cosm_delete_file P (sc_select_file P s file.path).2.2 file).2 file k
      refine ⟨CardCmd.select file.path :: dels ++ [CardCmd.create file], ?_, ?_, ?_, ?_⟩
      · rw [hx, (ht ki).1, hd1]; simp
      · intro f hf
        simp only [List.mem_append, List.mem_cons, List.mem_singleton, List.not_mem_nil,
          or_false] at hf
        rcases hf with (hf | hf) | hf
        · cases hf
        · exact absurd hf (hd3 f)
        · exact CardCmd.create.inj hf
      · intro hok
        rw [hx] at hok ⊢
        exact ⟨(ht ki).2.1 hok, List.getLast?_concat _⟩
      · intro k
        rw [hx k, hx ki, (ht k).2.2.1, (ht k).2.2.2, (ht ki).2.2.1, (ht ki).2.2.2]
        exact ⟨rfl, rfl⟩
  · by_cases h1 : (sc_select_file P s file.path).1 ≠ Rv.err ScError.FILE_NOT_FOUND
        ∧ (sc_select_file P s file.path).1.isErr = true
    · have hx : ∀ k, cosm_create_key_probe P s file k
          = ((sc_select_file P s file.path).1, k, (sc_select_file P s file.path).2.2) := by
        intro k
        simp only [cosm_create_key_probe, h0, h1, if_false, if_true, ne_eq, not_false_eq_true,
          and_self]
      refine ⟨[CardCmd.select file.path], ?_, ?_, ?_, ?_⟩
      · rw [hx, hsel]
      · intro f hf
        simp only [List.mem_singleton] at hf
        cases hf
      · intro hok
        rw [hx] at hok
        simp only at hok
        rw [h1.2] at hok
        exact absurd hok (by simp)
      · intro k
        rw [hx k, hx ki]
        exact ⟨rfl, rfl⟩
    · have hx : ∀ k, cosm_create_key_probe P s file k
          = cosm_create_key_tail P (sc_select_file P s file.path).2.2 file k := by
        intro k
        simp only [cosm_create_key_probe, h0, if_false, if_neg h1]
      have ht := fun k => cosm_create_key_tail_spec P (sc_select_file P s file.path).2.2 file k
      refine ⟨[CardCmd.select file.path, CardCmd.create file], ?_, ?_, ?_, ?_⟩
      · rw [hx, (ht ki).1, hsel]; simp
      · intro f hf
        simp only [List.mem_cons, List.mem_singleton, List.not_mem_nil, or_false] at hf
        rcases hf with hf | hf
        · cases hf
        · exact CardCmd.create.inj hf
      · intro hok
        rw [hx] at hok ⊢
        exact ⟨(ht ki).2.1 hok, by simp⟩
      · intro k
        rw [hx k, hx ki, (ht k).2.2.1, (ht k).2.2.2, (ht ki).2.2.1, (ht ki).2.2.2]
        exact ⟨rfl, rfl⟩

/-- The last two bytes of a path that ends with `a`, `b`. -/
theorem last_two_getD (pre : List Nat) (a b : Nat) :
    (pre ++ [a, b]).getD ((pre ++ [a, b]).length - 2) 0 = a
    ∧ (pre ++ [a, b]).getD ((pre ++ [a, b]).length - 1) 0 = b := by
  simp only [List.length_append, List.length_cons, List.length_nil, List.getD_eq_getElem?_getD]
  rw [show pre.length + (0 + 1 + 1) - 2 = pre.length by omega,
    show pre.length + (0 + 1 + 1) - 1 = pre.length + 1 by omega,
    List.getElem?_append_right (by omega), List.getElem?_append_right (by omega)]
  simp

/-- The commands of `cosm_create_key` for an RSA key whose path ends with the
bytes `a`, `b`: the call returns, every create among its commands is for a file
with the path of the key, the id `a * 256 + b` and the modulus length as size,
a call that does not fail ends with a create and leaves `b` as the key
reference, and result and state are the same for every slot number. -/
theorem cosm_create_key_commands {σ : Type} (c : Consts) (P : CardPrims σ)
    (profile : Profile) (fuel : Nat) (st : State σ) (key_info : PrkeyInfo)
    (pre : List Nat) (a b : Nat) (hfuel : 1 ≤ fuel) (hpath : key_info.path = pre ++ [a, b]) :
    ∃ r new, cosm_create_key c P profile fuel st c.SC_PKCS15_TYPE_PRKEY_RSA key_info = some r
      ∧ r.2.2.trace = st.trace ++ new
      ∧ (∀ f, CardCmd.create f ∈ new →
          f.path = key_info.path ∧ f.id = a * 256 + b ∧ f.size = key_info.modulus_length)
      ∧ (r.1.isErr = false →
          r.2.1.key_reference = b ∧ ∃ f, new.getLast? = some (CardCmd.create f))
      ∧ (∀ n, (cosm_create_key c P profile fuel st c.SC_PKCS15_TYPE_PRKEY_RSA
            { key_info with key_reference := n }).map (fun x => (x.1, x.2.2))
          = some (r.1, r.2.2))
      ∧ (∀ template, profile.get_file "template-private-key" = .ok template →
          ((sc_select_file P st key_info.path).1 = Rv.err ScError.FILE_NOT_FOUND →
            r = cosm_create_key_tail P (sc_select_file P st key_info.path).2.2
              (create_key_file c template key_info) key_info)
          ∧ ((sc_select_file P st key_info.path).1 = Rv.ok 0 →
            r = (if (cosm_delete_file P (sc_select_file P st key_info.path).2.2
                    (create_key_file c template key_info)).1.isErr
                then ((cosm_delete_file P (sc_select_file P st key_info.path).2.2
                      (create_key_file c template key_info)).1, key_info,
                    (cosm_delete_file P (sc_select_file P st key_info.path).2.2
                      (create_key_file c template key_info)).2)
                else cosm_create_key_tail P
                  (cosm_delete_file P (sc_select_file P st key_info.path).2.2
                    (create_key_file c template key_info)).2
                  (create_key_file c template key_info) key_info))) := by
  obtain ⟨k, rfl⟩ : ∃ k, fuel = k + 1 := ⟨fuel - 1, by omega⟩
  have heq := fun ki => cosm_create_key_eq_probe c P profile k st ki
  cases htmpl : profile.get_file "template-private-key" with
  | error e =>
    simp only [htmpl] at heq
    refine ⟨(Rv.err ScError.NOT_SUPPORTED, key_info, st), [], heq key_info, by simp, ?_, ?_, ?_, ?_⟩
    · intro f hf
      cases hf
    · intro hok
      exact absurd hok (by simp [Rv.isErr])
    · intro n
      rw [heq]
      rfl
    · intro template h
      cases h
  | ok template =>
    simp only [htmpl] at heq
    have hfp : (create_key_file c template key_info).path = key_info.path := rfl
    have hfid : (create_key_file c template key_info).id = a * 256 + b := by
      simp only [create_key_file, hpath, (last_two_getD pre a b).1, (last_two_getD pre a b).2]
    have hfs : (create_key_file c template key_info).size = key_info.modulus_length := rfl
    have hlast : (create_key_file c template key_info).path.getD
        ((create_key_file c template key_info).path.length - 1) 0 = b := by
      rw [hfp, hpath]
      exact (last_two_getD pre a b).2
    obtain ⟨new, h1, h2, h3, h4⟩ :=
      cosm_create_key_probe_spec P st (create_key_file c template key_info) key_info
    refine ⟨cosm_create_key_probe P st (create_key_file c template key_info) key_info, new,
      heq key_info, h1, ?_, ?_, ?_, ?_⟩
    · intro f hf
      rw [h2 f hf]
      exact ⟨hfp, hfid, hfs⟩
    · intro hok
      obtain ⟨g1, g2⟩ := h3 hok
      exact ⟨g1.trans hlast, _, g2⟩
    · intro n
      rw [heq]
      have hsame : create_key_file c template { key_info with key_reference := n }
          = create_key_file c template key_info := rfl
      rw [hsame]
      obtain ⟨g1, g2⟩ := h4 { key_info with key_reference := n }
      simp only [Option.map_some', g1, g2]
    · intro template2 h
      cases h
      refine ⟨?_, ?_⟩
      · intro hfnf
        simp only [cosm_create_key_probe, hfp, hfnf]
        simp
      · intro hok
        simp only [cosm_create_key_probe, hfp, hok, if_true]

/-- A run of `cosm_create_key` under the sample profile: on the card that holds a
file at the path of the key, the probe finds it, the file is deleted in its
parent DF and created again with id `0x3001` and size 1024; the call returns
success and the key reference is `0x01`. -/
theorem cosm_create_key_sample_run :
    (cosm_create_key sample_consts (fileCardPrims sample_oracle) (sample_profile 16 0)
        2 (sample_state sample_card_key) sample_consts.SC_PKCS15_TYPE_PRKEY_RSA
        sample_key_info).map (fun r => (r.1, r.2.1.key_reference, r.2.2.trace))
      = some (Rv.ok 0, 0x01,
          [ CardCmd.select [0x3F, 0x00, 0x50, 0x11, 0x90, 0x02, 0x30, 0x01],
            CardCmd.select [0x3F, 0x00, 0x50, 0x11, 0x90, 0x02],
            CardCmd.authenticate
              (sample_file [0x3F, 0x00, 0x50, 0x11, 0x90, 0x02] 0x9002 0 ScFileType.DF)
              AcOp.DELETE,
            CardCmd.delete [0x30, 0x01],
            CardCmd.create
              { sample_prkey_template with
                path := [0x3F, 0x00, 0x50, 0x11, 0x90, 0x02, 0x30, 0x01]
                id := 0x3001
                size := 1024
                ef_structure := 0xA3 } ]) := by
  decide

/-! ## The temporary public key file -/

/-- The ACL entry that `sc_file_get_acl_entry` returns for `op` is an entry
for `op`. -/
theorem sc_file_get_acl_entry_op (file : ScFile) (op : AcOp) :
    (sc_file_get_acl_entry file op).op = op := by
  unfold sc_file_get_acl_entry
  cases h : file.acl.find? (fun e => e.op = op) with
  | none => rfl
  | some e =>
    have := List.find?_some h
    simpa using this

/-- C21: for a private key file with a path of at least two bytes,
`cosm_get_temporary_public_key_file` returns success and a file with id
`0x1012`, the size of the private key file, and a path of the same length that
agrees with the path of the private key file before its last two bytes, which
are `0x10` and `0x12`; so the id is the big-endian value of the last two path
bytes and the parent path is the one of the private key file. Its ACL entry for
`UPDATE` is the one of the private key file, and its entries for `PSO_ENCRYPT`,
`PSO_VERIFY_SIGNATURE` and `EXTERNAL_AUTHENTICATE` have the method `SC_AC_NONE`. -/
theorem cosm_get_temporary_public_key_file_descriptor (c : Consts) (prkf : ScFile)
    (hlen : 2 ≤ prkf.path.length) :
    (cosm_get_temporary_public_key_file c prkf).1 = Rv.ok 0
    ∧ (cosm_get_temporary_public_key_file c prkf).2.id = 0x1012
    ∧ (cosm_get_temporary_public_key_file c prkf).2.size = prkf.size
    ∧ (cosm_get_temporary_public_key_file c prkf).2.path.length = prkf.path.length
    ∧ (∀ i, i < prkf.path.length - 2 →
        (cosm_get_temporary_public_key_file c prkf).2.path[i]? = prkf.path[i]?)
    ∧ (cosm_get_temporary_public_key_file c prkf).2.path[prkf.path.length - 2]? = some 0x10
    ∧ (cosm_get_temporary_public_key_file c prkf).2.path[prkf.path.length - 1]? = some 0x12
    ∧ (cosm_get_temporary_public_key_file c prkf).2.id
        = (cosm_get_temporary_public_key_file c prkf).2.path.getD (prkf.path.length - 2) 0 * 256
          + (cosm_get_temporary_public_key_file c prkf).2.path.getD (prkf.path.length - 1) 0
    ∧ (cosm_get_temporary_public_key_file c prkf).2.path.take (prkf.path.length - 2)
        = prkf.path.take (prkf.path.length - 2)
    ∧ sc_file_get_acl_entry (cosm_get_temporary_public_key_file c prkf).2 AcOp.UPDATE
        = sc_file_get_acl_entry prkf AcOp.UPDATE
    ∧ sc_file_get_acl_entry (cosm_get_temporary_public_key_file c prkf).2 AcOp.PSO_ENCRYPT
        = { op := AcOp.PSO_ENCRYPT, method := AcMethod.NONE, key_ref := 0 }
    ∧ sc_file_get_acl_entry (cosm_get_temporary_public_key_file c prkf).2
          AcOp.PSO_VERIFY_SIGNATURE
        = { op := AcOp.PSO_VERIFY_SIGNATURE, method := AcMethod.NONE, key_ref := 0 }
    ∧ sc_file_get_acl_entry (cosm_get_temporary_public_key_file c prkf).2
          AcOp.EXTERNAL_AUTHENTICATE
        = { op := AcOp.EXTERNAL_AUTHENTICATE, method := AcMethod.NONE, key_ref := 0 } := by
  obtain ⟨h1, h2, h3, _, h5⟩ := cosm_get_temporary_public_key_file_fields c prkf hlen
  have hpl : (prkf.path.take (prkf.path.length - 2)).length = prkf.path.length - 2 := by
    rw [List.length_take]; omega
  have hacl : (cosm_get_temporary_public_key_file c prkf).2.acl
      = [ { op := AcOp.UPDATE, method := (sc_file_get_acl_entry prkf AcOp.UPDATE).method,
            key_ref := (sc_file_get_acl_entry prkf AcOp.UPDATE).key_ref },
          { op := AcOp.PSO_ENCRYPT, method := AcMethod.NONE, key_ref := 0 },
          { op := AcOp.PSO_VERIFY_SIGNATURE, method := AcMethod.NONE, key_ref := 0 },
          { op := AcOp.EXTERNAL_AUTHENTICATE, method := AcMethod.NONE, key_ref := 0 } ] := by
    simp [cosm_get_temporary_public_key_file, sc_file_add_acl_entry, sc_file_new]
  refine ⟨h1, h2, h5, ?_, ?_, ?_, ?_, ?_, ?_, ?_, ?_, ?_, ?_⟩
  · rw [h3, List.length_append, hpl]
    simp; omega
  · intro i hi
    rw [h3, List.getElem?_append_left (by omega), List.getElem?_take]
    simp [hi]
  · rw [h3, List.getElem?_append_right (by omega), hpl]
    simp
  · rw [h3, List.getElem?_append_right (by omega), hpl,
      show prkf.path.length - 1 - (prkf.path.length - 2) = 1 by omega]
    rfl
  · rw [h2, h3, List.getD_eq_getElem?_getD, List.getD_eq_getElem?_getD,
      List.getElem?_append_right (by omega), List.getElem?_append_right (by omega), hpl,
      show prkf.path.length - 1 - (prkf.path.length - 2) = 1 by omega]
    simp
  · rw [h3]
    have htl : List.take (prkf.path.take (prkf.path.length - 2)).length
        (prkf.path.take (prkf.path.length - 2) ++ [0x10, 0x12])
        = prkf.path.take (prkf.path.length - 2) := List.take_left _ _
    rw [hpl] at htl
    exact htl
  · have hop := sc_file_get_acl_entry_op prkf AcOp.UPDATE
    rw [sc_file_get_acl_entry, hacl]
    simp only [List.find?, decide_True, Option.getD_some]
    cases hentry : sc_file_get_acl_entry prkf AcOp.UPDATE with
    | mk op method key_ref =>
      rw [hentry] at hop
      simp only at hop
      simp [hop]
  · rw [sc_file_get_acl_entry, hacl]
    simp [List.find?]
  · rw [sc_file_get_acl_entry, hacl]
    simp [List.find?]
  · rw [sc_file_get_acl_entry, hacl]
    simp [List.find?]

/-- Witness of C21: the private key file `3F00 5011 9002 3001` of 1024 bits,
whose temporary public key file is `3F00 5011 9002 1012`. -/
theorem cosm_get_temporary_public_key_file_descriptor_witness :
    2 ≤ sample_key_file.path.length
    ∧ (cosm_get_temporary_public_key_file sample_consts sample_key_file).1 = Rv.ok 0
    ∧ (cosm_get_temporary_public_key_file sample_consts sample_key_file).2.id = 0x1012
    ∧ (cosm_get_temporary_public_key_file sample_consts sample_key_file).2.size
        = sample_key_file.size
    ∧ (cosm_get_temporary_public_key_file sample_consts sample_key_file).2.path
        = [0x3F, 0x00, 0x50, 0x11, 0x90, 0x02, 0x10, 0x12]
    ∧ sc_file_get_acl_entry (cosm_get_temporary_public_key_file sample_consts sample_key_file).2
          AcOp.UPDATE
        = sc_file_get_acl_entry sample_key_file AcOp.UPDATE :=
  ⟨by decide,
    (cosm_get_temporary_public_key_file_descriptor sample_consts sample_key_file (by decide)).1,
    (cosm_get_temporary_public_key_file_descriptor sample_consts sample_key_file
      (by decide)).2.1,
    (cosm_get_temporary_public_key_file_descriptor sample_consts sample_key_file
      (by decide)).2.2.1,
    by decide,
    (cosm_get_temporary_public_key_file_descriptor sample_consts sample_key_file
      (by decide)).2.2.2.2.2.2.2.2.2.1⟩

/-! ## The PUK passed by the caller -/

/-- C22: the PUK that the caller passes to `cosm_create_reference_data` never
reaches the card. Two calls that differ only in the PUK bytes, both non-empty,
return the same result in the same state: the same commands with the same
arguments are in the trace (the select, the create-pin request with its type,
reference, pin, pin tries, puk, puk length and puk tries, and the update of the
PUK-file with its bytes), and the card is in the same state. The same holds
for a call without PUK. -/
theorem cosm_create_reference_data_puk_unused {σ : Type} (c : Consts) (P : CardPrims σ)
    (profile : Profile) (st : State σ) (pinfo : PinInfo) (pin : Option (List Nat))
    (puk1 puk2 : List Nat) (h1 : puk1 ≠ []) (h2 : puk2 ≠ []) :
    cosm_create_reference_data c P profile st pinfo pin (some puk1)
        = cosm_create_reference_data c P profile st pinfo pin (some puk2)
    ∧ (cosm_create_reference_data c P profile st pinfo pin (some puk1)).2.trace
        = (cosm_create_reference_data c P profile st pinfo pin (some puk2)).2.trace
    ∧ cosm_create_reference_data c P profile st pinfo pin (some puk1)
        = cosm_create_reference_data c P profile st pinfo pin none := by
  have e1 : ¬ (Option.map List.length (some puk1) = some 0) := by
    simp [h1]
  have e2 : ¬ (Option.map List.length (some puk2) = some 0) := by
    simp [h2]
  have e0 : ¬ (Option.map List.length (none : Option (List Nat)) = some 0) := by
    simp
  have key : ∀ puk : Option (List Nat), ¬ (Option.map List.length puk = some 0) →
      cosm_create_reference_data c P profile st pinfo pin puk
        = cosm_create_reference_data c P profile st pinfo pin none := by
    intro puk hp
    cases pin with
    | none => rfl
    | some pinv => simp only [cosm_create_reference_data, hp, e0, if_false]
  rw [key _ e1, key _ e2]
  exact ⟨rfl, rfl, rfl⟩

/-- Witness of C22: the local user pin of the sample, the PIN `1234` and the
PUKs `9` and `7 7` under the sample profile with three PUK tries, on the card
that holds the AppDF: both calls issue the select, the same create-pin request
with the built-in PUK and the update of the PUK-file with the built-in PUK. -/
theorem cosm_create_reference_data_puk_unused_witness :
    ([9] : List Nat) ≠ [] ∧ ([7, 7] : List Nat) ≠ []
    ∧ cosm_create_reference_data sample_consts (fileCardPrims sample_oracle)
          (sample_profile 16 3) (sample_state sample_card_appdf) sample_user_pin
          (some [0x31, 0x32, 0x33, 0x34]) (some [9])
        = cosm_create_reference_data sample_consts (fileCardPrims sample_oracle)
          (sample_profile 16 3) (sample_state sample_card_appdf) sample_user_pin
          (some [0x31, 0x32, 0x33, 0x34]) (some [7, 7])
    ∧ (cosm_create_reference_data sample_consts (fileCardPrims sample_oracle)
          (sample_profile 16 3) (sample_state sample_card_appdf) sample_user_pin
          (some [0x31, 0x32, 0x33, 0x34]) (some [9])).2.trace
        = [ CardCmd.select [0x3F, 0x00, 0x50, 0x11],
            CardCmd.ctl_create_pin
              { type := AcMethod.CHV, ref := 0x81, pin := [0x31, 0x32, 0x33, 0x34], pin_len := 4,
                pin_tries := 3, puk := some oberthur_puk, puk_len := 16, puk_tries := 5 },
            CardCmd.update
              (sample_file [0x3F, 0x00, 0x50, 0x11, 0x20, 0x00] 0x2000 16 ScFileType.WORKING_EF)
              oberthur_puk ] :=
  ⟨by decide, by decide,
    (cosm_create_reference_data_puk_unused sample_consts (fileCardPrims sample_oracle)
      (sample_profile 16 3) (sample_state sample_card_appdf) sample_user_pin
      (some [0x31, 0x32, 0x33, 0x34]) [9] [7, 7] (by decide) (by decide)).1,
    by decide⟩

/-! ## References from `cosm_select_pin_reference` in `cosm_create_pin` -/

/-- The credential after `cosm_select_pin_reference` when the profile defines
the AppDF and no reference was assigned. -/
theorem cosm_select_pin_reference_unassigned (c : Consts) (profile : Profile)
    (pin_info : PinInfo) (appdf : ScFile)
    (happ : profile.get_file "OberthurAWP-AppDF" = .ok appdf) (href : pin_info.reference ≤ 0) :
    (cosm_select_pin_reference c profile pin_info).1 = SC_SUCCESS
    ∧ (cosm_select_pin_reference c profile pin_info).2.flags = pin_info.flags
    ∧ (cosm_select_pin_reference c profile pin_info).2.reference =
        (((if pin_info.flags &&& c.SC_PKCS15_PIN_FLAG_SO_PIN ≠ 0 then 4
            else if pin_info.flags &&& c.SC_PKCS15_PIN_FLAG_UNBLOCKING_PIN ≠ 0 then 4 else 1)
          ||| (if pin_info.flags &&& c.SC_PKCS15_PIN_FLAG_LOCAL ≠ 0 then 0x80 else 0) : Nat)
          : Int) := by
  by_cases hso : pin_info.flags &&& c.SC_PKCS15_PIN_FLAG_SO_PIN = 0 <;>
  by_cases hun : pin_info.flags &&& c.SC_PKCS15_PIN_FLAG_UNBLOCKING_PIN = 0 <;>
  by_cases hlo : pin_info.flags &&& c.SC_PKCS15_PIN_FLAG_LOCAL = 0 <;>
  simp [cosm_select_pin_reference, happ, href, hso, hun, hlo]

/-- Past the table of `cosm_create_pin`: with the AppDF defined, not both role
flags and the required reference, the call returns success or
`INVALID_ARGUMENTS`, or it has issued a command. -/
theorem cosm_create_pin_past_table {σ : Type} (c : Consts) (P : CardPrims σ)
    (profile : Profile) (st : State σ) (pi1 : PinInfo) (pin puk : Option (List Nat))
    (appdf : ScFile) (happ : profile.get_file "OberthurAWP-AppDF" = .ok appdf)
    (hboth : ¬ (pi1.flags &&& c.SC_PKCS15_PIN_FLAG_SO_PIN ≠ 0
      ∧ pi1.flags &&& c.SC_PKCS15_PIN_FLAG_UNBLOCKING_PIN ≠ 0))
    (href : pi1.reference =
      (if pi1.flags &&& c.SC_PKCS15_PIN_FLAG_SO_PIN ≠ 0 then 4
        else if pi1.flags &&& c.SC_PKCS15_PIN_FLAG_UNBLOCKING_PIN ≠ 0 then 0x84 else 0x81)) :
    ((cosm_create_pin c P profile st pi1 pin puk).1 = Rv.ok 0
      ∨ (cosm_create_pin c P profile st pi1 pin puk).1 = Rv.err ScError.INVALID_ARGUMENTS)
    ∨ st.trace.length < (cosm_create_pin c P profile st pi1 pin puk).2.2.trace.length := by
  have hflags : (if pi1.flags &&& c.SC_PKCS15_PIN_FLAG_LOCAL ≠ 0
      then { pi1 with path := appdf.path } else pi1).flags = pi1.flags := by
    split <;> rfl
  have hrefs : (if pi1.flags &&& c.SC_PKCS15_PIN_FLAG_LOCAL ≠ 0
      then { pi1 with path := appdf.path } else pi1).reference = pi1.reference := by
    split <;> rfl
  rw [cosm_create_pin_cases c P profile st pi1 pin puk appdf happ, if_neg hboth,
    if_neg (not_not.mpr href)]
  generalize (if pi1.flags &&& c.SC_PKCS15_PIN_FLAG_LOCAL ≠ 0
      then { pi1 with path := appdf.path } else pi1) = pi2 at hflags hrefs
  by_cases hp : pin = none ∨ pin = some []
  · rw [if_pos hp]
    exact Or.inl (Or.inl rfl)
  · rw [if_neg hp]
    by_cases hso : pi1.flags &&& c.SC_PKCS15_PIN_FLAG_SO_PIN = 0
    · rcases cosm_update_pin_trace c P profile st pi2 pin puk (by rw [hflags]; exact hso)
        with h | h
      · left; right; rw [h]
      · right; exact h
    · have h4 : pi2.reference = 4 := by
        rw [hrefs, href]
        simp only [hso, ne_eq, not_false_eq_true, if_true]
      left; left
      rw [cosm_update_pin_so c P profile st pi2 pin puk (by rw [hflags]; exact hso)]
      simp [h4, SC_SUCCESS]

/-- The credential that `cosm_select_pin_reference` returns for a credential
without a reference, in `cosm_create_pin`, by the eight combinations of the
SO-pin, unblocking-pin and LOCAL flags. -/
theorem cosm_select_then_create_pin_flags {σ : Type} (c : Consts) (P : CardPrims σ)
    (profile : Profile) (st : State σ) (pin_info : PinInfo) (pin puk : Option (List Nat))
    (appdf : ScFile) (happ : profile.get_file "OberthurAWP-AppDF" = .ok appdf)
    (href : pin_info.reference ≤ 0) :
    let so := pin_info.flags &&& c.SC_PKCS15_PIN_FLAG_SO_PIN ≠ 0
    let unb := pin_info.flags &&& c.SC_PKCS15_PIN_FLAG_UNBLOCKING_PIN ≠ 0
    let loc := pin_info.flags &&& c.SC_PKCS15_PIN_FLAG_LOCAL ≠ 0
    let accepted := (so ∧ ¬ loc ∧ ¬ unb) ∨ (¬ so ∧ loc)
    let pi1 := (cosm_select_pin_reference c profile pin_info).2
    let r := cosm_create_pin c P profile st pi1 pin puk
    (cosm_select_pin_reference c profile pin_info).1 = SC_SUCCESS
    ∧ (cosm_create_pin_check c pi1 = none ↔ accepted)
    ∧ (accepted → (so → pi1.reference = 4) ∧ (¬ so → unb → pi1.reference = 0x84)
        ∧ (¬ so → ¬ unb → pi1.reference = 0x81))
    ∧ (¬ accepted →
        (r.1 = Rv.err ScError.INVALID_PIN_REFERENCE ∨ r.1 = Rv.err ScError.NOT_SUPPORTED)
        ∧ r.2.2 = st)
    ∧ (accepted → (pin = none ∨ pin = some []) → r.1 = Rv.ok 0 ∧ r.2.2 = st)
    ∧ (accepted →
        (r.1 = Rv.err ScError.INVALID_PIN_REFERENCE ∨ r.1 = Rv.err ScError.NOT_SUPPORTED) →
        r.2.2.trace ≠ st.trace)
    ∧ (¬ so → ¬ unb → ¬ loc →
        pi1.reference = 1 ∧ r.1 = Rv.err ScError.INVALID_PIN_REFERENCE) := by
  intro so unb loc accepted pi1 r
  obtain ⟨hs1, hs2, hs3⟩ := cosm_select_pin_reference_unassigned c profile pin_info appdf happ href
  have hr : r = _ := cosm_create_pin_cases c P profile st pi1 pin puk appdf happ
  have hpass := cosm_create_pin_past_table c P profile st pi1 pin puk appdf happ
  change (pi1.flags = pin_info.flags) at hs2
  change (pi1.reference = _) at hs3
  change (¬ (pi1.flags &&& c.SC_PKCS15_PIN_FLAG_SO_PIN ≠ 0
      ∧ pi1.flags &&& c.SC_PKCS15_PIN_FLAG_UNBLOCKING_PIN ≠ 0) → _ →
    ((r.1 = _ ∨ r.1 = _) ∨ st.trace.length < r.2.2.trace.length)) at hpass
  rw [hs2] at hr hpass
  have hchk : cosm_create_pin_check c pi1 =
      (if so then (if unb then some ScError.NOT_SUPPORTED
          else if pi1.reference ≠ 4 then some ScError.INVALID_PIN_REFERENCE else none)
        else if unb then
          (if pi1.reference ≠ 0x84 then some ScError.INVALID_PIN_REFERENCE else none)
        else (if pi1.reference ≠ 0x81 then some ScError.INVALID_PIN_REFERENCE else none)) := by
    simp only [cosm_create_pin_check, hs2, so, unb]
  rw [hchk]
  generalize (if pin_info.flags &&& c.SC_PKCS15_PIN_FLAG_LOCAL ≠ 0
      then { pi1 with path := appdf.path } else pi1) = pi2 at hr
  clear_value r pi1
  by_cases hso : pin_info.flags &&& c.SC_PKCS15_PIN_FLAG_SO_PIN = 0 <;>
  by_cases hun : pin_info.flags &&& c.SC_PKCS15_PIN_FLAG_UNBLOCKING_PIN = 0 <;>
  by_cases hlo : pin_info.flags &&& c.SC_PKCS15_PIN_FLAG_LOCAL = 0 <;>
  simp only [hso, hun, hlo, ne_eq, not_true_eq_false, not_false_eq_true, if_true, if_false,
    Nat.cast_ofNat, and_false, false_and, and_self, and_true, true_and, or_false, false_or,
    not_and, not_or, true_implies, false_implies, implies_true, accepted, so, unb, loc] at hs3 hr hpass ⊢
  all_goals
    simp only [show ((1 ||| 0 : Nat) : Int) = 1 by decide,
      show ((1 ||| 128 : Nat) : Int) = 129 by decide,
      show ((4 ||| 0 : Nat) : Int) = 4 by decide,
      show ((4 ||| 128 : Nat) : Int) = 132 by decide] at hs3
    simp only [hs3, show ¬ ((1 : Int) = 129) by decide, show ¬ ((4 : Int) = 132) by decide,
      show ¬ ((132 : Int) = 4) by decide, not_true_eq_false, not_false_eq_true, if_true,
      if_false, true_implies, iff_true, iff_false, reduceCtorEq] at hr hpass ⊢
    first
    | (refine ⟨hs1, trivial, trivial, ?_, ?_⟩
       · intro hp
         rw [hr, if_pos hp]
         exact ⟨rfl, rfl⟩
       · intro hrv htr
         rcases hpass with (h | h) | h
         · rw [h] at hrv
           simp at hrv
         · rw [h] at hrv
           simp at hrv
         · rw [htr] at h
           exact absurd h (Nat.lt_irrefl _))
    | (subst hr
       simp [hs1])

/-- C23, amended: for a credential without a reference, when the profile
defines the AppDF, `cosm_create_pin` refuses the reference that
`cosm_select_pin_reference` assigns (returns `INVALID_PIN_REFERENCE` or
`NOT_SUPPORTED` without having issued a command) exactly when the credential
is not accepted, where the accepted credentials are the SO pin that is neither
local nor unblocking (reference 4) and every credential that is not an SO pin
and is local (`0x81` for a user pin, `0x84` for a user PUK). A credential that
is not accepted is refused in the state before the call; an accepted one
without PIN data gets success, and gets one of the two codes only after a
command was issued, when the card reports it. A default user pin that is not
local is assigned reference 1 and refused with `INVALID_PIN_REFERENCE`. -/
theorem cosm_select_then_create_pin {σ : Type} (c : Consts) (P : CardPrims σ)
    (profile : Profile) (st : State σ) (pin_info : PinInfo) (pin puk : Option (List Nat))
    (appdf : ScFile) (happ : profile.get_file "OberthurAWP-AppDF" = .ok appdf)
    (href : pin_info.reference ≤ 0) :
    let so := pin_info.flags &&& c.SC_PKCS15_PIN_FLAG_SO_PIN ≠ 0
    let unb := pin_info.flags &&& c.SC_PKCS15_PIN_FLAG_UNBLOCKING_PIN ≠ 0
    let loc := pin_info.flags &&& c.SC_PKCS15_PIN_FLAG_LOCAL ≠ 0
    let accepted := (so ∧ ¬ loc ∧ ¬ unb) ∨ (¬ so ∧ loc)
    let pi1 := (cosm_select_pin_reference c profile pin_info).2
    let r := cosm_create_pin c P profile st pi1 pin puk
    (cosm_select_pin_reference c profile pin_info).1 = SC_SUCCESS
    ∧ (cosm_create_pin_check c pi1 = none ↔ accepted)
    ∧ (accepted → (so → pi1.reference = 4) ∧ (¬ so → unb → pi1.reference = 0x84)
        ∧ (¬ so → ¬ unb → pi1.reference = 0x81))
    ∧ (¬ accepted →
        (r.1 = Rv.err ScError.INVALID_PIN_REFERENCE ∨ r.1 = Rv.err ScError.NOT_SUPPORTED)
        ∧ r.2.2 = st)
    ∧ (accepted → (pin = none ∨ pin = some []) → r.1 = Rv.ok 0 ∧ r.2.2 = st)
    ∧ (accepted →
        (r.1 = Rv.err ScError.INVALID_PIN_REFERENCE ∨ r.1 = Rv.err ScError.NOT_SUPPORTED) →
        r.2.2.trace ≠ st.trace)
    ∧ (¬ so → ¬ unb → ¬ loc →
        pi1.reference = 1 ∧ r.1 = Rv.err ScError.INVALID_PIN_REFERENCE)
    ∧ (((r.1 = Rv.err ScError.INVALID_PIN_REFERENCE ∨ r.1 = Rv.err ScError.NOT_SUPPORTED)
          ∧ r.2.2.trace = st.trace) ↔ ¬ accepted) := by
  intro so unb loc accepted pi1 r
  obtain ⟨h1, h2, h3, h4, h5, h6, h7⟩ :=
    cosm_select_then_create_pin_flags c P profile st pin_info pin puk appdf happ href
  refine ⟨h1, h2, h3, h4, h5, h6, h7, ?_⟩
  constructor
  · rintro ⟨hrv, htr⟩ hacc
    exact h6 hacc hrv htr
  · intro hn
    obtain ⟨g1, g2⟩ := h4 hn
    exact ⟨g1, by rw [g2]⟩

/-- Witness of C23, amended: under the sample profile, the default user pin without
flags is assigned reference 1 and refused with `INVALID_PIN_REFERENCE`, and the
local user pin is assigned `0x81` and accepted. -/
theorem cosm_select_then_create_pin_witness :
    (sample_profile 16 0).get_file "OberthurAWP-AppDF" = .ok sample_appdf
    ∧ sample_default_user_pin.reference ≤ 0
    ∧ sample_local_user_pin.reference ≤ 0
    ∧ ((cosm_select_pin_reference sample_consts (sample_profile 16 0)
          sample_default_user_pin).2.reference = 1
      ∧ (cosm_create_pin sample_consts accepting_prims (sample_profile 16 0) accepting_state
          (cosm_select_pin_reference sample_consts (sample_profile 16 0)
            sample_default_user_pin).2 (some [0x31, 0x32, 0x33, 0x34]) none).1
        = Rv.err ScError.INVALID_PIN_REFERENCE)
    ∧ ((cosm_select_pin_reference sample_consts (sample_profile 16 0)
          sample_local_user_pin).2.reference = 0x81
      ∧ (cosm_create_pin sample_consts accepting_prims (sample_profile 16 0) accepting_state
          (cosm_select_pin_reference sample_consts (sample_profile 16 0)
            sample_local_user_pin).2 none none).1 = Rv.ok 0) :=
  ⟨by rfl, by decide, by decide,
    (cosm_select_then_create_pin sample_consts accepting_prims (sample_profile 16 0)
      accepting_state sample_default_user_pin (some [0x31, 0x32, 0x33, 0x34]) none
      sample_appdf (by rfl) (by decide)).2.2.2.2.2.2.1 (by decide) (by decide) (by decide),
    ((cosm_select_then_create_pin sample_consts accepting_prims (sample_profile 16 0)
      accepting_state sample_local_user_pin none none
      sample_appdf (by rfl) (by decide)).2.2.1 (Or.inr ⟨by decide, by decide⟩)).2.2
        (by decide) (by decide),
    ((cosm_select_then_create_pin sample_consts accepting_prims (sample_profile 16 0)
      accepting_state sample_local_user_pin none none
      sample_appdf (by rfl) (by decide)).2.2.2.2.1 (Or.inr ⟨by decide, by decide⟩)
        (Or.inl rfl)).1⟩

/-! ## Termination of the type resolution -/

/-- C24: the loop of `cosm_new_file` ends within two passes for every type.
With at least two passes allowed the result is the one of two passes, and
`cosm_new_file` returns. A type that a case of the switch matches ends the loop
in the first pass; an unmatched type without a bit outside the class mask ends
it in the first pass with `INVALID_ARGUMENTS`; an unmatched type with such a bit
is reduced to its class bits, and the second pass ends with the template of the
class bits or with `INVALID_ARGUMENTS`. -/
theorem cosm_new_file_resolve_terminates (c : Consts) (profile : Profile)
    (fuel type num : Nat) (hfuel : 2 ≤ fuel) :
    (∃ r, cosm_new_file_resolve c 2 type = some r ∧ cosm_new_file_resolve c fuel type = some r)
    ∧ (∃ out, cosm_new_file c profile fuel type num = some out)
    ∧ (∀ t, cosm_new_file_switch c type = some t →
        cosm_new_file_resolve c 1 type = some (.ok t)
        ∧ cosm_new_file_resolve c fuel type = some (.ok t))
    ∧ (cosm_new_file_switch c type = none →
        type &&& bnot32 c.SC_PKCS15_TYPE_CLASS_MASK = 0 →
        cosm_new_file_resolve c 1 type = some (.error ScError.INVALID_ARGUMENTS)
        ∧ cosm_new_file_resolve c fuel type = some (.error ScError.INVALID_ARGUMENTS))
    ∧ (cosm_new_file_switch c type = none →
        type &&& bnot32 c.SC_PKCS15_TYPE_CLASS_MASK ≠ 0 →
        cosm_new_file_resolve c fuel type
          = cosm_new_file_resolve c 1 (type &&& c.SC_PKCS15_TYPE_CLASS_MASK)
        ∧ cosm_new_file_resolve c 1 (type &&& c.SC_PKCS15_TYPE_CLASS_MASK)
          = some (match cosm_new_file_switch c (type &&& c.SC_PKCS15_TYPE_CLASS_MASK) with
              | some t => .ok t
              | none => .error ScError.INVALID_ARGUMENTS)) := by
  obtain ⟨k, rfl⟩ : ∃ k, fuel = k + 2 := ⟨fuel - 2, by omega⟩
  have h2 := cosm_new_file_resolve_two_step c 2 type (Nat.le_refl _)
  have hk := cosm_new_file_resolve_two_step c (k + 2) type hfuel
  have hone : ∀ ty, cosm_new_file_switch c ty = none →
      ty &&& bnot32 c.SC_PKCS15_TYPE_CLASS_MASK = 0 →
      cosm_new_file_resolve c 1 ty = some (.error ScError.INVALID_ARGUMENTS) := by
    intro ty hs hz
    simp [cosm_new_file_resolve, hs, hz]
  refine ⟨⟨_, h2, hk⟩, ?_, ?_, ?_, ?_⟩
  · unfold cosm_new_file
    rw [hk]
    cases two_step_resolve_type c type with
    | none => exact ⟨_, rfl⟩
    | some t =>
      simp only
      cases profile.get_file t.1 with
      | error e => exact ⟨_, rfl⟩
      | ok f => exact ⟨_, rfl⟩
  · intro t ht
    simp [cosm_new_file_resolve, ht]
  · intro hs hz
    refine ⟨hone type hs hz, ?_⟩
    simp [cosm_new_file_resolve, hs, hz]
  · intro hs hz
    refine ⟨?_, ?_⟩
    · simp [cosm_new_file_resolve, hs, hz, and_mask_bnot32]
    · cases hm : cosm_new_file_switch c (type &&& c.SC_PKCS15_TYPE_CLASS_MASK) with
      | some t => simp [cosm_new_file_resolve, hm]
      | none => exact hone _ hm (and_mask_bnot32 _ _)

/-- Witness of C24: the type `0x401` under the sample constants, a type of the
certificate class `0x400`: one pass is not enough, two passes find
`template-certificate`, and five passes give the result of two. -/
theorem cosm_new_file_resolve_terminates_witness :
    (2 ≤ 5)
    ∧ (∃ r, cosm_new_file_resolve sample_consts 2 0x401 = some r
        ∧ cosm_new_file_resolve sample_consts 5 0x401 = some r)
    ∧ cosm_new_file_resolve sample_consts 1 0x401 = none
    ∧ cosm_new_file_resolve sample_consts 2 0x401
        = some (.ok ("template-certificate", 0xFFFFFFFF)) :=
  ⟨by decide,
    (cosm_new_file_resolve_terminates sample_consts (sample_profile 16 0) 5 0x401 0
      (by decide)).1,
    by rfl, by rfl⟩

/-! ## The round trip of a label that is not passed as argument -/

/-- C2, the failing input: with the sample profile (TokenInfo file of 16
bytes), no label argument (as both callers pass it), the card label
`ABCDEFGHIJKL` of 12 bytes and the status bits PRN-generation and
token-initialized (flag word `0x84`), `cosm_write_tokeninfo` writes the record
`ABCDEFGHIJK`, one space, `00 00 04 01`. The record decodes to exactly the two
status bits, but its label is not the card label fitted to `size - 4 = 12`
bytes: the twelfth character is lost. -/
theorem cosm_write_tokeninfo_roundtrip_card_label :
    (cosm_write_tokeninfo sample_consts accepting_prims (sample_profile 16 0)
        (card_label_state [65, 66, 67, 68, 69, 70, 71, 72, 73, 74, 75, 76]) none 0x84).2.trace
      = [CardCmd.update (sample_token_info 16)
          [65, 66, 67, 68, 69, 70, 71, 72, 73, 74, 75, 0x20, 0, 0, 0x04, 0x01]]
    ∧ tokeninfo_decode_status
        [65, 66, 67, 68, 69, 70, 71, 72, 73, 74, 75, 0x20, 0, 0, 0x04, 0x01]
      = { prn_generation := true, login_required := false, user_pin_initialized := false,
          token_initialized := true }
    ∧ tokeninfo_decode_label
        [65, 66, 67, 68, 69, 70, 71, 72, 73, 74, 75, 0x20, 0, 0, 0x04, 0x01]
      = [65, 66, 67, 68, 69, 70, 71, 72, 73, 74, 75, 0x20]
    ∧ label_fit [65, 66, 67, 68, 69, 70, 71, 72, 73, 74, 75, 76] (16 - 4)
      = [65, 66, 67, 68, 69, 70, 71, 72, 73, 74, 75, 76]
    ∧ tokeninfo_decode_label
        [65, 66, 67, 68, 69, 70, 71, 72, 73, 74, 75, 0x20, 0, 0, 0x04, 0x01]
      ≠ label_fit [65, 66, 67, 68, 69, 70, 71, 72, 73, 74, 75, 76] (16 - 4) := by
  refine ⟨by decide, by decide, by decide, by decide, by decide⟩

/-! ## Error codes of the card in `cosm_create_pin` -/

/-- Counterexample to C12 as stated: under the sample profile, the user pin
`sample_user_pin` has neither the SO-pin nor the unblocking-pin flag and the
required reference `0x81`; with PIN data, on a card that answers the select of
the PIN path with `NOT_SUPPORTED`, `cosm_create_pin` returns `NOT_SUPPORTED`, and
on a card that answers it with `INVALID_PIN_REFERENCE`, it returns
`INVALID_PIN_REFERENCE`; the select is in the trace. -/
theorem cosm_create_pin_card_error_propagates :
    (sample_profile 16 0).get_file "OberthurAWP-AppDF" = .ok sample_appdf
    ∧ sample_user_pin.flags &&& sample_consts.SC_PKCS15_PIN_FLAG_SO_PIN = 0
    ∧ sample_user_pin.flags &&& sample_consts.SC_PKCS15_PIN_FLAG_UNBLOCKING_PIN = 0
    ∧ sample_user_pin.reference = 0x81
    ∧ cosm_create_pin sample_consts (select_refusing_prims ScError.NOT_SUPPORTED)
          (sample_profile 16 0) accepting_state sample_user_pin
          (some [0x31, 0x32, 0x33, 0x34]) none
        = (Rv.err ScError.NOT_SUPPORTED, sample_user_pin,
            { accepting_state with trace := [CardCmd.select [0x3F, 0x00, 0x50, 0x11]] })
    ∧ cosm_create_pin sample_consts (select_refusing_prims ScError.INVALID_PIN_REFERENCE)
          (sample_profile 16 0) accepting_state sample_user_pin
          (some [0x31, 0x32, 0x33, 0x34]) none
        = (Rv.err ScError.INVALID_PIN_REFERENCE, sample_user_pin,
            { accepting_state with trace := [CardCmd.select [0x3F, 0x00, 0x50, 0x11]] }) := by
  refine ⟨by rfl, by decide, by decide, by decide, by rfl, by rfl⟩

/-- Counterexample to C23 as stated: under the sample profile, the local user
pin without a reference is assigned `0x81` by `cosm_select_pin_reference`, is
not an SO pin and is local; with PIN data, on a card that answers the
create-pin request with `INVALID_PIN_REFERENCE`, `cosm_create_pin` returns
`INVALID_PIN_REFERENCE` for it, after the select and the request. -/
theorem cosm_select_then_create_pin_card_refuses :
    (sample_profile 16 0).get_file "OberthurAWP-AppDF" = .ok sample_appdf
    ∧ sample_local_user_pin.reference ≤ 0
    ∧ sample_local_user_pin.flags &&& sample_consts.SC_PKCS15_PIN_FLAG_SO_PIN = 0
    ∧ sample_local_user_pin.flags &&& sample_consts.SC_PKCS15_PIN_FLAG_LOCAL ≠ 0
    ∧ (cosm_select_pin_reference sample_consts (sample_profile 16 0)
        sample_local_user_pin).2.reference = 0x81
    ∧ (cosm_create_pin sample_consts (create_pin_refusing_prims ScError.INVALID_PIN_REFERENCE)
          (sample_profile 16 0) accepting_state
          (cosm_select_pin_reference sample_consts (sample_profile 16 0)
            sample_local_user_pin).2
          (some [0x31, 0x32, 0x33, 0x34]) none).1 = Rv.err ScError.INVALID_PIN_REFERENCE
    ∧ (cosm_create_pin sample_consts (create_pin_refusing_prims ScError.INVALID_PIN_REFERENCE)
          (sample_profile 16 0) accepting_state
          (cosm_select_pin_reference sample_consts (sample_profile 16 0)
            sample_local_user_pin).2
          (some [0x31, 0x32, 0x33, 0x34]) none).2.2.trace
        = [ CardCmd.select [0x3F, 0x00, 0x50, 0x11],
            CardCmd.ctl_create_pin
              { type := AcMethod.CHV, ref := 0x81, pin := [0x31, 0x32, 0x33, 0x34], pin_len := 4,
                pin_tries := 3, puk := none, puk_len := 0, puk_tries := 0 } ] := by
  refine ⟨by rfl, by decide, by decide, by decide, by decide, by decide, by decide⟩

/-! ## The abort policy of `cosm_create_dir` -/

/-- The loop of `cosm_create_dir` over creates with tolerated results: it goes
on with the remaining names from the state after these creates. -/
theorem cosm_create_dir_loop_tolerated {σ : Type} (P : CardPrims σ) (profile : Profile)
    (fs : List ScFile) (names : List String) (s : State σ)
    (hfs : (names.take fs.length).map profile.get_file = fs.map Except.ok)
    (hlen : fs.length ≤ names.length) (htol : creates_tolerated P fs s = true) :
    cosm_create_dir_loop P profile names s
      = cosm_create_dir_loop P profile (names.drop fs.length) (create_all P fs s) := by
  induction fs generalizing names s with
  | nil => rfl
  | cons f fs ih =>
    cases names with
    | nil => simp at hlen
    | cons name rest =>
      simp only [List.length_cons, List.take_succ_cons, List.map_cons, List.cons.injEq] at hfs
      obtain ⟨hf, hrest⟩ := hfs
      simp only [creates_tolerated, Bool.and_eq_true] at htol
      obtain ⟨ht, htol2⟩ := htol
      have hgo : ¬ ((sc_pkcs15init_create_file P s f).1 ≠ Rv.err ScError.FILE_ALREADY_EXISTS
          ∧ (sc_pkcs15init_create_file P s f).1.isErr = true) := by
        simp only [create_tolerated, Bool.or_eq_true, decide_eq_true_eq, Bool.not_eq_true'] at ht
        rintro ⟨h1, h2⟩
        rcases ht with ht | ht
        · exact h1 ht
        · rw [ht] at h2
          exact absurd h2 (by simp)
      have hstep : cosm_create_dir_loop P profile (name :: rest) s
          = cosm_create_dir_loop P profile rest (sc_pkcs15init_create_file P s f).2 := by
        simp only [cosm_create_dir_loop, hf, if_neg hgo]
      rw [hstep, ih rest _ hrest (by simpa using hlen) htol2]
      rfl

/-- The remaining names from an index inside the list. -/
theorem drop_of_getElem? (names : List String) (k : Nat) (name : String)
    (h : names[k]? = some name) : names.drop k = name :: names.drop (k + 1) := by
  induction names generalizing k with
  | nil => simp at h
  | cons a rest ih =>
    cases k with
    | zero =>
      simp only [List.getElem?_cons_zero, Option.some.injEq] at h
      simp [h]
    | succ k =>
      simp only [List.getElem?_cons_succ] at h
      simpa using ih k h

/-- C15: `cosm_create_dir` issues its creates in the order root descriptor,
AppDF, private-DF, public-DF, token-info, puk-file, container-list,
public-list, private-list, and stops at the first failure. A root create that
fails ends the call with its error after that one create. After a root create
that did not fail and creates of the templates `fs` of the first names that all
reported no error or `FILE_ALREADY_EXISTS`: if the next name has no template the
call returns `INCONSISTENT_PROFILE`, and if the create of its template fails with
an error other than `FILE_ALREADY_EXISTS` the call returns that error; in both
cases the state is the one after the creates issued so far, so no later create
and no TokenInfo update is issued; if all eight were created the call is the
TokenInfo write in the state after them. The commands of these states are the
creates, in order. -/
theorem cosm_create_dir_order {σ : Type} (c : Consts) (P : CardPrims σ) (profile : Profile)
    (st : State σ) (df : ScFile) :
    create_dfs = ["OberthurAWP-AppDF", "private-DF", "public-DF", "OberthurAWP-token-info",
      "OberthurAWP-puk-file", "OberthurAWP-container-list", "OberthurAWP-public-list",
      "OberthurAWP-private-list"]
    ∧ (∀ e, (sc_pkcs15init_create_file P st df).1 = Rv.err e →
        cosm_create_dir c P profile st df = (Rv.err e, create_all P [df] st))
    ∧ (∀ fs : List ScFile,
        (sc_pkcs15init_create_file P st df).1.isErr = false →
        (create_dfs.take fs.length).map profile.get_file = fs.map Except.ok →
        fs.length ≤ create_dfs.length →
        creates_tolerated P fs (create_all P [df] st) = true →
        (∀ name e, create_dfs[fs.length]? = some name → profile.get_file name = .error e →
          cosm_create_dir c P profile st df
            = (Rv.err ScError.INCONSISTENT_PROFILE, create_all P (df :: fs) st))
        ∧ (∀ name f e, create_dfs[fs.length]? = some name → profile.get_file name = .ok f →
            (sc_pkcs15init_create_file P (create_all P (df :: fs) st) f).1 = Rv.err e →
            e ≠ ScError.FILE_ALREADY_EXISTS →
            cosm_create_dir c P profile st df
              = (Rv.err e, create_all P (df :: (fs ++ [f])) st))
        ∧ (fs.length = create_dfs.length →
            cosm_create_dir c P profile st df
              = cosm_write_tokeninfo c P profile (create_all P (df :: fs) st) none
                  (c.SC_PKCS15_CARD_FLAG_TOKEN_INITIALIZED
                    ||| c.SC_PKCS15_CARD_FLAG_PRN_GENERATION)))
    ∧ (∀ fs : List ScFile,
        (create_all P (df :: fs) st).trace = st.trace ++ (df :: fs).map CardCmd.create
        ∧ (create_all P (df :: fs) st).flags = st.flags
        ∧ (create_all P (df :: fs) st).p15_spec = st.p15_spec) := by
  refine ⟨rfl, ?_, ?_, ?_⟩
  · intro e he
    simp only [cosm_create_dir, he, isErr_err, if_true, create_all]
    rw [← he]
  · intro fs hroot hfs hlen htol
    have hdir : cosm_create_dir c P profile st df
        = if (cosm_create_dir_loop P profile (create_dfs.drop fs.length)
              (create_all P (df :: fs) st)).1.isErr
          then cosm_create_dir_loop P profile (create_dfs.drop fs.length)
              (create_all P (df :: fs) st)
          else cosm_write_tokeninfo c P profile
            (cosm_create_dir_loop P profile (create_dfs.drop fs.length)
              (create_all P (df :: fs) st)).2 none
            (c.SC_PKCS15_CARD_FLAG_TOKEN_INITIALIZED
              ||| c.SC_PKCS15_CARD_FLAG_PRN_GENERATION) := by
      have hl := cosm_create_dir_loop_tolerated P profile fs create_dfs
        (create_all P [df] st) hfs hlen htol
      simp only [cosm_create_dir, hroot, Bool.false_eq_true, if_false]
      rw [show (sc_pkcs15init_create_file P st df).2 = create_all P [df] st from rfl, hl]
      rfl
    refine ⟨?_, ?_, ?_⟩
    · intro name e hname hmiss
      rw [hdir, drop_of_getElem? _ _ _ hname]
      simp only [cosm_create_dir_loop, hmiss, isErr_err, if_true]
    · intro name f e hname hf hfail hne
      have hstop : (sc_pkcs15init_create_file P (create_all P (df :: fs) st) f).1
            ≠ Rv.err ScError.FILE_ALREADY_EXISTS
          ∧ (sc_pkcs15init_create_file P (create_all P (df :: fs) st) f).1.isErr = true := by
        rw [hfail]
        exact ⟨fun h => hne (Rv.err.inj h), rfl⟩
      have hloop : cosm_create_dir_loop P profile (create_dfs.drop fs.length)
            (create_all P (df :: fs) st)
          = (Rv.err e, create_all P (df :: (fs ++ [f])) st) := by
        rw [drop_of_getElem? _ _ _ hname]
        simp only [cosm_create_dir_loop, hf, if_pos hstop]
        rw [show df :: (fs ++ [f]) = (df :: fs) ++ [f] from rfl, create_all_snoc, ← hfail]
      rw [hdir, hloop]
      simp only [isErr_err, if_true]
    · intro hall
      have hdrop : create_dfs.drop fs.length = [] := by
        rw [hall]
        exact List.drop_length _
      rw [hdir, hdrop]
      simp only [cosm_create_dir_loop, isErr_ok, Bool.false_eq_true, if_false]
  · intro fs
    obtain ⟨h1, _, h3, h4⟩ := create_all_trace P (df :: fs) st
    exact ⟨h1, h3, h4⟩

/-- Witness of C15: the sample profile on a card that refuses the create of the
PUK file `3F00 5011 2000` with the card error 3. After the creates of the root
descriptor, the AppDF, the private DF, the public DF and the TokenInfo file,
the create of the PUK file fails and `cosm_create_dir` returns the card error 3;
its trace holds these six creates and nothing else. -/
theorem cosm_create_dir_order_witness :
    cosm_create_dir sample_consts
        (create_refusing_prims [0x3F, 0x00, 0x50, 0x11, 0x20, 0x00] (ScError.CARD 3))
        (sample_profile 17 0) accepting_state sample_root_df
      = (Rv.err (ScError.CARD 3),
          create_all (create_refusing_prims [0x3F, 0x00, 0x50, 0x11, 0x20, 0x00] (ScError.CARD 3))
            (sample_root_df ::
              ([ sample_appdf,
                 sample_file [0x3F, 0x00, 0x50, 0x11, 0x90, 0x02] 0x9002 0 ScFileType.DF,
                 sample_file [0x3F, 0x00, 0x50, 0x11, 0x90, 0x01] 0x9001 0 ScFileType.DF,
                 sample_token_info 17 ]
                ++ [sample_file [0x3F, 0x00, 0x50, 0x11, 0x20, 0x00] 0x2000 16
                      ScFileType.WORKING_EF]))
            accepting_state)
    ∧ (cosm_create_dir sample_consts
        (create_refusing_prims [0x3F, 0x00, 0x50, 0x11, 0x20, 0x00] (ScError.CARD 3))
        (sample_profile 17 0) accepting_state sample_root_df).2.trace
      = [ CardCmd.create sample_root_df,
          CardCmd.create sample_appdf,
          CardCmd.create
            (sample_file [0x3F, 0x00, 0x50, 0x11, 0x90, 0x02] 0x9002 0 ScFileType.DF),
          CardCmd.create
            (sample_file [0x3F, 0x00, 0x50, 0x11, 0x90, 0x01] 0x9001 0 ScFileType.DF),
          CardCmd.create (sample_token_info 17),
          CardCmd.create
            (sample_file [0x3F, 0x00, 0x50, 0x11, 0x20, 0x00] 0x2000 16 ScFileType.WORKING_EF) ] :=
  ⟨((cosm_create_dir_order sample_consts
        (create_refusing_prims [0x3F, 0x00, 0x50, 0x11, 0x20, 0x00] (ScError.CARD 3))
        (sample_profile 17 0) accepting_state sample_root_df).2.2.1
      [ sample_appdf,
        sample_file [0x3F, 0x00, 0x50, 0x11, 0x90, 0x02] 0x9002 0 ScFileType.DF,
        sample_file [0x3F, 0x00, 0x50, 0x11, 0x90, 0x01] 0x9001 0 ScFileType.DF,
        sample_token_info 17 ]
      (by decide) (by rfl) (by decide) (by decide)).2.1
      "OberthurAWP-puk-file"
      (sample_file [0x3F, 0x00, 0x50, 0x11, 0x20, 0x00] 0x2000 16 ScFileType.WORKING_EF)
      (ScError.CARD 3) (by rfl) (by rfl) (by decide) (by decide),
    by decide⟩

/-! ## The create of `cosm_create_key`, by the results of the card -/

/-- A `cosm_delete_file` that does not fail has issued the delete of the file
id as its last command, and no create. -/
theorem cosm_delete_file_ok_last {σ : Type} (P : CardPrims σ) (s : State σ) (df : ScFile)
    (hok : (cosm_delete_file P s df).1.isErr = false) :
    ∃ cmds, (cosm_delete_file P s df).2.trace
        = s.trace ++ cmds ++ [CardCmd.delete [(df.id >>> 8) % 256, df.id &&& 0xFF]]
      ∧ ∀ f, CardCmd.create f ∉ cmds := by
  have hpar : ∀ s : State σ, (cosm_delete_file_in_parent P s df).1.isErr = false →
      ∃ cmds, (cosm_delete_file_in_parent P s df).2.trace
          = s.trace ++ cmds ++ [CardCmd.delete [(df.id >>> 8) % 256, df.id &&& 0xFF]]
        ∧ ∀ f, CardCmd.create f ∉ cmds := by
    intro s
    unfold cosm_delete_file_in_parent
    simp only
    split
    · rename_i h1
      intro h
      simp only at h
      rw [h1] at h
      exact absurd h (by simp)
    · split
      · rename_i h2
        intro h
        rw [h2] at h
        exact absurd h (by simp)
      · intro _
        exact ⟨[CardCmd.select (df.path.take (df.path.length - 2)),
            CardCmd.authenticate (sc_select_file P s (df.path.take (df.path.length - 2))).2.1
              AcOp.DELETE],
          by simp [sc_select_file, sc_pkcs15init_authenticate, sc_delete_file], by simp⟩
  revert hok
  unfold cosm_delete_file
  split
  · simp only
    split
    · rename_i h0
      intro h
      rw [h0] at h
      exact absurd h (by simp)
    · intro h
      obtain ⟨cmds, h1, h2⟩ := hpar (sc_pkcs15init_authenticate P s df AcOp.DELETE).2 h
      refine ⟨CardCmd.authenticate df AcOp.DELETE :: cmds, ?_, ?_⟩
      · rw [h1]
        simp [sc_pkcs15init_authenticate]
      · intro f hf
        simp only [List.mem_cons] at hf
        rcases hf with hf | hf
        · cases hf
        · exact h2 f hf
  · exact hpar s

/-- The probe of `cosm_create_key` by the result of the select: not found,
found and deleted, found and not deleted, any other error. -/
theorem cosm_create_key_probe_cases {σ : Type} (P : CardPrims σ) (s : State σ) (file : ScFile)
    (ki : PrkeyInfo) :
    ((sc_select_file P s file.path).1 = Rv.err ScError.FILE_NOT_FOUND →
      cosm_create_key_probe P s file ki
        = cosm_create_key_tail P (sc_select_file P s file.path).2.2 file ki)
    ∧ ((sc_select_file P s file.path).1 = Rv.ok 0 →
        (cosm_delete_file P (sc_select_file P s file.path).2.2 file).1.isErr = false →
        cosm_create_key_probe P s file ki
          = cosm_create_key_tail P
              (cosm_delete_file P (sc_select_file P s file.path).2.2 file).2 file ki)
    ∧ ((sc_select_file P s file.path).1 = Rv.ok 0 →
        (cosm_delete_file P (sc_select_file P s file.path).2.2 file).1.isErr = true →
        cosm_create_key_probe P s file ki
          = ((cosm_delete_file P (sc_select_file P s file.path).2.2 file).1, ki,
              (cosm_delete_file P (sc_select_file P s file.path).2.2 file).2))
    ∧ (∀ e, (sc_select_file P s file.path).1 = Rv.err e → e ≠ ScError.FILE_NOT_FOUND →
        cosm_create_key_probe P s file ki
          = (Rv.err e, ki, (sc_select_file P s file.path).2.2)) := by
  refine ⟨?_, ?_, ?_, ?_⟩
  · intro h
    simp [cosm_create_key_probe, h]
  · intro h0 hd
    simp [cosm_create_key_probe, h0, hd]
  · intro h0 hd
    simp [cosm_create_key_probe, h0, hd]
  · intro e he hne
    simp [cosm_create_key_probe, he, hne, Rv.isErr]

/-- C17: for an RSA key whose path ends with the bytes `a`, `b`, a profile that
defines the private-key template and at least one pass of the loop of
`cosm_new_file` allowed. The file `create_key_file` of the call has the path of
the key, the id `a * 256 + b` and the modulus length as size, and is the same
for every slot number (initial key reference), as are the result and the state
of the call. When the probe of the path reports `FILE_NOT_FOUND`, the call goes
on: its commands are the select and the create of that file, its result is the
result of that create, and after a create that did not fail the key reference
is `b`. When the probe finds a file, `cosm_delete_file` runs on it; if that
fails the call returns its error without a create, otherwise the delete of the
file id is issued before the create of the file, the result is the result of
that create, and after a create that did not fail the key reference is `b`. Any
other error of the probe is returned. -/
theorem cosm_create_key_file_placement {σ : Type} (c : Consts) (P : CardPrims σ)
    (profile : Profile) (fuel : Nat) (st : State σ) (key_info : PrkeyInfo) (template : ScFile)
    (pre : List Nat) (a b : Nat) (hfuel : 1 ≤ fuel) (hpath : key_info.path = pre ++ [a, b])
    (htmpl : profile.get_file "template-private-key" = .ok template) :
    let file := create_key_file c template key_info
    let sel := sc_select_file P st key_info.path
    let del := cosm_delete_file P sel.2.2 file
    (file.path = key_info.path ∧ file.id = a * 256 + b ∧ file.size = key_info.modulus_length)
    ∧ (∀ n, create_key_file c template { key_info with key_reference := n } = file
        ∧ (cosm_create_key c P profile fuel st c.SC_PKCS15_TYPE_PRKEY_RSA
              { key_info with key_reference := n }).map (fun x => (x.1, x.2.2))
          = (cosm_create_key c P profile fuel st c.SC_PKCS15_TYPE_PRKEY_RSA
              key_info).map (fun x => (x.1, x.2.2)))
    ∧ (sel.1 = Rv.err ScError.FILE_NOT_FOUND →
        ∃ r, cosm_create_key c P profile fuel st c.SC_PKCS15_TYPE_PRKEY_RSA key_info = some r
          ∧ r.1 = (P.create_file sel.2.2.card file).1
          ∧ r.2.2.card = (P.create_file sel.2.2.card file).2
          ∧ r.2.2.trace = st.trace ++ [CardCmd.select key_info.path, CardCmd.create file]
          ∧ (r.1.isErr = false → r.2.1.key_reference = b))
    ∧ (sel.1 = Rv.ok 0 → del.1.isErr = false →
        ∃ r cmds, cosm_create_key c P profile fuel st c.SC_PKCS15_TYPE_PRKEY_RSA key_info = some r
          ∧ r.1 = (P.create_file del.2.card file).1
          ∧ r.2.2.card = (P.create_file del.2.card file).2
          ∧ r.2.2.trace = st.trace ++ CardCmd.select key_info.path :: cmds
              ++ [CardCmd.delete [(file.id >>> 8) % 256, file.id &&& 0xFF], CardCmd.create file]
          ∧ (∀ f, CardCmd.create f ∉ cmds)
          ∧ (r.1.isErr = false → r.2.1.key_reference = b))
    ∧ (sel.1 = Rv.ok 0 → del.1.isErr = true →
        cosm_create_key c P profile fuel st c.SC_PKCS15_TYPE_PRKEY_RSA key_info
          = some (del.1, key_info, del.2)
        ∧ ∀ f, CardCmd.create f ∉ del.2.trace.drop st.trace.length)
    ∧ (∀ e, sel.1 = Rv.err e → e ≠ ScError.FILE_NOT_FOUND →
        cosm_create_key c P profile fuel st c.SC_PKCS15_TYPE_PRKEY_RSA key_info
          = some (Rv.err e, key_info, sel.2.2)) := by
  intro file sel del
  obtain ⟨k, rfl⟩ : ∃ k, fuel = k + 1 := ⟨fuel - 1, by omega⟩
  have heq := fun ki => cosm_create_key_eq_probe c P profile k st ki
  simp only [htmpl] at heq
  have hfp : file.path = key_info.path := rfl
  have hfid : file.id = a * 256 + b := by
    simp only [file, create_key_file, hpath, (last_two_getD pre a b).1, (last_two_getD pre a b).2]
  have hlast : file.path.getD (file.path.length - 1) 0 = b := by
    rw [hfp, hpath]
    exact (last_two_getD pre a b).2
  have hsel : sel.2.2.trace = st.trace ++ [CardCmd.select key_info.path] := rfl
  obtain ⟨p1, p2, p3, p4⟩ := cosm_create_key_probe_cases P st file key_info
  refine ⟨⟨hfp, hfid, rfl⟩, ?_, ?_, ?_, ?_, ?_⟩
  · intro n
    have hsame : create_key_file c template { key_info with key_reference := n } = file := rfl
    refine ⟨hsame, ?_⟩
    rw [heq, heq, hsame]
    obtain ⟨_, _, _, _, h4⟩ := cosm_create_key_probe_spec P st file key_info
    obtain ⟨g1, g2⟩ := h4 { key_info with key_reference := n }
    simp only [Option.map_some', g1, g2]
  · intro hfnf
    have hx : cosm_create_key_probe P st file key_info
        = cosm_create_key_tail P sel.2.2 file key_info := p1 hfnf
    obtain ⟨t1, t2, t3, t4⟩ := cosm_create_key_tail_spec P sel.2.2 file key_info
    refine ⟨_, heq key_info, ?_, ?_, ?_, ?_⟩
    · rw [hx, t3]; rfl
    · rw [hx, t4]; rfl
    · rw [hx, t1, hsel]; simp
    · intro hok
      rw [hx] at hok ⊢
      exact (t2 hok).trans hlast
  · intro hok0 hdel
    have hx : cosm_create_key_probe P st file key_info
        = cosm_create_key_tail P del.2 file key_info := p2 hok0 hdel
    obtain ⟨t1, t2, t3, t4⟩ := cosm_create_key_tail_spec P del.2 file key_info
    obtain ⟨cmds, hc1, hc2⟩ := cosm_delete_file_ok_last P sel.2.2 file hdel
    refine ⟨_, cmds, heq key_info, ?_, ?_, ?_, hc2, ?_⟩
    · rw [hx, t3]; rfl
    · rw [hx, t4]; rfl
    · rw [hx, t1, show del.2.trace = _ from hc1, hsel]; simp
    · intro hok
      rw [hx] at hok ⊢
      exact (t2 hok).trans hlast
  · intro hok0 hdel
    refine ⟨(heq key_info).trans (congrArg some (p3 hok0 hdel)), ?_⟩
    obtain ⟨cmds, hc1, _, hc3⟩ := cosm_delete_file_trace P sel.2.2 file
    intro f hf
    rw [show del.2.trace = _ from hc1, hsel] at hf
    simp at hf
    exact hc3 f hf
  · intro e he hne
    exact (heq key_info).trans (congrArg some (p4 e he hne))

/-- Witness of C17: the key of `sample_key_info`, path `3F00 5011 9002 3001`
and 1024 bits, under the sample profile on the card `sample_card_key`, which
holds a file at that path: the probe finds it, `cosm_delete_file` deletes it in
its parent DF, and the file is created again with id `0x3001` and size 1024; the
call returns success and the key reference is `0x01`. -/
theorem cosm_create_key_file_placement_witness :
    (1 ≤ 2)
    ∧ sample_key_info.path = [0x3F, 0x00, 0x50, 0x11, 0x90, 0x02] ++ [0x30, 0x01]
    ∧ (sample_profile 16 0).get_file "template-private-key" = .ok sample_prkey_template
    ∧ (sc_select_file (fileCardPrims sample_oracle) (sample_state sample_card_key)
        sample_key_info.path).1 = Rv.ok 0
    ∧ ∃ r cmds, cosm_create_key sample_consts (fileCardPrims sample_oracle)
          (sample_profile 16 0) 2 (sample_state sample_card_key)
          sample_consts.SC_PKCS15_TYPE_PRKEY_RSA sample_key_info = some r
      ∧ r.1 = Rv.ok 0
      ∧ r.2.2.trace = (sample_state sample_card_key).trace
          ++ CardCmd.select sample_key_info.path :: cmds
          ++ [CardCmd.delete [0x30, 0x01],
              CardCmd.create
                { sample_prkey_template with
                  path := [0x3F, 0x00, 0x50, 0x11, 0x90, 0x02, 0x30, 0x01]
                  id := 0x3001
                  size := 1024
                  ef_structure := 0xA3 }]
      ∧ (∀ f, CardCmd.create f ∉ cmds)
      ∧ r.2.1.key_reference = 0x01 := by
  refine ⟨by decide, rfl, by rfl, by decide, ?_⟩
  obtain ⟨r, cmds, h1, h2, _, h4, h5, h6⟩ :=
    (cosm_create_key_file_placement sample_consts (fileCardPrims sample_oracle)
      (sample_profile 16 0) 2 (sample_state sample_card_key) sample_key_info
      sample_prkey_template [0x3F, 0x00, 0x50, 0x11, 0x90, 0x02] 0x30 0x01
      (by decide) rfl (by rfl)).2.2.2.1 (by decide) (by decide)
  have hr : r.1 = Rv.ok 0 := h2.trans (by decide)
  exact ⟨r, cmds, h1, hr, h4, h5, h6 (by rw [hr]; rfl)⟩

end Oberthur
